import Mathlib

/-!
Shallow embedding of the retirement-planner drawdown engine
(src/utils/withdrawals.ts and its collaborators) in Lean 4.

Conventions of the embedding:
* TypeScript `number` is modelled by `ℚ` (the arithmetic performed by the
  engine is +, -, *, /, min, max and integer powers, which are exact on ℚ).
* Profile ages and the simulated age are modelled as integers (`ℤ`): the
  simulation iterates integer year offsets from the retirement age, so every
  simulated age is `retirementAge + i`.  Fractional constants such as the
  penalty age 59.5 stay in `ℚ` and integer ages are cast where compared.
* JavaScript objects keyed by account id (`Record<string, number>`) are
  modelled as association lists (`List (String × ℚ)`) with the JS
  assignment semantics (`objSet`): overwrite when the key exists, append
  otherwise.
* Optional parameters / fields are `Option`; JS truthiness checks
  (`x || d`, `if (x && y)`) are modelled so that `none` and `0` behave like
  the falsy values they are in the source.
* `new Date().getFullYear()` is a hidden input of the source; the embedding
  takes the current calendar year as an explicit argument `currentYear`.
* Functions of the repository that are not under src/ (utils/taxes.ts,
  utils/projections.ts, countries/usa/*, countries/canada/{taxes,benefits,
  withdrawals,constants}.ts) are modelled from the specification and from
  the values pinned by the in-repo test suite; each such definition carries
  a doc comment saying so.
-/

/-- Tax treatment classification of an account type
(src/types/index.ts `TaxTreatment`). -/
inductive TaxTreatment where
  | pretax
  | roth
  | taxable
  | hsa
deriving DecidableEq

/-- src/types/index.ts `getTaxTreatment`: maps an account-type tag to its
tax treatment; unknown tags default to `taxable`. -/
def getTaxTreatment (accountType : String) : TaxTreatment :=
  match accountType with
  | "traditional_401k" => .pretax
  | "traditional_ira" => .pretax
  | "roth_401k" => .roth
  | "roth_ira" => .roth
  | "taxable" => .taxable
  | "hsa" => .hsa
  | "rrsp" => .pretax
  | "rrif" => .pretax
  | "lira" => .pretax
  | "lif" => .pretax
  | "fhsa" => .pretax
  | "employer_rrsp" => .pretax
  | "tfsa" => .roth
  | "non_registered" => .taxable
  | _ => .taxable

/-- src/types/index.ts `isTraditional` (fallback traditional test used when
no country config is supplied). -/
def isTraditional (accountType : String) : Bool :=
  accountType == "traditional_401k" || accountType == "traditional_ira"

/-- src/types/index.ts `AccountWithdrawalRules`. -/
structure AccountWithdrawalRules where
  startAge : ℚ
deriving DecidableEq

/-- src/types/index.ts `Account`. -/
structure Account where
  id : String
  name : String
  type : String
  balance : ℚ
  annualContribution : ℚ
  contributionGrowthRate : ℚ
  returnRate : ℚ
  employerMatchPercent : Option ℚ := none
  employerMatchLimit : Option ℚ := none
  withdrawalRules : Option AccountWithdrawalRules := none
deriving DecidableEq

/-- src/types/index.ts `Profile` (ages modelled as integers, see header). -/
structure Profile where
  currentAge : ℤ
  retirementAge : ℤ
  lifeExpectancy : ℤ
  region : Option String := none
  filingStatus : Option String := none
  stateTaxRate : Option ℚ := none
  annualIncome : Option ℚ := none
  socialSecurityBenefit : Option ℚ := none
  socialSecurityStartAge : Option ℤ := none
  secondaryBenefitStartAge : Option ℤ := none
  secondaryBenefitAmount : Option ℚ := none
deriving DecidableEq

/-- src/types/index.ts `Assumptions`. -/
structure Assumptions where
  inflationRate : ℚ
  safeWithdrawalRate : ℚ
  retirementReturnRate : ℚ
deriving DecidableEq

/-- src/types/index.ts `IncomeTaxTreatment`. -/
inductive IncomeTaxTreatment where
  | social_security
  | fully_taxable
  | tax_free
deriving DecidableEq

/-- src/types/index.ts `IncomeStream`. -/
structure IncomeStream where
  id : String
  name : String
  monthlyAmount : ℚ
  startAge : ℤ
  taxTreatment : IncomeTaxTreatment
deriving DecidableEq

/-- src/types/index.ts `AccumulationResult` (only the fields consumed by the
drawdown engine: `finalBalances` and `totalAtRetirement`). -/
structure AccumulationResult where
  finalBalances : List (String × ℚ)
  totalAtRetirement : ℚ
deriving DecidableEq

/-- src/types/index.ts `EarlyWithdrawalPenalty`. -/
structure EarlyWithdrawalPenalty where
  amount : ℚ
  accountId : String
  accountName : String
deriving DecidableEq

/-- src/types/index.ts `YearlyWithdrawal` (one immutable record per
simulated year). -/
structure YearlyWithdrawal where
  age : ℤ
  year : ℤ
  withdrawals : List (String × ℚ)
  remainingBalances : List (String × ℚ)
  totalWithdrawal : ℚ
  governmentBenefitIncome : ℚ
  incomeStreamIncome : ℚ
  grossIncome : ℚ
  federalTax : ℚ
  stateTax : ℚ
  totalTax : ℚ
  afterTaxIncome : ℚ
  targetSpending : ℚ
  rmdAmount : ℚ
  totalRemainingBalance : ℚ
  earlyWithdrawalPenalties : List EarlyWithdrawalPenalty
  totalPenalties : ℚ
deriving DecidableEq

/-- src/types/index.ts `RetirementResult`. -/
structure RetirementResult where
  yearlyWithdrawals : List YearlyWithdrawal
  portfolioDepletionAge : Option ℤ
  lifetimeTaxesPaid : ℚ
  sustainableMonthlyWithdrawal : ℚ
  sustainableAnnualWithdrawal : ℚ
  accountDepletionAges : List (String × Option ℤ)
deriving DecidableEq

/-- src/types/index.ts `TaxBracket`; `max = none` models an unbounded
(`Infinity`) upper end. -/
structure TaxBracket where
  min : ℚ
  max : Option ℚ
  rate : ℚ
deriving DecidableEq

/-- src/types/index.ts `RMDEntry`. -/
structure RMDEntry where
  age : ℚ
  divisor : ℚ
deriving DecidableEq

/-- src/countries/index.ts `PenaltyInfo`. -/
structure PenaltyInfo where
  penaltyAge : ℚ
  penaltyRate : ℚ
  appliesToAccountType : Bool
deriving DecidableEq

/-- src/countries/index.ts `BenefitCalculation`. -/
structure BenefitCalculation where
  age : ℤ
  monthlyAmount : ℚ
  annualAmount : ℚ
deriving DecidableEq

/-- src/countries/index.ts `CountryConfig`: the capability interface each
jurisdiction implements.  Only the members the drawdown engine calls are
modelled. -/
structure CountryConfig where
  code : String
  calculateFederalTax : ℚ → Option String → ℚ
  calculateRegionalTax : ℚ → String → ℚ
  calculateCapitalGainsTax : ℚ → ℚ → String → Option String → ℚ
  calculateRetirementBenefits : Profile → ℤ → ℚ → List BenefitCalculation
  getMinimumWithdrawal : ℚ → ℚ → String → ℚ
  isTraditionalAccount : String → Bool
  getPenaltyInfo : String → PenaltyInfo
  calculateEarlyWithdrawalPenalty : ℚ → String → ℚ → ℚ

/-- src/utils/penaltyCalculator.ts `AccountWithdrawal`. -/
structure AccountWithdrawal where
  accountId : String
  accountName : String
  accountType : String
  amount : ℚ
deriving DecidableEq

/-- src/utils/withdrawals.ts `AccountState`: simulation-local mutable state
of one account. -/
structure AccountState where
  id : String
  type : String
  balance : ℚ
  costBasis : ℚ
deriving DecidableEq

/-- JS-object assignment `o[k] = v` on an association list: overwrite the
existing entry for `k`, or append a new one. -/
def objSet (o : List (String × ℚ)) (k : String) (v : ℚ) : List (String × ℚ) :=
  if o.any (fun p => p.1 == k) then
    o.map (fun p => if p.1 == k then (k, v) else p)
  else
    o ++ [(k, v)]

/-- JS-object read `o[k]` (with missing keys behaving as 0, which is how the
source consumes them: all keys touched are initialized first, and
`finalBalances[id] || 0` maps a missing entry to 0). -/
def objGet (o : List (String × ℚ)) (k : String) : ℚ :=
  ((o.find? (fun p => p.1 == k)).map Prod.snd).getD 0

/-- JS `o[k] += v`. -/
def objAdd (o : List (String × ℚ)) (k : String) (v : ℚ) : List (String × ℚ) :=
  objSet o k (objGet o k + v)

/-- The per-account depletion-age map (`Record<string, number | null>`). -/
abbrev DeplMap : Type := List (String × Option ℤ)

/-- src/utils/withdrawals.ts: `if (acc.balance <= 0 && ages[id] === null)
ages[id] = age` — set the depletion age only when the key exists and is
still null (a missing key is left untouched, as `undefined !== null`). -/
def deplSet (d : DeplMap) (k : String) (age : ℤ) : DeplMap :=
  d.map (fun p => if p.1 == k && p.2 == none then (k, some age) else p)

/-- src/utils/constants.ts `TAX_BRACKETS_MFJ` (2024 federal brackets,
married filing jointly). -/
def TAX_BRACKETS_MFJ : List TaxBracket :=
  [⟨0, some 23200, 0.10⟩, ⟨23200, some 94300, 0.12⟩, ⟨94300, some 201050, 0.22⟩,
   ⟨201050, some 383900, 0.24⟩, ⟨383900, some 487450, 0.32⟩,
   ⟨487450, some 731200, 0.35⟩, ⟨731200, none, 0.37⟩]

/-- src/utils/constants.ts `TAX_BRACKETS_SINGLE`. -/
def TAX_BRACKETS_SINGLE : List TaxBracket :=
  [⟨0, some 11600, 0.10⟩, ⟨11600, some 47150, 0.12⟩, ⟨47150, some 100525, 0.22⟩,
   ⟨100525, some 191950, 0.24⟩, ⟨191950, some 243725, 0.32⟩,
   ⟨243725, some 609350, 0.35⟩, ⟨609350, none, 0.37⟩]

/-- src/utils/constants.ts `STANDARD_DEDUCTION_MFJ`. -/
def STANDARD_DEDUCTION_MFJ : ℚ := 29200

/-- src/utils/constants.ts `STANDARD_DEDUCTION_SINGLE`. -/
def STANDARD_DEDUCTION_SINGLE : ℚ := 14600

/-- src/utils/constants.ts `CAPITAL_GAINS_BRACKETS_MFJ`. -/
def CAPITAL_GAINS_BRACKETS_MFJ : List TaxBracket :=
  [⟨0, some 94050, 0⟩, ⟨94050, some 583750, 0.15⟩, ⟨583750, none, 0.20⟩]

/-- src/utils/constants.ts `CAPITAL_GAINS_BRACKETS_SINGLE`. -/
def CAPITAL_GAINS_BRACKETS_SINGLE : List TaxBracket :=
  [⟨0, some 47025, 0⟩, ⟨47025, some 518900, 0.15⟩, ⟨518900, none, 0.20⟩]

/-- src/utils/constants.ts `RMD_START_AGE` (73, SECURE 2.0). -/
def RMD_START_AGE : ℚ := 73

/-- src/utils/constants.ts `RMD_TABLE` (IRS Uniform Lifetime Table). -/
def RMD_TABLE : List RMDEntry :=
  [⟨73, 26.5⟩, ⟨74, 25.5⟩, ⟨75, 24.6⟩, ⟨76, 23.7⟩, ⟨77, 22.9⟩, ⟨78, 22.0⟩,
   ⟨79, 21.1⟩, ⟨80, 20.2⟩, ⟨81, 19.4⟩, ⟨82, 18.5⟩, ⟨83, 17.7⟩, ⟨84, 16.8⟩,
   ⟨85, 16.0⟩, ⟨86, 15.2⟩, ⟨87, 14.4⟩, ⟨88, 13.7⟩, ⟨89, 12.9⟩, ⟨90, 12.2⟩,
   ⟨91, 11.5⟩, ⟨92, 10.8⟩, ⟨93, 10.1⟩, ⟨94, 9.5⟩, ⟨95, 8.9⟩, ⟨96, 8.4⟩,
   ⟨97, 7.8⟩, ⟨98, 7.3⟩, ⟨99, 6.8⟩, ⟨100, 6.4⟩, ⟨101, 6.0⟩, ⟨102, 5.6⟩,
   ⟨103, 5.2⟩, ⟨104, 4.9⟩, ⟨105, 4.6⟩, ⟨106, 4.3⟩, ⟨107, 4.1⟩, ⟨108, 3.9⟩,
   ⟨109, 3.7⟩, ⟨110, 3.5⟩, ⟨111, 3.4⟩, ⟨112, 3.3⟩, ⟨113, 3.1⟩, ⟨114, 3.0⟩,
   ⟨115, 2.9⟩, ⟨116, 2.8⟩, ⟨117, 2.7⟩, ⟨118, 2.5⟩, ⟨119, 2.3⟩, ⟨120, 2.0⟩]

/-- src/utils/constants.ts `getRMDDivisor`: 0 below the start age, the table
entry for a listed age, 2.0 beyond age 120, otherwise 0. -/
def getRMDDivisor (age : ℚ) : ℚ :=
  if age < RMD_START_AGE then 0
  else
    match RMD_TABLE.find? (fun e => e.age == age) with
    | some e => e.divisor
    | none => if age > 120 then 2.0 else 0

/-- Modelled from the spec: src/utils/taxes.ts is not under src/.
`getStandardDeduction` selects the standard deduction for the filing status
(the constants are in src/utils/constants.ts; the test suite pins
MFJ ↦ 29200 and single ↦ 14600). -/
def getStandardDeduction (filingStatus : String) : ℚ :=
  if filingStatus == "married_filing_jointly" then STANDARD_DEDUCTION_MFJ
  else STANDARD_DEDUCTION_SINGLE

/-- Progressive-bracket tax (§4.2 of the spec): sum over brackets of
`rate × min(max(income − bracketMin, 0), bracketMax − bracketMin)`. -/
def bracketTax (income : ℚ) (brackets : List TaxBracket) : ℚ :=
  brackets.foldl
    (fun acc b =>
      let inBracket :=
        match b.max with
        | some m => min (max (income - b.min) 0) (m - b.min)
        | none => max (income - b.min) 0
      acc + b.rate * inBracket)
    0

/-- Modelled from the spec: src/utils/taxes.ts is not under src/.
`calculateFederalIncomeTax` applies the progressive brackets to the given
taxable income (the standard deduction is applied by the callers); pinned by
the test suite (e.g. 50000 MFJ ↦ 5536). -/
def calculateFederalIncomeTax (taxableIncome : ℚ) (filingStatus : Option String) : ℚ :=
  let brackets :=
    if filingStatus == some "married_filing_jointly" then TAX_BRACKETS_MFJ
    else TAX_BRACKETS_SINGLE
  bracketTax taxableIncome brackets

/-- Modelled from the spec: src/utils/taxes.ts is not under src/.
US stacking capital-gains tax (§4.2): gains stack on top of ordinary
taxable income (gross ordinary minus standard deduction, floored at 0); for
each gains bracket the amount taxed there is
`max(0, min(gainsRemaining, bracketMax − max(bracketMin, ordTaxable)))`.
Pinned by the test suite (e.g. 50000 gains, 100000 ordinary MFJ ↦ 4012.50). -/
def calculateCapitalGainsTax (gains ordinaryIncome : ℚ) (filingStatus : Option String) : ℚ :=
  let isMfj := filingStatus == some "married_filing_jointly"
  let sd := if isMfj then STANDARD_DEDUCTION_MFJ else STANDARD_DEDUCTION_SINGLE
  let brackets := if isMfj then CAPITAL_GAINS_BRACKETS_MFJ else CAPITAL_GAINS_BRACKETS_SINGLE
  let ordTaxable := max 0 (ordinaryIncome - sd)
  let result :=
    brackets.foldl
      (fun acc b =>
        let (tax, gainsRemaining) := acc
        let capacity :=
          match b.max with
          | some m => min gainsRemaining (m - max b.min ordTaxable)
          | none => gainsRemaining
        let taxedHere := max 0 capacity
        (tax + taxedHere * b.rate, gainsRemaining - taxedHere))
      ((0 : ℚ), gains)
  result.1

/-- Modelled from the spec: src/utils/taxes.ts is not under src/.
`calculateTotalFederalTax` = ordinary progressive tax on (income − standard
deduction, floored at 0) plus the stacking capital-gains tax. -/
def calculateTotalFederalTax (ordinaryIncome capitalGains : ℚ) (filingStatus : Option String) : ℚ :=
  let sd :=
    if filingStatus == some "married_filing_jointly" then STANDARD_DEDUCTION_MFJ
    else STANDARD_DEDUCTION_SINGLE
  calculateFederalIncomeTax (max 0 (ordinaryIncome - sd)) filingStatus +
    calculateCapitalGainsTax capitalGains ordinaryIncome filingStatus

/-- Modelled from the spec: src/utils/taxes.ts is not under src/.
`calculateStateTax`: flat rate on taxable income, zero for non-positive
taxable income (pinned by the test suite: −1000 ↦ 0, 50000 at 5% ↦ 2500). -/
def calculateStateTax (taxableIncome stateRate : ℚ) : ℚ :=
  if taxableIncome ≤ 0 then 0 else taxableIncome * stateRate

/-- Modelled from the spec: src/countries/usa/benefits.ts is not under src/.
The US-like policy's government benefit is a flat configured annual Social
Security benefit past its start age (§4.4 "flat configured annual benefit
past a start age"); inflation is applied by the caller.  JS truthiness: a
benefit or start age of 0 behaves as missing. -/
def calculateSocialSecurityBenefits (profile : Profile) (currentAge : ℤ) (_grossIncome : ℚ) :
    List BenefitCalculation :=
  match profile.socialSecurityBenefit, profile.socialSecurityStartAge with
  | some b, some sa =>
    if b ≠ 0 ∧ sa ≠ 0 ∧ sa ≤ currentAge then
      [⟨currentAge, b / 12, b⟩]
    else []
  | _, _ => []

/-- Modelled from the spec: src/countries/usa/withdrawals.ts is not under
src/.  US `calculateRMD` mirrors §4.3 and the in-src fallback in
src/utils/withdrawals.ts: 0 below the start age, otherwise
balance ÷ divisor (0 when the divisor is 0). -/
def usCalculateRMD (age balance : ℚ) (_accountType : String) : ℚ :=
  if age < RMD_START_AGE then 0
  else
    let divisor := getRMDDivisor age
    if divisor ≤ 0 then 0 else balance / divisor

/-- src/countries/usa/index.ts `USConfig.getPenaltyInfo`: penalty age 59.5,
rate 10%, applicable to the two traditional account types only. -/
def usGetPenaltyInfo (accountType : String) : PenaltyInfo :=
  { penaltyAge := 59.5
    penaltyRate := 0.10
    appliesToAccountType :=
      accountType == "traditional_401k" || accountType == "traditional_ira" }

/-- src/countries/usa/index.ts `USConfig.calculateEarlyWithdrawalPenalty`:
zero at or past the penalty age or for non-applicable types, otherwise
amount × rate. -/
def usCalculateEarlyWithdrawalPenalty (amount : ℚ) (accountType : String) (age : ℚ) : ℚ :=
  let info := usGetPenaltyInfo accountType
  if age ≥ info.penaltyAge ∨ ¬ info.appliesToAccountType then 0
  else amount * info.penaltyRate

/-- src/countries/usa/index.ts `USConfig` (tax members that live in files
not under src/ are the spec-modelled calculators above). -/
def USConfig : CountryConfig :=
  { code := "US"
    calculateFederalTax := fun income fs => calculateTotalFederalTax income 0 fs
    calculateRegionalTax := fun _ _ => 0
    calculateCapitalGainsTax := fun gains ordinary _region fs =>
      calculateCapitalGainsTax gains ordinary fs
    calculateRetirementBenefits := calculateSocialSecurityBenefits
    getMinimumWithdrawal := usCalculateRMD
    isTraditionalAccount := fun t => t == "traditional_401k" || t == "traditional_ira"
    getPenaltyInfo := usGetPenaltyInfo
    calculateEarlyWithdrawalPenalty := usCalculateEarlyWithdrawalPenalty }

/-- Modelled from the spec: src/countries/canada/constants.ts is not under
src/.  Canadian federal basic personal amount; the in-src test suite pins
it at 15705 ("Basic personal amount: $15,705"). -/
def CA_BASIC_PERSONAL : ℚ := 15705

/-- Modelled from the spec: src/countries/canada/constants.ts is not under
src/.  Canadian federal brackets; the in-src test suite pins the lowest
bracket ("15% on first $53,359"), the remainder follows the CRA schedule of
that year.  Only the *ordering* of the brackets (each ceiling above the
pinned 53359 first-bracket ceiling) is load-bearing for the claims below. -/
def CA_FEDERAL_BRACKETS : List TaxBracket :=
  [⟨0, some 53359, 0.15⟩, ⟨53359, some 106717, 0.205⟩,
   ⟨106717, some 165430, 0.26⟩, ⟨165430, some 235675, 0.29⟩,
   ⟨235675, none, 0.33⟩]

/-- Modelled from the spec: src/countries/canada/taxes.ts is not under src/.
CA federal income tax: progressive brackets on income minus the basic
personal amount, floored at 0 (§4.1 variant B, §4.2). -/
def caCalculateFederalIncomeTax (income : ℚ) : ℚ :=
  bracketTax (max 0 (income - CA_BASIC_PERSONAL)) CA_FEDERAL_BRACKETS

/-- Modelled from the spec: src/countries/canada/constants.ts is not under
src/.  Ontario provincial brackets (the default province), used to model the
per-region progressive regional tax of §4.1 variant B. -/
def CA_ON_BRACKETS : List TaxBracket :=
  [⟨0, some 51446, 0.0505⟩, ⟨51446, some 102894, 0.0915⟩,
   ⟨102894, some 150000, 0.1116⟩, ⟨150000, some 220000, 0.1216⟩,
   ⟨220000, none, 0.1316⟩]

/-- Modelled from the spec: Ontario basic personal amount. -/
def CA_ON_BASIC_PERSONAL : ℚ := 12399

/-- Modelled from the spec: src/countries/canada/taxes.ts is not under src/.
Provincial income tax: per-region progressive brackets with the region's own
basic personal amount (§4.1 variant B); modelled for the default province. -/
def caCalculateProvincialIncomeTax (income : ℚ) (_regionCode : String) : ℚ :=
  bracketTax (max 0 (income - CA_ON_BASIC_PERSONAL)) CA_ON_BRACKETS

/-- Modelled from the spec: capital-gains inclusion parameters of the
CA-like policy (README: "50% or 66.67% for gains over $250k"). -/
def CA_CAPITAL_GAINS_THRESHOLD : ℚ := 250000

/-- Modelled from the spec: default capital-gains inclusion rate (50%). -/
def CA_INCLUSION_RATE_DEFAULT : ℚ := 0.5

/-- Modelled from the spec: high capital-gains inclusion rate (2/3). -/
def CA_INCLUSION_RATE_HIGH : ℚ := 2/3

/-- Modelled from the spec: src/countries/canada/taxes.ts is not under src/.
`calculateTotalTax`: gains are included at the inclusion rate (the higher
rate applying only above the threshold) and taxed as ordinary income in the
same progressive pass (§4.2 CA-style inclusion model). -/
def caCalculateTotalTax (income gains : ℚ) (regionCode : String) : ℚ :=
  let includedGains :=
    min gains CA_CAPITAL_GAINS_THRESHOLD * CA_INCLUSION_RATE_DEFAULT +
      max 0 (gains - CA_CAPITAL_GAINS_THRESHOLD) * CA_INCLUSION_RATE_HIGH
  let taxableTotal := income + includedGains
  caCalculateFederalIncomeTax taxableTotal +
    caCalculateProvincialIncomeTax taxableTotal regionCode

/-- An entry of the CA minimum-withdrawal table: age and percentage factor. -/
structure RRIFEntry where
  age : ℚ
  pct : ℚ
deriving DecidableEq

/-- Modelled from the spec: src/countries/canada/constants.ts is not under
src/.  Age-ascending RRIF minimum-percentage table starting at 71 (§4.1
variant B, §4.3); the in-src test suite pins 71 ↦ 5.28% and 80 ↦ 6.82%,
the remaining entries follow the CRA schedule, last entry 95 ↦ 20%. -/
def RRIF_MINIMUM_TABLE : List RRIFEntry :=
  [⟨71, 0.0528⟩, ⟨72, 0.0540⟩, ⟨73, 0.0553⟩, ⟨74, 0.0567⟩, ⟨75, 0.0582⟩,
   ⟨76, 0.0598⟩, ⟨77, 0.0617⟩, ⟨78, 0.0636⟩, ⟨79, 0.0658⟩, ⟨80, 0.0682⟩,
   ⟨81, 0.0708⟩, ⟨82, 0.0738⟩, ⟨83, 0.0771⟩, ⟨84, 0.0808⟩, ⟨85, 0.0851⟩,
   ⟨86, 0.0899⟩, ⟨87, 0.0955⟩, ⟨88, 0.1021⟩, ⟨89, 0.1099⟩, ⟨90, 0.1192⟩,
   ⟨91, 0.1306⟩, ⟨92, 0.1449⟩, ⟨93, 0.1634⟩, ⟨94, 0.1879⟩, ⟨95, 0.20⟩]

/-- Modelled from the spec: the CA minimum-withdrawal start age (71). -/
def RRIF_START_AGE : ℚ := 71

/-- Modelled from the spec: src/countries/canada/withdrawals.ts is not under
src/.  `calculateRRIFMinimum`: 0 below 71, balance × percentage for a listed
age, clamped to the last entry's factor above the last listed age (§4.3).
The in-src test suite shows the lookup is independent of the account type
(it expects a positive minimum at 71 for the `rrsp` type as well). -/
def calculateRRIFMinimum (age balance : ℚ) (_accountType : String) : ℚ :=
  if age < RRIF_START_AGE then 0
  else
    match RRIF_MINIMUM_TABLE.find? (fun e => e.age == age) with
    | some e => balance * e.pct
    | none => if age > 95 then balance * 0.20 else 0

/-- Modelled from the spec: src/countries/canada/benefits.ts is not under
src/.  The CA-like policy has two benefit streams with independent start
ages (§4.4): CPP (stored in the `socialSecurityBenefit` fields) and OAS
(the `secondaryBenefit` fields); inflation is applied by the caller.  JS
truthiness: an amount or start age of 0 behaves as missing. -/
def calculateCanadianRetirementBenefits (profile : Profile) (currentAge : ℤ) (_grossIncome : ℚ) :
    List BenefitCalculation :=
  let cpp :=
    match profile.socialSecurityBenefit, profile.socialSecurityStartAge with
    | some b, some sa =>
      if b ≠ 0 ∧ sa ≠ 0 ∧ sa ≤ currentAge then [(⟨currentAge, b / 12, b⟩ : BenefitCalculation)]
      else []
    | _, _ => []
  let oas :=
    match profile.secondaryBenefitAmount, profile.secondaryBenefitStartAge with
    | some b, some sa =>
      if b ≠ 0 ∧ sa ≠ 0 ∧ sa ≤ currentAge then [(⟨currentAge, b / 12, b⟩ : BenefitCalculation)]
      else []
    | _, _ => []
  cpp ++ oas

/-- src/countries/canada/index.ts `CAConfig` (tax/benefit/minimum members
that live in files not under src/ are the spec-modelled functions above;
the penalty members, account classification and code are from src). -/
def CAConfig : CountryConfig :=
  { code := "CA"
    calculateFederalTax := fun income _fs => caCalculateFederalIncomeTax income
    calculateRegionalTax := fun income region => caCalculateProvincialIncomeTax income region
    calculateCapitalGainsTax := fun gains _ordinary region _fs =>
      caCalculateTotalTax 0 gains region
    calculateRetirementBenefits := calculateCanadianRetirementBenefits
    getMinimumWithdrawal := calculateRRIFMinimum
    isTraditionalAccount := fun t =>
      t == "rrsp" || t == "rrif" || t == "lira" || t == "lif" || t == "employer_rrsp"
    getPenaltyInfo := fun _ => ⟨0, 0, false⟩
    calculateEarlyWithdrawalPenalty := fun _ _ _ => 0 }

/-- src/utils/incomeStreams.ts `IncomeStreamResult`. -/
structure IncomeStreamResult where
  totalIncome : ℚ
  socialSecurityBucket : ℚ
  fullyTaxableBucket : ℚ
  taxFreeBucket : ℚ
deriving DecidableEq

/-- src/utils/incomeStreams.ts `calculateIncomeStreamBenefits`: each stream
active at the age (startAge ≤ age) contributes monthlyAmount × 12 to the
total and to its tax-treatment bucket; amounts are in today's dollars. -/
def calculateIncomeStreamBenefits (incomeStreams : List IncomeStream) (age : ℤ) :
    IncomeStreamResult :=
  incomeStreams.foldl
    (fun acc s =>
      if s.startAge ≤ age then
        let annual := s.monthlyAmount * 12
        { acc with
          totalIncome := acc.totalIncome + annual
          socialSecurityBucket :=
            acc.socialSecurityBucket +
              (if s.taxTreatment = .social_security then annual else 0)
          fullyTaxableBucket :=
            acc.fullyTaxableBucket +
              (if s.taxTreatment = .fully_taxable then annual else 0)
          taxFreeBucket :=
            acc.taxFreeBucket + (if s.taxTreatment = .tax_free then annual else 0) }
      else acc)
    ⟨0, 0, 0, 0⟩

/-- src/utils/penaltyCalculator.ts `calculatePenalties`: for each recorded
withdrawal, when the policy marks the type applicable and the age is
strictly below the penalty age, ask the policy for the penalty amount and
record it when positive. -/
def calculatePenalties (withdrawals : List AccountWithdrawal) (currentAge : ℤ)
    (countryConfig : CountryConfig) : List EarlyWithdrawalPenalty :=
  withdrawals.filterMap fun w =>
    let info := countryConfig.getPenaltyInfo w.accountType
    if info.appliesToAccountType ∧ (currentAge : ℚ) < info.penaltyAge then
      let amt := countryConfig.calculateEarlyWithdrawalPenalty w.amount w.accountType
        (currentAge : ℚ)
      if amt > 0 then some ⟨amt, w.accountId, w.accountName⟩ else none
    else none

/-- src/utils/withdrawalDefaults.ts `getDefaultWithdrawalAge`: traditional
accounts default to the (rounded-up) penalty-free age, others to the
retirement age, both capped at the minimum-withdrawal age when the type has
mandatory minimums. -/
def getDefaultWithdrawalAge (account : Account) (retirementAge : ℤ)
    (countryConfig : CountryConfig) : ℚ :=
  let info := countryConfig.getPenaltyInfo account.type
  let rmdAge : Option ℚ :=
    if countryConfig.isTraditionalAccount account.type then
      let testAge : ℚ := if countryConfig.code == "US" then 73 else 71
      if countryConfig.getMinimumWithdrawal testAge 100000 account.type > 0 then some testAge
      else none
    else none
  if info.appliesToAccountType then
    let penaltyFreeAge : ℚ := (⌈info.penaltyAge⌉ : ℤ)
    match rmdAge with
    | some r => min penaltyFreeAge r
    | none => penaltyFreeAge
  else
    match rmdAge with
    | some r => min (retirementAge : ℚ) r
    | none => (retirementAge : ℚ)

/-- src/utils/withdrawals.ts `calculateRMD`: country-specific minimum when a
config is supplied, otherwise the fallback US RMD logic. -/
def calculateRMD (age traditionalBalance : ℚ) (accountType : String)
    (countryConfig : Option CountryConfig) : ℚ :=
  match countryConfig with
  | some c => c.getMinimumWithdrawal age traditionalBalance accountType
  | none =>
    if age < RMD_START_AGE then 0
    else
      let divisor := getRMDDivisor age
      if divisor ≤ 0 then 0 else traditionalBalance / divisor

/-- The effective traditional-account test of the simulator
(src/utils/withdrawals.ts `isTraditionalAccount` local helper). -/
def effIsTraditional (countryConfig : Option CountryConfig) (accountType : String) : Bool :=
  match countryConfig with
  | some c => c.isTraditionalAccount accountType
  | none => isTraditional accountType

/-- src/utils/withdrawals.ts (inside `getAvailableAccounts` and step 7): the
withdrawal start age of an account — its configured `withdrawalRules.startAge`
when present, else the country default, else the retirement age. -/
def resolveWithdrawalAge (retirementAge : ℤ) (countryConfig : Option CountryConfig)
    (account : Account) : ℚ :=
  match account.withdrawalRules with
  | some rules => rules.startAge
  | none =>
    match countryConfig with
    | some c => getDefaultWithdrawalAge account retirementAge c
    | none => (retirementAge : ℚ)

/-- src/utils/withdrawals.ts `getAvailableAccounts` membership test: an
account state whose `Account` record cannot be found is allowed; otherwise
the current age must have reached the resolved withdrawal age. -/
def isAvailable (accounts : List Account) (currentAge retirementAge : ℤ)
    (countryConfig : Option CountryConfig) (state : AccountState) : Bool :=
  match accounts.find? (fun a => a.id == state.id) with
  | none => true
  | some account =>
    decide ((currentAge : ℚ) ≥ resolveWithdrawalAge retirementAge countryConfig account)

/-- src/utils/withdrawals.ts `getAvailableAccounts`. -/
def getAvailableAccounts (accountStates : List AccountState) (accounts : List Account)
    (currentAge retirementAge : ℤ) (countryConfig : Option CountryConfig) :
    List AccountState :=
  accountStates.filter (isAvailable accounts currentAge retirementAge countryConfig)

/-- src/utils/withdrawals.ts step 7 membership test (`unavailableAccounts`):
the account must be found, not yet have reached its withdrawal age, and hold
a positive balance. -/
def isUnavailableWithBalance (accounts : List Account) (currentAge retirementAge : ℤ)
    (countryConfig : Option CountryConfig) (state : AccountState) : Bool :=
  match accounts.find? (fun a => a.id == state.id) with
  | none => false
  | some account =>
    decide ((currentAge : ℚ) < resolveWithdrawalAge retirementAge countryConfig account) &&
      decide (state.balance > 0)

/-- One recorded withdrawal of the allocation cascade, remembering the
account's pre-withdrawal balance and cost basis (the values the source reads
before mutating the account in place). -/
structure WEntry where
  id : String
  type : String
  preBal : ℚ
  preCB : ℚ
  amount : ℚ
  gains : ℚ
deriving DecidableEq

/-- Total amount of a list of recorded withdrawals. -/
def wTotal (es : List WEntry) : ℚ := (es.map (fun e => e.amount)).sum

/-- Total realized gains of a list of recorded withdrawals. -/
def wGains (es : List WEntry) : ℚ := (es.map (fun e => e.gains)).sum

/-- Output of one cascade for-loop: the updated account states, the final
loop counter, the recorded withdrawals in order, and the updated
depletion-age map. -/
structure LoopOut where
  states : List AccountState
  counter : ℚ
  entries : List WEntry
  depl : DeplMap
deriving DecidableEq

/-- How a cascade for-loop realizes gains on taxable-treatment accounts:
`off` — not at all (steps 2, 3, 5, 6, 7's traditional pass); `pre` — the
gain ratio reads the pre-withdrawal balance (step 4: the source computes
`gainRatio` before `acc.balance -= withdrawal`); `post` — the gain ratio
reads the post-withdrawal balance (step 7's non-traditional pass: the
source decrements `acc.balance` first and reads `costBasis / acc.balance`
afterwards, so a full drain gives `1 - cb/0 = -Infinity`, clamped to 0 by
`Math.max`). -/
inductive GainsMode where
  | off
  | pre
  | post
deriving DecidableEq

/-- Whether a gains mode realizes gains at all. -/
@[simp] def GainsMode.isOn : GainsMode → Bool
  | GainsMode.off => false
  | _ => true

/-- The common for-loop of the allocation cascade
(src/utils/withdrawals.ts steps 2–7): walk the account states in order,
acting on the accounts selected by `p` (the source iterates the filtered
sub-list, which preserves this order and aliases the same mutable objects);
break when the counter `c` is no longer positive; withdraw
`min(c, balance)`; when `useGains` is on and the account's treatment is
taxable, also realize gains at the cost-basis fraction — read from the
pre-withdrawal balance in step 4 and from the post-withdrawal balance in
step 7's non-traditional pass, see `GainsMode` — and shrink the cost basis
proportionally; record the account's depletion age the first time its
balance reaches ≤ 0.  Membership tests that read the balance (step 7) are
evaluated at visit time; this agrees with the source's
filter-at-step-start because each account's own state is unchanged between
the start of the step and its visit. -/
def withdrawLoop (p : AccountState → Bool) (useGains : GainsMode) (age : ℤ) :
    List AccountState → ℚ → DeplMap → LoopOut
  | [], c, d => ⟨[], c, [], d⟩
  | a :: rest, c, d =>
    if p a then
      if c ≤ 0 then ⟨a :: rest, c, [], d⟩
      else
        let w := min c a.balance
        let taxableHere :=
          GainsMode.isOn useGains && (getTaxTreatment a.type == TaxTreatment.taxable)
        let gainFrac :=
          match useGains with
          | GainsMode.post =>
            if a.costBasis > 0 then
              (if a.balance - w = 0 then 0
               else max 0 (1 - a.costBasis / (a.balance - w)))
            else (0.5 : ℚ)
          | _ =>
            if a.costBasis > 0 then max 0 (1 - a.costBasis / a.balance) else (0.5 : ℚ)
        let g := if taxableHere then w * gainFrac else 0
        let newBal := a.balance - w
        let newCB :=
          if taxableHere then
            (if newBal > 0 then a.costBasis * (newBal / (newBal + w)) else 0)
          else a.costBasis
        let d' := if newBal ≤ 0 then deplSet d a.id age else d
        let o := withdrawLoop p useGains age rest (c - w) d'
        ⟨{ a with balance := newBal, costBasis := newCB } :: o.states, o.counter,
          ⟨a.id, a.type, a.balance, a.costBasis, w, g⟩ :: o.entries, o.depl⟩
    else
      let o := withdrawLoop p useGains age rest c d
      ⟨a :: o.states, o.counter, o.entries, o.depl⟩

/-- Output of the step-1 loop: also carries the clamped remaining need. -/
structure RmdOut where
  states : List AccountState
  rmdRemaining : ℚ
  need : ℚ
  entries : List WEntry
  depl : DeplMap
deriving DecidableEq

/-- Step 1 of the allocation cascade (src/utils/withdrawals.ts lines
393–409): like `withdrawLoop` but with two counters — the loop is driven by
`rmdRemaining` while the remaining need is reduced by each withdrawal with a
floor at 0 (`remainingNeed = max(0, remainingNeed - withdrawal)`). -/
def rmdLoop (p : AccountState → Bool) (age : ℤ) :
    List AccountState → ℚ → ℚ → DeplMap → RmdOut
  | [], rmdRemaining, need, d => ⟨[], rmdRemaining, need, [], d⟩
  | a :: rest, rmdRemaining, need, d =>
    if p a then
      if rmdRemaining ≤ 0 then ⟨a :: rest, rmdRemaining, need, [], d⟩
      else
        let w := min rmdRemaining a.balance
        let newBal := a.balance - w
        let d' := if newBal ≤ 0 then deplSet d a.id age else d
        let o := rmdLoop p age rest (rmdRemaining - w) (max 0 (need - w)) d'
        ⟨{ a with balance := newBal } :: o.states, o.rmdRemaining, o.need,
          ⟨a.id, a.type, a.balance, a.costBasis, w, 0⟩ :: o.entries, o.depl⟩
    else
      let o := rmdLoop p age rest rmdRemaining need d
      ⟨a :: o.states, o.rmdRemaining, o.need, o.entries, o.depl⟩

/-- All intermediate values of one run of the allocation cascade
(src/utils/withdrawals.ts `performTaxOptimizedWithdrawal` body), named so
the theorems below can speak about individual steps. -/
structure PtowData where
  remainingNeed0 : ℚ
  o1 : RmdOut
  filingStatus : String
  standardDeduction : ℚ
  bracket12Max : ℚ
  targetOrdinaryIncome : ℚ
  currentOrdinaryIncome : ℚ
  roomIn12Bracket : ℚ
  additionalTraditional : ℚ
  o2 : LoopOut
  need2 : ℚ
  o3 : LoopOut
  o4 : LoopOut
  o5 : LoopOut
  o6 : LoopOut
  o7a : LoopOut
  o7b : LoopOut

/-- The allocation cascade of src/utils/withdrawals.ts
`performTaxOptimizedWithdrawal`, step by step:
1. mandatory minimums from available traditional accounts;
2. bracket-fill up to standard deduction + 12%-bracket ceiling;
3. Roth-treatment accounts; 4. taxable-treatment accounts (realizing
gains); 5. HSA-treatment accounts; 6. overflow back into traditional
(guarded by remaining need > 0); 7. early-access fallback into unavailable
accounts, traditional first (same guard). -/
def ptowStages (accountStates : List AccountState) (accounts : List Account)
    (targetSpending rmdAmount totalRetirementIncome : ℚ) (profile : Profile)
    (depl : DeplMap) (age : ℤ) (countryConfig : Option CountryConfig)
    (nonPortfolioTaxableIncome : Option ℚ) : PtowData :=
  let remainingNeed0 := max 0 (targetSpending - totalRetirementIncome)
  let avail := isAvailable accounts age profile.retirementAge countryConfig
  let availTrad := fun st => avail st && effIsTraditional countryConfig st.type
  let availRoth := fun st => avail st && (getTaxTreatment st.type == TaxTreatment.roth)
  let availTaxable := fun st => avail st && (getTaxTreatment st.type == TaxTreatment.taxable)
  let availHsa := fun st => avail st && (getTaxTreatment st.type == TaxTreatment.hsa)
  let o1 := rmdLoop availTrad age accountStates rmdAmount remainingNeed0 depl
  let filingStatus := profile.filingStatus.getD "single"
  let standardDeduction := getStandardDeduction filingStatus
  let bracket12Max : ℚ := if filingStatus == "married_filing_jointly" then 94300 else 47150
  let targetOrdinaryIncome := standardDeduction + bracket12Max
  let currentOrdinaryIncome := wTotal o1.entries + nonPortfolioTaxableIncome.getD 0
  let roomIn12Bracket := max 0 (targetOrdinaryIncome - currentOrdinaryIncome)
  let additionalTraditional := min roomIn12Bracket o1.need
  let o2 := withdrawLoop availTrad GainsMode.off age o1.states additionalTraditional o1.depl
  let need2 := o1.need - wTotal o2.entries
  let o3 := withdrawLoop availRoth GainsMode.off age o2.states need2 o2.depl
  let o4 := withdrawLoop availTaxable GainsMode.pre age o3.states o3.counter o3.depl
  let o5 := withdrawLoop availHsa GainsMode.off age o4.states o4.counter o4.depl
  let o6 :=
    if o5.counter > 0 then withdrawLoop availTrad GainsMode.off age o5.states o5.counter o5.depl
    else ⟨o5.states, o5.counter, [], o5.depl⟩
  let unavailTrad := fun st =>
    isUnavailableWithBalance accounts age profile.retirementAge countryConfig st &&
      effIsTraditional countryConfig st.type
  let unavailOther := fun st =>
    isUnavailableWithBalance accounts age profile.retirementAge countryConfig st &&
      !(effIsTraditional countryConfig st.type)
  let o7a :=
    if o6.counter > 0 then withdrawLoop unavailTrad GainsMode.off age o6.states o6.counter o6.depl
    else ⟨o6.states, o6.counter, [], o6.depl⟩
  let o7b :=
    if o6.counter > 0 then withdrawLoop unavailOther GainsMode.post age o7a.states o7a.counter o7a.depl
    else ⟨o7a.states, o7a.counter, [], o7a.depl⟩
  { remainingNeed0 := remainingNeed0
    o1 := o1
    filingStatus := filingStatus
    standardDeduction := standardDeduction
    bracket12Max := bracket12Max
    targetOrdinaryIncome := targetOrdinaryIncome
    currentOrdinaryIncome := currentOrdinaryIncome
    roomIn12Bracket := roomIn12Bracket
    additionalTraditional := additionalTraditional
    o2 := o2
    need2 := need2
    o3 := o3
    o4 := o4
    o5 := o5
    o6 := o6
    o7a := o7a
    o7b := o7b }

/-- src/utils/withdrawals.ts `WithdrawalResult`. -/
structure WithdrawalResult where
  total : ℚ
  traditionalWithdrawal : ℚ
  rothWithdrawal : ℚ
  taxableWithdrawal : ℚ
  taxableGains : ℚ
  hsaWithdrawal : ℚ
  byAccount : List (String × ℚ)
  accountWithdrawals : List AccountWithdrawal
deriving DecidableEq

/-- The recorded withdrawals of a whole cascade run in chronological
order. -/
def ptowEntries (data : PtowData) : List WEntry :=
  data.o1.entries ++ data.o2.entries ++ data.o3.entries ++ data.o4.entries ++
    data.o5.entries ++ data.o6.entries ++ data.o7a.entries ++ data.o7b.entries

/-- src/utils/withdrawals.ts `performTaxOptimizedWithdrawal`: runs the
cascade and assembles the `WithdrawalResult` accumulators exactly as the
source's per-step `result.* +=` statements do (returning also the mutated
account states and depletion-age map). -/
def performTaxOptimizedWithdrawal (accountStates : List AccountState)
    (accounts : List Account) (targetSpending rmdAmount totalRetirementIncome : ℚ)
    (profile : Profile) (depl : DeplMap) (age : ℤ)
    (countryConfig : Option CountryConfig) (nonPortfolioTaxableIncome : Option ℚ) :
    WithdrawalResult × List AccountState × DeplMap :=
  let data := ptowStages accountStates accounts targetSpending rmdAmount
    totalRetirementIncome profile depl age countryConfig nonPortfolioTaxableIncome
  let entries := ptowEntries data
  let byAccountInit := accountStates.foldl (fun o a => objSet o a.id 0) []
  let byAccount := entries.foldl (fun o e => objAdd o e.id e.amount) byAccountInit
  let accountWithdrawals := entries.filterMap (fun e =>
    (match accounts.find? (fun a => a.id == e.id) with
    | some account =>
      if e.amount > (0 : ℚ) then
        some (⟨e.id, account.name, e.type, e.amount⟩ : AccountWithdrawal)
      else none
    | none => none : Option AccountWithdrawal))
  let es7bRoth := data.o7b.entries.filter (fun e => getTaxTreatment e.type == TaxTreatment.roth)
  let es7bTaxable :=
    data.o7b.entries.filter (fun e => getTaxTreatment e.type == TaxTreatment.taxable)
  let es7bHsa := data.o7b.entries.filter (fun e => getTaxTreatment e.type == TaxTreatment.hsa)
  ({ total := wTotal entries
     traditionalWithdrawal := wTotal data.o1.entries + wTotal data.o2.entries +
       wTotal data.o6.entries + wTotal data.o7a.entries
     rothWithdrawal := wTotal data.o3.entries + wTotal es7bRoth
     taxableWithdrawal := wTotal data.o4.entries + wTotal es7bTaxable
     taxableGains := wGains data.o4.entries + wGains data.o7b.entries
     hsaWithdrawal := wTotal data.o5.entries + wTotal es7bHsa
     byAccount := byAccount
     accountWithdrawals := accountWithdrawals },
   data.o7b.states, data.o7b.depl)

/-- Sum of the balances of a list of account states (the
`reduce((sum, acc) => sum + acc.balance, 0)` of the source). -/
def sumBalances (states : List AccountState) : ℚ := (states.map (fun a => a.balance)).sum

/-- src/utils/withdrawals.ts: the initial account states — each account's
balance is its accumulation final balance (`finalBalances[id] || 0`), and
the cost basis of a taxable-treatment account is estimated as 50% of that
balance (0 for every other treatment). -/
def initialAccountStates (accounts : List Account) (accumulationResult : AccumulationResult) :
    List AccountState :=
  accounts.map (fun account =>
    let bal := objGet accumulationResult.finalBalances account.id
    { id := account.id
      type := account.type
      balance := bal
      costBasis := if getTaxTreatment account.type = TaxTreatment.taxable then bal * 0.5 else 0 })

/-- src/utils/withdrawals.ts: the depletion-age map starts with a null entry
per account id (JS-object key semantics). -/
def deplInit (accounts : List Account) : DeplMap :=
  accounts.foldl
    (fun o a =>
      if o.any (fun p => p.1 == a.id) then
        o.map (fun p => if p.1 == a.id then (a.id, none) else p)
      else o ++ [(a.id, none)])
    []

/-- The mutable state of the year loop of src/utils/withdrawals.ts
`calculateWithdrawals`: loop index, account states, target spending,
lifetime taxes, portfolio depletion age and per-account depletion ages. -/
structure SimState where
  i : ℕ
  accountStates : List AccountState
  targetSpending : ℚ
  lifetimeTaxesPaid : ℚ
  portfolioDepletionAge : Option ℤ
  accountDepletionAges : DeplMap

/-- The pre-cascade computations of one simulated year
(src/utils/withdrawals.ts lines 115–195): simulated age and calendar year,
depletion check against the starting balances, inflated government-benefit
and income-stream income, the summed per-account mandatory minimums, and
the non-portfolio taxable income fed to the bracket-fill step. -/
structure YearCtx where
  age : ℤ
  year : ℤ
  totalRemaining : ℚ
  pda : Option ℤ
  inflationMultiplier : ℚ
  governmentBenefitIncome : ℚ
  inflatedStreamIncome : ℚ
  inflatedStreamSS : ℚ
  inflatedStreamTaxablePension : ℚ
  totalRetirementIncome : ℚ
  rmdAmount : ℚ
  nonPortfolioTaxableIncome : ℚ

/-- Computes the `YearCtx` of one simulated year from the loop state. -/
def yearCtx (profile : Profile) (assumptions : Assumptions)
    (countryConfig : Option CountryConfig) (incomeStreams : Option (List IncomeStream))
    (currentYear : ℤ) (s : SimState) : YearCtx :=
  let age := profile.retirementAge + (s.i : ℤ)
  let year := currentYear + (profile.retirementAge - profile.currentAge) + (s.i : ℤ)
  let totalRemaining := sumBalances s.accountStates
  let pda :=
    if totalRemaining ≤ 0 ∧ s.portfolioDepletionAge = none then some age
    else s.portfolioDepletionAge
  let yearsFromNow : ℤ := age - profile.currentAge
  let inflationMultiplier : ℚ := (1 + assumptions.inflationRate) ^ yearsFromNow
  let governmentBenefitIncome : ℚ :=
    match countryConfig with
    | some c =>
      (((c.calculateRetirementBenefits profile age 0).map
        (fun b => b.annualAmount)).sum) * inflationMultiplier
    | none =>
      match profile.socialSecurityBenefit, profile.socialSecurityStartAge with
      | some b, some sa =>
        if b ≠ 0 ∧ sa ≠ 0 ∧ sa ≤ age then b * inflationMultiplier else 0
      | _, _ => 0
  let streamResult := calculateIncomeStreamBenefits (incomeStreams.getD []) age
  let inflatedStreamIncome := streamResult.totalIncome * inflationMultiplier
  let inflatedStreamSS := streamResult.socialSecurityBucket * inflationMultiplier
  let inflatedStreamTaxablePension := streamResult.fullyTaxableBucket * inflationMultiplier
  let rmdAmount :=
    ((s.accountStates.filter (fun a => effIsTraditional countryConfig a.type)).map
      (fun a => calculateRMD (age : ℚ) a.balance a.type countryConfig)).sum
  { age := age
    year := year
    totalRemaining := totalRemaining
    pda := pda
    inflationMultiplier := inflationMultiplier
    governmentBenefitIncome := governmentBenefitIncome
    inflatedStreamIncome := inflatedStreamIncome
    inflatedStreamSS := inflatedStreamSS
    inflatedStreamTaxablePension := inflatedStreamTaxablePension
    totalRetirementIncome := governmentBenefitIncome + inflatedStreamIncome
    rmdAmount := rmdAmount
    nonPortfolioTaxableIncome :=
      governmentBenefitIncome * 0.85 + inflatedStreamSS * 0.85 +
        inflatedStreamTaxablePension }

/-- The allocation cascade of one simulated year, at the arguments the year
loop passes it. -/
def yearCascade (accounts : List Account) (profile : Profile) (assumptions : Assumptions)
    (countryConfig : Option CountryConfig) (incomeStreams : Option (List IncomeStream))
    (currentYear : ℤ) (s : SimState) : WithdrawalResult × List AccountState × DeplMap :=
  let ctx := yearCtx profile assumptions countryConfig incomeStreams currentYear s
  performTaxOptimizedWithdrawal s.accountStates accounts s.targetSpending ctx.rmdAmount
    ctx.totalRetirementIncome profile s.accountDepletionAges ctx.age countryConfig
    (some ctx.nonPortfolioTaxableIncome)

/-- One iteration of the year loop of src/utils/withdrawals.ts
`calculateWithdrawals` (lines 115–293): the pre-cascade computations of
`yearCtx`, the allocation cascade, penalty scoring, growth of the
post-withdrawal balances, tax computation, emission of the year's record,
and inflation of the target spending for the next year. -/
def yearStep (accounts : List Account) (profile : Profile) (assumptions : Assumptions)
    (countryConfig : Option CountryConfig) (incomeStreams : Option (List IncomeStream))
    (currentYear : ℤ) (s : SimState) : YearlyWithdrawal × SimState :=
  let ctx := yearCtx profile assumptions countryConfig incomeStreams currentYear s
  let cascade := yearCascade accounts profile assumptions countryConfig incomeStreams
    currentYear s
  let withdrawals := cascade.1
  let statesAfterCascade := cascade.2.1
  let depl := cascade.2.2
  let penalties :=
    match countryConfig with
    | some c => calculatePenalties withdrawals.accountWithdrawals ctx.age c
    | none => []
  let totalPenalties := (penalties.map (fun p => p.amount)).sum
  let statesAfterGrowth := statesAfterCascade.map
    (fun a => { a with balance := a.balance * (1 + assumptions.retirementReturnRate) })
  let governmentBenefitTaxable := ctx.governmentBenefitIncome * 0.85
  let ssStreamTaxable := ctx.inflatedStreamSS * 0.85
  let pensionTaxable := ctx.inflatedStreamTaxablePension
  let ordinaryIncome := withdrawals.traditionalWithdrawal + governmentBenefitTaxable +
    ssStreamTaxable + pensionTaxable
  let capitalGains := withdrawals.taxableGains
  let federalAndState : ℚ × ℚ :=
    match countryConfig with
    | some c =>
      let fed := c.calculateFederalTax ordinaryIncome profile.filingStatus +
        c.calculateCapitalGainsTax capitalGains ordinaryIncome (profile.region.getD "")
          profile.filingStatus
      let regional := c.calculateRegionalTax (ordinaryIncome + capitalGains)
        (profile.region.getD "")
      let regional' :=
        if c.code == "US" then
          calculateStateTax
            (ordinaryIncome + capitalGains -
              getStandardDeduction (profile.filingStatus.getD "single"))
            (profile.stateTaxRate.getD 0)
        else regional
      (fed, regional')
    | none =>
      (calculateTotalFederalTax ordinaryIncome capitalGains
        (some (profile.filingStatus.getD "single")),
       calculateStateTax
        (ordinaryIncome + capitalGains -
          getStandardDeduction (profile.filingStatus.getD "single"))
        (profile.stateTaxRate.getD 0))
  let federalTax := federalAndState.1
  let stateTax := federalAndState.2
  let totalTax := federalTax + stateTax + totalPenalties
  let grossWithdrawal := withdrawals.total
  let grossIncome := grossWithdrawal + ctx.governmentBenefitIncome + ctx.inflatedStreamIncome
  let afterTaxIncome := grossIncome - totalTax
  let remainingBalances := statesAfterGrowth.foldl (fun o a => objSet o a.id a.balance) []
  let record : YearlyWithdrawal :=
    { age := ctx.age
      year := ctx.year
      withdrawals := withdrawals.byAccount
      remainingBalances := remainingBalances
      totalWithdrawal := grossWithdrawal
      governmentBenefitIncome := ctx.governmentBenefitIncome
      incomeStreamIncome := ctx.inflatedStreamIncome
      grossIncome := grossIncome
      federalTax := federalTax
      stateTax := stateTax
      totalTax := totalTax
      afterTaxIncome := afterTaxIncome
      targetSpending := s.targetSpending
      rmdAmount := ctx.rmdAmount
      totalRemainingBalance := sumBalances statesAfterGrowth
      earlyWithdrawalPenalties := penalties
      totalPenalties := totalPenalties }
  (record,
   { i := s.i + 1
     accountStates := statesAfterGrowth
     targetSpending := s.targetSpending * (1 + assumptions.inflationRate)
     lifetimeTaxesPaid := s.lifetimeTaxesPaid + totalTax
     portfolioDepletionAge := ctx.pda
     accountDepletionAges := depl })

/-- The year loop of src/utils/withdrawals.ts `calculateWithdrawals`,
iterated `n` times, collecting the emitted records in order. -/
def simLoop (accounts : List Account) (profile : Profile) (assumptions : Assumptions)
    (countryConfig : Option CountryConfig) (incomeStreams : Option (List IncomeStream))
    (currentYear : ℤ) : ℕ → SimState → List YearlyWithdrawal × SimState
  | 0, s => ([], s)
  | n + 1, s =>
    let r := yearStep accounts profile assumptions countryConfig incomeStreams
      currentYear s
    let rs := simLoop accounts profile assumptions countryConfig incomeStreams
      currentYear n r.2
    (r.1 :: rs.1, rs.2)

/-- The state transition of one simulated year (second component of
`yearStep`). -/
def iterStep (accounts : List Account) (profile : Profile) (assumptions : Assumptions)
    (countryConfig : Option CountryConfig) (incomeStreams : Option (List IncomeStream))
    (currentYear : ℤ) (s : SimState) : SimState :=
  (yearStep accounts profile assumptions countryConfig incomeStreams currentYear s).2

/-- The initial state of the year loop. -/
def simInit (accounts : List Account) (assumptions : Assumptions)
    (accumulationResult : AccumulationResult) : SimState :=
  { i := 0
    accountStates := initialAccountStates accounts accumulationResult
    targetSpending := accumulationResult.totalAtRetirement * assumptions.safeWithdrawalRate
    lifetimeTaxesPaid := 0
    portfolioDepletionAge := none
    accountDepletionAges := deplInit accounts }

/-- The simulation state entering year `k` (k-fold iteration of the year
transition from the initial state). -/
def simStateAt (accounts : List Account) (profile : Profile) (assumptions : Assumptions)
    (accumulationResult : AccumulationResult) (countryConfig : Option CountryConfig)
    (incomeStreams : Option (List IncomeStream)) (currentYear : ℤ) (k : ℕ) : SimState :=
  (iterStep accounts profile assumptions countryConfig incomeStreams currentYear)^[k]
    (simInit accounts assumptions accumulationResult)

/-- The number of simulated years
(`for (let i = 0; i <= lifeExpectancy - retirementAge; i++)`). -/
def numSimYears (profile : Profile) : ℕ :=
  (profile.lifeExpectancy - profile.retirementAge + 1).toNat

/-- src/utils/withdrawals.ts `calculateWithdrawals`: the drawdown
simulation.  `currentYear` stands for the source's
`new Date().getFullYear()`. -/
def calculateWithdrawals (accounts : List Account) (profile : Profile)
    (assumptions : Assumptions) (accumulationResult : AccumulationResult)
    (countryConfig : Option CountryConfig) (incomeStreams : Option (List IncomeStream))
    (currentYear : ℤ) : RetirementResult :=
  let r := simLoop accounts profile assumptions countryConfig incomeStreams
    currentYear (numSimYears profile) (simInit accounts assumptions accumulationResult)
  { yearlyWithdrawals := r.1
    portfolioDepletionAge := r.2.portfolioDepletionAge
    lifetimeTaxesPaid := r.2.lifetimeTaxesPaid
    sustainableMonthlyWithdrawal :=
      accumulationResult.totalAtRetirement * assumptions.safeWithdrawalRate / 12
    sustainableAnnualWithdrawal :=
      accumulationResult.totalAtRetirement * assumptions.safeWithdrawalRate
    accountDepletionAges := r.2.accountDepletionAges }
/-! ### Concrete inputs used by the witnesses and counterexamples below -/

/-- A traditional 401(k) account with no configured withdrawal rules. -/
def fxAcctTrad : Account :=
  { id := "trad", name := "Traditional", type := "traditional_401k", balance := 0,
    annualContribution := 0, contributionGrowthRate := 0, returnRate := 0 }

/-- A traditional account whose configured withdrawal start age (80) lies
beyond the mandatory-minimum start age. -/
def fxAcctLocked : Account :=
  { id := "trad", name := "Locked Traditional", type := "traditional_401k", balance := 0,
    annualContribution := 0, contributionGrowthRate := 0, returnRate := 0,
    withdrawalRules := some ⟨80⟩ }

/-- A Canadian FHSA account (pretax treatment, not policy-traditional). -/
def fxAcctFhsa : Account :=
  { id := "fhsa1", name := "FHSA", type := "fhsa", balance := 0,
    annualContribution := 0, contributionGrowthRate := 0, returnRate := 0 }

/-- A taxable brokerage account. -/
def fxAcctTax : Account :=
  { id := "tax1", name := "Taxable", type := "taxable", balance := 0,
    annualContribution := 0, contributionGrowthRate := 0, returnRate := 0 }

/-- Married-filing-jointly profile retiring immediately at 65, one year of
retirement. -/
def fxProfMFJ : Profile :=
  { currentAge := 65, retirementAge := 65, lifeExpectancy := 66,
    filingStatus := some "married_filing_jointly", stateTaxRate := some 0.05 }

/-- Single filer retiring at 73 with a single simulated year. -/
def fxProf73 : Profile :=
  { currentAge := 73, retirementAge := 73, lifeExpectancy := 73,
    filingStatus := some "single", stateTaxRate := some 0 }

/-- Canadian profile retiring at 65 with a single simulated year. -/
def fxProfCA : Profile :=
  { currentAge := 65, retirementAge := 65, lifeExpectancy := 65, region := some "ON" }

/-- Single filer retiring at 65 with three simulated years. -/
def fxProfC5 : Profile :=
  { currentAge := 65, retirementAge := 65, lifeExpectancy := 67,
    filingStatus := some "single", stateTaxRate := some 0 }

/-- No inflation, 4% safe withdrawal rate, no retirement returns. -/
def fxAsmp0 : Assumptions :=
  { inflationRate := 0, safeWithdrawalRate := 0.04, retirementReturnRate := 0 }

/-- A negligible safe withdrawal rate (target spending far below the RMD). -/
def fxAsmpTiny : Assumptions :=
  { inflationRate := 0, safeWithdrawalRate := 1/100000, retirementReturnRate := 0 }

/-- 5% safe withdrawal rate, no inflation or returns. -/
def fxAsmpC3 : Assumptions :=
  { inflationRate := 0, safeWithdrawalRate := 1/20, retirementReturnRate := 0 }

/-- 10% safe withdrawal rate, no inflation or returns. -/
def fxAsmpC5 : Assumptions :=
  { inflationRate := 0, safeWithdrawalRate := 1/10, retirementReturnRate := 0 }

/-- 3% inflation with a 4% safe withdrawal rate. -/
def fxAsmpInfl : Assumptions :=
  { inflationRate := 0.03, safeWithdrawalRate := 0.04, retirementReturnRate := 0 }

/-- Accumulation result: $500k in the traditional account. -/
def fxAccum500 : AccumulationResult := ⟨[("trad", 500000)], 500000⟩

/-- Accumulation result: $1M in the traditional account. -/
def fxAccumM : AccumulationResult := ⟨[("trad", 1000000)], 1000000⟩

/-- Accumulation result: $100k in the FHSA, $1M total at retirement. -/
def fxAccumFhsa : AccumulationResult := ⟨[("fhsa1", 100000)], 1000000⟩

/-- Accumulation result: $10 in the traditional account, $1000 total. -/
def fxAccumSmall : AccumulationResult := ⟨[("trad", 10)], 1000⟩

/-- Accumulation result: $100k in the taxable account. -/
def fxAccumTax : AccumulationResult := ⟨[("tax1", 100000)], 100000⟩

/-- A recorded $10k withdrawal from a traditional IRA. -/
def fxWithdrawalIra : AccountWithdrawal :=
  { accountId := "ira1", accountName := "IRA", accountType := "traditional_ira",
    amount := 10000 }

/-- The FHSA account's initial cascade state ($100k, pretax so no cost
basis). -/
def fxStFhsa : AccountState := ⟨"fhsa1", "fhsa", 100000, 0⟩

/-- Depletion-age map holding only the FHSA account, not yet depleted. -/
def fxDeplFhsa : DeplMap := [("fhsa1", none)]

/-- A traditional account's cascade state with a $500k balance. -/
def fxStTrad : AccountState := ⟨"trad", "traditional_401k", 500000, 0⟩

/-- A traditional account's cascade state with a $1M balance. -/
def fxStTradM : AccountState := ⟨"trad", "traditional_401k", 1000000, 0⟩

/-- Depletion-age map holding only the traditional account, not yet
depleted. -/
def fxDeplTrad : DeplMap := [("trad", none)]

/-- Single filer retiring at 65 with two simulated years. -/
def fxProfC5b : Profile :=
  { currentAge := 65, retirementAge := 65, lifeExpectancy := 66,
    filingStatus := some "single", stateTaxRate := some 0 }

/-- The cascade result of the CA FHSA counterexample scenario: nothing
withdrawn. -/
def fxC3W : WithdrawalResult :=
  { total := 0, traditionalWithdrawal := 0, rothWithdrawal := 0, taxableWithdrawal := 0,
    taxableGains := 0, hsaWithdrawal := 0, byAccount := [("fhsa1", 0)],
    accountWithdrawals := [] }

/-- The yearly record of the CA FHSA counterexample scenario. -/
def fxC3Rec : YearlyWithdrawal :=
  { age := 65, year := 2025, withdrawals := [("fhsa1", 0)],
    remainingBalances := [("fhsa1", 100000)], totalWithdrawal := 0,
    governmentBenefitIncome := 0, incomeStreamIncome := 0, grossIncome := 0,
    federalTax := 0, stateTax := 0, totalTax := 0, afterTaxIncome := 0,
    targetSpending := 50000, rmdAmount := 0, totalRemainingBalance := 100000,
    earlyWithdrawalPenalties := [], totalPenalties := 0 }

/-- The cascade result of the locked-traditional RMD counterexample
scenario: only the early-access fallback withdraws the $10 need. -/
def fxC2W : WithdrawalResult :=
  { total := 10, traditionalWithdrawal := 10, rothWithdrawal := 0, taxableWithdrawal := 0,
    taxableGains := 0, hsaWithdrawal := 0, byAccount := [("trad", 10)],
    accountWithdrawals := [⟨"trad", "Locked Traditional", "traditional_401k", 10⟩] }

/-- The yearly record of the locked-traditional RMD counterexample
scenario. -/
def fxC2Rec : YearlyWithdrawal :=
  { age := 73, year := 2025, withdrawals := [("trad", 10)],
    remainingBalances := [("trad", 999990)], totalWithdrawal := 10,
    governmentBenefitIncome := 0, incomeStreamIncome := 0, grossIncome := 10,
    federalTax := 0, stateTax := 0, totalTax := 0, afterTaxIncome := 10,
    targetSpending := 10, rmdAmount := 2000000/53, totalRemainingBalance := 999990,
    earlyWithdrawalPenalties := [], totalPenalties := 0 }

/-- First-year record of the depletion-flag counterexample scenario. -/
def fxC5Rec0 : YearlyWithdrawal :=
  { age := 65, year := 2025, withdrawals := [("trad", 10)],
    remainingBalances := [("trad", 0)], totalWithdrawal := 10,
    governmentBenefitIncome := 0, incomeStreamIncome := 0, grossIncome := 10,
    federalTax := 0, stateTax := 0, totalTax := 0, afterTaxIncome := 10,
    targetSpending := 100, rmdAmount := 0, totalRemainingBalance := 0,
    earlyWithdrawalPenalties := [], totalPenalties := 0 }

/-- Second-year record of the depletion-flag counterexample scenario. -/
def fxC5Rec1 : YearlyWithdrawal :=
  { age := 66, year := 2026, withdrawals := [("trad", 0)],
    remainingBalances := [("trad", 0)], totalWithdrawal := 0,
    governmentBenefitIncome := 0, incomeStreamIncome := 0, grossIncome := 0,
    federalTax := 0, stateTax := 0, totalTax := 0, afterTaxIncome := 0,
    targetSpending := 100, rmdAmount := 0, totalRemainingBalance := 0,
    earlyWithdrawalPenalties := [], totalPenalties := 0 }

/-- A dummy yearly record (used only as a `getD` default in closed
statements). -/
def fxDummyRecord : YearlyWithdrawal :=
  { age := 0, year := 0, withdrawals := [], remainingBalances := [],
    totalWithdrawal := 0, governmentBenefitIncome := 0, incomeStreamIncome := 0,
    grossIncome := 0, federalTax := 0, stateTax := 0, totalTax := 0,
    afterTaxIncome := 0, targetSpending := 0, rmdAmount := 0,
    totalRemainingBalance := 0, earlyWithdrawalPenalties := [], totalPenalties := 0 }


/-! ### Generic lemmas about the cascade loops -/

theorem wTotal_nil : wTotal [] = 0 := rfl

theorem wTotal_cons (e : WEntry) (es : List WEntry) :
    wTotal (e :: es) = e.amount + wTotal es := by
  simp [wTotal]

theorem wTotal_append (es₁ es₂ : List WEntry) :
    wTotal (es₁ ++ es₂) = wTotal es₁ + wTotal es₂ := by
  simp [wTotal]

theorem wGains_cons (e : WEntry) (es : List WEntry) :
    wGains (e :: es) = e.gains + wGains es := by
  simp [wGains]

/-- The final counter of a cascade loop is the initial counter minus the
total withdrawn. -/
theorem withdrawLoop_counter_eq (p : AccountState → Bool) (g : GainsMode) (age : ℤ) :
    ∀ (states : List AccountState) (c : ℚ) (d : DeplMap),
      (withdrawLoop p g age states c d).counter =
        c - wTotal (withdrawLoop p g age states c d).entries
  | [], c, d => by simp [withdrawLoop, wTotal]
  | a :: rest, c, d => by
    by_cases hp : p a
    · by_cases hc : c ≤ 0
      · simp [withdrawLoop, hp, hc, wTotal]
      · simp only [withdrawLoop, hp, hc, if_true, if_false, wTotal_cons]
        rw [withdrawLoop_counter_eq p g age rest]
        ring
    · simp only [withdrawLoop, hp, if_false]
      exact withdrawLoop_counter_eq p g age rest c d

/-- Same for the step-1 loop's driving counter. -/
theorem rmdLoop_rmd_eq (p : AccountState → Bool) (age : ℤ) :
    ∀ (states : List AccountState) (c need : ℚ) (d : DeplMap),
      (rmdLoop p age states c need d).rmdRemaining =
        c - wTotal (rmdLoop p age states c need d).entries
  | [], c, need, d => by simp [rmdLoop, wTotal]
  | a :: rest, c, need, d => by
    by_cases hp : p a
    · by_cases hc : c ≤ 0
      · simp [rmdLoop, hp, hc, wTotal]
      · simp only [rmdLoop, hp, hc, if_true, if_false, wTotal_cons]
        rw [rmdLoop_rmd_eq p age rest]
        ring
    · simp only [rmdLoop, hp, if_false]
      exact rmdLoop_rmd_eq p age rest c need d

/-- Every balance stays non-negative through a cascade loop. -/
theorem withdrawLoop_nonneg (p : AccountState → Bool) (g : GainsMode) (age : ℤ) :
    ∀ (states : List AccountState) (c : ℚ) (d : DeplMap),
      (∀ s ∈ states, 0 ≤ s.balance) →
      ∀ s' ∈ (withdrawLoop p g age states c d).states, 0 ≤ s'.balance
  | [], c, d => by simp [withdrawLoop]
  | a :: rest, c, d => by
    intro hb s' hs'
    have hba : 0 ≤ a.balance := hb a (by simp)
    have hbr : ∀ s ∈ rest, 0 ≤ s.balance := fun s hs => hb s (by simp [hs])
    by_cases hp : p a
    · by_cases hc : c ≤ 0
      · simp only [withdrawLoop, hp, hc, if_true] at hs'
        exact hb s' hs'
      · simp only [withdrawLoop, hp, hc, if_true, if_false, List.mem_cons] at hs'
        rcases hs' with h | h
        · subst h
          have : min c a.balance ≤ a.balance := min_le_right _ _
          show (0 : ℚ) ≤ a.balance - min c a.balance
          linarith
        · exact withdrawLoop_nonneg p g age rest _ _ hbr s' h
    · simp only [withdrawLoop] at hs'
      rw [if_neg hp] at hs'
      rcases List.mem_cons.mp hs' with h | h
      · subst h; exact hba
      · exact withdrawLoop_nonneg p g age rest _ _ hbr s' h

/-- Every balance stays non-negative through the step-1 loop. -/
theorem rmdLoop_nonneg (p : AccountState → Bool) (age : ℤ) :
    ∀ (states : List AccountState) (c need : ℚ) (d : DeplMap),
      (∀ s ∈ states, 0 ≤ s.balance) →
      ∀ s' ∈ (rmdLoop p age states c need d).states, 0 ≤ s'.balance
  | [], c, need, d => by simp [rmdLoop]
  | a :: rest, c, need, d => by
    intro hb s' hs'
    have hba : 0 ≤ a.balance := hb a (by simp)
    have hbr : ∀ s ∈ rest, 0 ≤ s.balance := fun s hs => hb s (by simp [hs])
    by_cases hp : p a
    · by_cases hc : c ≤ 0
      · simp only [rmdLoop, hp, hc, if_true] at hs'
        exact hb s' hs'
      · simp only [rmdLoop, hp, hc, if_true, if_false, List.mem_cons] at hs'
        rcases hs' with h | h
        · subst h
          have : min c a.balance ≤ a.balance := min_le_right _ _
          show (0 : ℚ) ≤ a.balance - min c a.balance
          linarith
        · exact rmdLoop_nonneg p age rest _ _ _ hbr s' h
    · simp only [rmdLoop] at hs'
      rw [if_neg hp] at hs'
      rcases List.mem_cons.mp hs' with h | h
      · subst h; exact hba
      · exact rmdLoop_nonneg p age rest _ _ _ hbr s' h

/-- Specification of the withdrawals a cascade loop records: amounts are
non-negative, clamped to the pre-withdrawal balance, and the realized gains

follow the cost-basis fraction exactly when the loop realizes gains and the
account's treatment is taxable. -/
theorem withdrawLoop_entries_spec (p : AccountState → Bool) (g : GainsMode) (age : ℤ) :
    ∀ (states : List AccountState) (c : ℚ) (d : DeplMap),
      (∀ s ∈ states, 0 ≤ s.balance) →
      ∀ e ∈ (withdrawLoop p g age states c d).entries,
        0 ≤ e.amount ∧ e.amount ≤ e.preBal ∧ 0 ≤ e.preBal ∧
        e.gains = (match g with
          | GainsMode.off => 0
          | GainsMode.pre =>
            if getTaxTreatment e.type == TaxTreatment.taxable then
              e.amount * (if e.preCB > 0 then max 0 (1 - e.preCB / e.preBal) else 0.5)
            else 0
          | GainsMode.post =>
            if getTaxTreatment e.type == TaxTreatment.taxable then
              e.amount * (if e.preCB > 0 then
                (if e.preBal - e.amount = 0 then 0
                 else max 0 (1 - e.preCB / (e.preBal - e.amount)))
              else 0.5)
            else 0)
  | [], c, d => by simp [withdrawLoop]
  | a :: rest, c, d => by
    intro hb e he
    have hba : 0 ≤ a.balance := hb a (by simp)
    have hbr : ∀ s ∈ rest, 0 ≤ s.balance := fun s hs => hb s (by simp [hs])
    by_cases hp : p a
    · by_cases hc : c ≤ 0
      · simp [withdrawLoop, hp, hc] at he
      · simp only [withdrawLoop, hp, hc, if_true, if_false, List.mem_cons] at he
        rcases he with h | h
        · subst h
          refine ⟨le_min (le_of_lt (lt_of_not_le hc)) hba, min_le_right _ _, hba, ?_⟩
          cases g
          · rfl
          · show (if getTaxTreatment a.type == TaxTreatment.taxable then
                min c a.balance *
                  (if a.costBasis > 0 then max 0 (1 - a.costBasis / a.balance)
                   else (0.5 : ℚ))
              else 0) = _
            rfl
          · show (if getTaxTreatment a.type == TaxTreatment.taxable then
                min c a.balance *
                  (if a.costBasis > 0 then
                    (if a.balance - min c a.balance = 0 then 0
                     else max 0 (1 - a.costBasis / (a.balance - min c a.balance)))
                   else (0.5 : ℚ))
              else 0) = _
            rfl
        · exact withdrawLoop_entries_spec p g age rest _ _ hbr e h
    · simp only [withdrawLoop] at he
      rw [if_neg hp] at he
      exact withdrawLoop_entries_spec p g age rest _ _ hbr e he

/-- Specification of the withdrawals the step-1 loop records. -/
theorem rmdLoop_entries_spec (p : AccountState → Bool) (age : ℤ) :
    ∀ (states : List AccountState) (c need : ℚ) (d : DeplMap),
      (∀ s ∈ states, 0 ≤ s.balance) →
      ∀ e ∈ (rmdLoop p age states c need d).entries,
        0 ≤ e.amount ∧ e.amount ≤ e.preBal ∧ 0 ≤ e.preBal ∧ e.gains = 0
  | [], c, need, d => by simp [rmdLoop]
  | a :: rest, c, need, d => by
    intro hb e he
    have hba : 0 ≤ a.balance := hb a (by simp)
    have hbr : ∀ s ∈ rest, 0 ≤ s.balance := fun s hs => hb s (by simp [hs])
    by_cases hp : p a
    · by_cases hc : c ≤ 0
      · simp [rmdLoop, hp, hc] at he
      · simp only [rmdLoop, hp, hc, if_true, if_false, List.mem_cons] at he
        rcases he with h | h
        · subst h
          exact ⟨le_min (le_of_lt (lt_of_not_le hc)) hba, min_le_right _ _, hba, rfl⟩
        · exact rmdLoop_entries_spec p age rest _ _ _ hbr e h
    · simp only [rmdLoop] at he
      rw [if_neg hp] at he
      exact rmdLoop_entries_spec p age rest _ _ _ hbr e he

/-- The total withdrawn by a cascade loop is non-negative. -/
theorem withdrawLoop_wTotal_nonneg (p : AccountState → Bool) (g : GainsMode) (age : ℤ)
    (states : List AccountState) (c : ℚ) (d : DeplMap)
    (hb : ∀ s ∈ states, 0 ≤ s.balance) :
    0 ≤ wTotal (withdrawLoop p g age states c d).entries := by
  unfold wTotal
  refine List.sum_nonneg ?_
  intro x hx
  rcases List.mem_map.mp hx with ⟨e, he, rfl⟩
  exact (withdrawLoop_entries_spec p g age states c d hb e he).1

/-- The total withdrawn by the step-1 loop is non-negative. -/
theorem rmdLoop_wTotal_nonneg (p : AccountState → Bool) (age : ℤ)
    (states : List AccountState) (c need : ℚ) (d : DeplMap)
    (hb : ∀ s ∈ states, 0 ≤ s.balance) :
    0 ≤ wTotal (rmdLoop p age states c need d).entries := by
  unfold wTotal
  refine List.sum_nonneg ?_
  intro x hx
  rcases List.mem_map.mp hx with ⟨e, he, rfl⟩
  exact (rmdLoop_entries_spec p age states c need d hb e he).1

/-- Relation between an account state entering a cascade loop and the same
account leaving it: identity fields are preserved, the balance never grows,
unselected accounts are untouched, and — when the loop ends with a positive
counter (need still unmet) — every selected account has been drained. -/
def StageRel (p : AccountState → Bool) (cFinal : ℚ) (s s' : AccountState) : Prop :=
  s'.id = s.id ∧ s'.type = s.type ∧ s'.balance ≤ s.balance ∧
    (p s = false → s' = s) ∧ (0 < cFinal → p s = true → s'.balance ≤ 0)

/-- A cascade loop relates its input and output states pointwise by
`StageRel`. -/
theorem withdrawLoop_stageRel (p : AccountState → Bool) (g : GainsMode) (age : ℤ) :
    ∀ (states : List AccountState) (c : ℚ) (d : DeplMap),
      (∀ s ∈ states, 0 ≤ s.balance) →
      List.Forall₂ (StageRel p (withdrawLoop p g age states c d).counter)
        states (withdrawLoop p g age states c d).states
  | [], c, d => by simp [withdrawLoop]
  | a :: rest, c, d => by
    intro hb
    have hba : 0 ≤ a.balance := hb a (by simp)
    have hbr : ∀ s ∈ rest, 0 ≤ s.balance := fun s hs => hb s (by simp [hs])
    by_cases hp : p a
    · by_cases hc : c ≤ 0
      · simp only [withdrawLoop, hp, hc, if_true]
        refine List.forall₂_same.mpr ?_
        intro x _
        exact ⟨rfl, rfl, le_refl _, fun _ => rfl, fun hpos _ => absurd hc (not_le.mpr hpos)⟩
      · simp only [withdrawLoop, hp, hc, if_true, if_false]
        refine List.Forall₂.cons ?_ (withdrawLoop_stageRel p g age rest _ _ hbr)
        have hw : 0 ≤ min c a.balance := le_min (le_of_lt (lt_of_not_le hc)) hba
        refine ⟨rfl, rfl, by simp only; linarith, fun hf => absurd hp (by simp [hf]), ?_⟩
        intro hpos _
        by_cases hab : a.balance ≤ c
        · show a.balance - min c a.balance ≤ 0
          rw [min_eq_right hab]
          linarith
        · exfalso
          have hwc : min c a.balance = c := min_eq_left (le_of_lt (lt_of_not_le hab))
          have hce := withdrawLoop_counter_eq p g age rest (c - min c a.balance)
            (if a.balance - min c a.balance ≤ 0 then deplSet d a.id age else d)
          have hnn := withdrawLoop_wTotal_nonneg p g age rest (c - min c a.balance)
            (if a.balance - min c a.balance ≤ 0 then deplSet d a.id age else d) hbr
          rw [hwc] at hce hpos hnn
          simp only [sub_self] at hce hpos hnn
          rw [hce] at hpos
          linarith
    · simp only [withdrawLoop]
      rw [if_neg hp]
      refine List.Forall₂.cons ?_ (withdrawLoop_stageRel p g age rest _ _ hbr)
      exact ⟨rfl, rfl, le_refl _, fun _ => rfl,
        fun _ hpt => absurd hpt (by simp [Bool.not_eq_true] at hp ⊢; exact hp)⟩

/-- The step-1 loop relates its input and output states pointwise by
`StageRel` (with the driving counter `rmdRemaining`). -/
theorem rmdLoop_stageRel (p : AccountState → Bool) (age : ℤ) :
    ∀ (states : List AccountState) (c need : ℚ) (d : DeplMap),
      (∀ s ∈ states, 0 ≤ s.balance) →
      List.Forall₂ (StageRel p (rmdLoop p age states c need d).rmdRemaining)
        states (rmdLoop p age states c need d).states
  | [], c, need, d => by simp [rmdLoop]
  | a :: rest, c, need, d => by
    intro hb
    have hba : 0 ≤ a.balance := hb a (by simp)
    have hbr : ∀ s ∈ rest, 0 ≤ s.balance := fun s hs => hb s (by simp [hs])
    by_cases hp : p a
    · by_cases hc : c ≤ 0
      · simp only [rmdLoop, hp, hc, if_true]
        refine List.forall₂_same.mpr ?_
        intro x _
        exact ⟨rfl, rfl, le_refl _, fun _ => rfl, fun hpos _ => absurd hc (not_le.mpr hpos)⟩
      · simp only [rmdLoop, hp, hc, if_true, if_false]
        refine List.Forall₂.cons ?_ (rmdLoop_stageRel p age rest _ _ _ hbr)
        have hw : 0 ≤ min c a.balance := le_min (le_of_lt (lt_of_not_le hc)) hba
        refine ⟨rfl, rfl, by simp only; linarith, fun hf => absurd hp (by simp [hf]), ?_⟩
        intro hpos _
        by_cases hab : a.balance ≤ c
        · show a.balance - min c a.balance ≤ 0
          rw [min_eq_right hab]
          linarith
        · exfalso
          have hwc : min c a.balance = c := min_eq_left (le_of_lt (lt_of_not_le hab))
          have hce := rmdLoop_rmd_eq p age rest (c - min c a.balance)
            (max 0 (need - min c a.balance))
            (if a.balance - min c a.balance ≤ 0 then deplSet d a.id age else d)
          have hnn := rmdLoop_wTotal_nonneg p age rest (c - min c a.balance)
            (max 0 (need - min c a.balance))
            (if a.balance - min c a.balance ≤ 0 then deplSet d a.id age else d) hbr
          rw [hwc] at hce hpos hnn
          simp only [sub_self] at hce hpos hnn
          rw [hce] at hpos
          linarith
    · simp only [rmdLoop]
      rw [if_neg hp]
      refine List.Forall₂.cons ?_ (rmdLoop_stageRel p age rest _ _ _ hbr)
      exact ⟨rfl, rfl, le_refl _, fun _ => rfl,
        fun _ hpt => absurd hpt (by simp [Bool.not_eq_true] at hp ⊢; exact hp)⟩

/-- Clamped subtraction collapses: subtracting a non-negative amount from an
already-clamped need clamps once. -/
theorem max_zero_sub_collapse (a b : ℚ) (hb : 0 ≤ b) :
    max 0 (max 0 a - b) = max 0 (a - b) := by
  rcases le_total a 0 with h | h
  · rw [max_eq_left h, max_eq_left (by linarith : a - b ≤ (0 : ℚ)),
      max_eq_left (by linarith : (0 : ℚ) - b ≤ 0)]
  · rw [max_eq_right h]

/-- Sum of the balances of the accounts a loop predicate selects. -/
def partSum (p : AccountState → Bool) (states : List AccountState) : ℚ :=
  (states.map (fun s => if p s then s.balance else 0)).sum

theorem partSum_nonneg (p : AccountState → Bool) (states : List AccountState)
    (hb : ∀ s ∈ states, 0 ≤ s.balance) : 0 ≤ partSum p states := by
  unfold partSum
  refine List.sum_nonneg ?_
  intro x hx
  rcases List.mem_map.mp hx with ⟨s, hs, rfl⟩
  by_cases hps : p s <;> simp [hps, hb s hs]

/-- A cascade loop withdraws exactly the smaller of its counter and the
total balance of the accounts it may draw from. -/
theorem withdrawLoop_total_min (p : AccountState → Bool) (g : GainsMode) (age : ℤ) :
    ∀ (states : List AccountState) (c : ℚ) (d : DeplMap),
      (∀ s ∈ states, 0 ≤ s.balance) → 0 ≤ c →
      wTotal (withdrawLoop p g age states c d).entries = min c (partSum p states)
  | [], c, d => by
    intro _ hc
    simp [withdrawLoop, wTotal, partSum, min_eq_right hc]
  | a :: rest, c, d => by
    intro hb hc
    have hba : 0 ≤ a.balance := hb a (by simp)
    have hbr : ∀ s ∈ rest, 0 ≤ s.balance := fun s hs => hb s (by simp [hs])
    have hpr : 0 ≤ partSum p rest := partSum_nonneg p rest hbr
    by_cases hp : p a
    · have hps : partSum p (a :: rest) = a.balance + partSum p rest := by
        simp [partSum, hp]
      by_cases hcz : c ≤ 0
      · have hc0 : c = 0 := le_antisymm hcz hc
        subst hc0
        have hpz : 0 ≤ partSum p (a :: rest) := partSum_nonneg p (a :: rest) hb
        simp only [withdrawLoop, hp, if_true, le_refl, wTotal_nil]
        rw [min_eq_left hpz]
      · have hw0 : 0 ≤ c - min c a.balance := by
          have := min_le_left c a.balance
          linarith
        have hrec := withdrawLoop_total_min p g age rest (c - min c a.balance)
          (if a.balance - min c a.balance ≤ 0 then deplSet d a.id age else d) hbr hw0
        simp only [withdrawLoop, hp, hcz, if_true, if_false, wTotal_cons]
        rw [hrec, hps]
        by_cases hab : a.balance ≤ c
        · rw [min_eq_right hab, ← min_add_add_left]
          congr 1
          ring
        · have hca : c ≤ a.balance := le_of_lt (lt_of_not_le hab)
          rw [min_eq_left hca, sub_self, min_eq_left hpr,
            min_eq_left (by linarith : c ≤ a.balance + partSum p rest)]
          ring
    · have hps : partSum p (a :: rest) = partSum p rest := by
        simp [partSum, hp]
      simp only [withdrawLoop]
      rw [if_neg hp, hps]
      exact withdrawLoop_total_min p g age rest c d hbr hc

/-- The step-1 loop withdraws exactly the smaller of the mandatory minimum
and the total balance of the accounts it may draw from. -/
theorem rmdLoop_total_min (p : AccountState → Bool) (age : ℤ) :
    ∀ (states : List AccountState) (c need : ℚ) (d : DeplMap),
      (∀ s ∈ states, 0 ≤ s.balance) → 0 ≤ c →
      wTotal (rmdLoop p age states c need d).entries = min c (partSum p states)
  | [], c, need, d => by
    intro _ hc
    simp [rmdLoop, wTotal, partSum, min_eq_right hc]
  | a :: rest, c, need, d => by
    intro hb hc
    have hba : 0 ≤ a.balance := hb a (by simp)
    have hbr : ∀ s ∈ rest, 0 ≤ s.balance := fun s hs => hb s (by simp [hs])
    have hpr : 0 ≤ partSum p rest := partSum_nonneg p rest hbr
    by_cases hp : p a
    · have hps : partSum p (a :: rest) = a.balance + partSum p rest := by
        simp [partSum, hp]
      by_cases hcz : c ≤ 0
      · have hc0 : c = 0 := le_antisymm hcz hc
        subst hc0
        have hpz : 0 ≤ partSum p (a :: rest) := partSum_nonneg p (a :: rest) hb
        simp only [rmdLoop, hp, if_true, le_refl, wTotal_nil]
        rw [min_eq_left hpz]
      · have hw0 : 0 ≤ c - min c a.balance := by
          have := min_le_left c a.balance
          linarith
        have hrec := rmdLoop_total_min p age rest (c - min c a.balance)
          (max 0 (need - min c a.balance))
          (if a.balance - min c a.balance ≤ 0 then deplSet d a.id age else d) hbr hw0
        simp only [rmdLoop, hp, hcz, if_true, if_false, wTotal_cons]
        rw [hrec, hps]
        by_cases hab : a.balance ≤ c
        · rw [min_eq_right hab, ← min_add_add_left]
          congr 1
          ring
        · have hca : c ≤ a.balance := le_of_lt (lt_of_not_le hab)
          rw [min_eq_left hca, sub_self, min_eq_left hpr,
            min_eq_left (by linarith : c ≤ a.balance + partSum p rest)]
          ring
    · have hps : partSum p (a :: rest) = partSum p rest := by
        simp [partSum, hp]
      simp only [rmdLoop]
      rw [if_neg hp, hps]
      exact rmdLoop_total_min p age rest c need d hbr hc

/-- The step-1 loop's final remaining need is the initial need minus the
total withdrawn, clamped at 0. -/
theorem rmdLoop_need_eq (p : AccountState → Bool) (age : ℤ) :
    ∀ (states : List AccountState) (c need : ℚ) (d : DeplMap),
      (∀ s ∈ states, 0 ≤ s.balance) → 0 ≤ need →
      (rmdLoop p age states c need d).need =
        max 0 (need - wTotal (rmdLoop p age states c need d).entries)
  | [], c, need, d => by
    intro _ hn
    simp [rmdLoop, wTotal, max_eq_right hn]
  | a :: rest, c, need, d => by
    intro hb hn
    have hba : 0 ≤ a.balance := hb a (by simp)
    have hbr : ∀ s ∈ rest, 0 ≤ s.balance := fun s hs => hb s (by simp [hs])
    by_cases hp : p a
    · by_cases hcz : c ≤ 0
      · simp only [rmdLoop, hp, hcz, if_true, wTotal_nil]
        rw [max_eq_right (by linarith : (0 : ℚ) ≤ need - 0)]
        ring
      · have hw : 0 ≤ min c a.balance := le_min (le_of_lt (lt_of_not_le hcz)) hba
        have hrec := rmdLoop_need_eq p age rest (c - min c a.balance)
          (max 0 (need - min c a.balance))
          (if a.balance - min c a.balance ≤ 0 then deplSet d a.id age else d) hbr
          (le_max_left _ _)
        have hwt := rmdLoop_wTotal_nonneg p age rest (c - min c a.balance)
          (max 0 (need - min c a.balance))
          (if a.balance - min c a.balance ≤ 0 then deplSet d a.id age else d) hbr
        simp only [rmdLoop, hp, hcz, if_true, if_false, wTotal_cons]
        rw [hrec, max_zero_sub_collapse _ _ hwt]
        congr 1
        ring
    · simp only [rmdLoop]
      rw [if_neg hp]
      exact rmdLoop_need_eq p age rest c need d hbr hn

/-- A cascade loop preserves the ids and types of the states, pointwise. -/
theorem withdrawLoop_idType (p : AccountState → Bool) (g : GainsMode) (age : ℤ) :
    ∀ (states : List AccountState) (c : ℚ) (d : DeplMap),
      (withdrawLoop p g age states c d).states.map (fun s => (s.id, s.type)) =
        states.map (fun s => (s.id, s.type))
  | [], c, d => by simp [withdrawLoop]
  | a :: rest, c, d => by
    by_cases hp : p a
    · by_cases hc : c ≤ 0
      · simp [withdrawLoop, hp, hc]
      · simp only [withdrawLoop, hp, hc, if_true, if_false, List.map_cons]
        rw [withdrawLoop_idType p g age rest]
    · simp only [withdrawLoop]
      rw [if_neg hp]
      simp only [List.map_cons]
      rw [withdrawLoop_idType p g age rest]

/-- The step-1 loop preserves the ids and types of the states, pointwise. -/
theorem rmdLoop_idType (p : AccountState → Bool) (age : ℤ) :
    ∀ (states : List AccountState) (c need : ℚ) (d : DeplMap),
      (rmdLoop p age states c need d).states.map (fun s => (s.id, s.type)) =
        states.map (fun s => (s.id, s.type))
  | [], c, need, d => by simp [rmdLoop]
  | a :: rest, c, need, d => by
    by_cases hp : p a
    · by_cases hc : c ≤ 0
      · simp [rmdLoop, hp, hc]
      · simp only [rmdLoop, hp, hc, if_true, if_false, List.map_cons]
        rw [rmdLoop_idType p age rest]
    · simp only [rmdLoop]
      rw [if_neg hp]
      simp only [List.map_cons]
      rw [rmdLoop_idType p age rest]

/-! ### Named forms of the cascade's loop predicates and step equations -/

/-- Step 1/2/6 predicate: available and policy-traditional. -/
def availTradPred (accounts : List Account) (age : ℤ) (profile : Profile)
    (cfg : Option CountryConfig) : AccountState → Bool :=
  fun st => isAvailable accounts age profile.retirementAge cfg st &&
    effIsTraditional cfg st.type

/-- Step 3 predicate: available with Roth treatment. -/
def availRothPred (accounts : List Account) (age : ℤ) (profile : Profile)
    (cfg : Option CountryConfig) : AccountState → Bool :=
  fun st => isAvailable accounts age profile.retirementAge cfg st &&
    (getTaxTreatment st.type == TaxTreatment.roth)

/-- Step 4 predicate: available with taxable treatment. -/
def availTaxablePred (accounts : List Account) (age : ℤ) (profile : Profile)
    (cfg : Option CountryConfig) : AccountState → Bool :=
  fun st => isAvailable accounts age profile.retirementAge cfg st &&
    (getTaxTreatment st.type == TaxTreatment.taxable)

/-- Step 5 predicate: available with HSA treatment. -/
def availHsaPred (accounts : List Account) (age : ℤ) (profile : Profile)
    (cfg : Option CountryConfig) : AccountState → Bool :=
  fun st => isAvailable accounts age profile.retirementAge cfg st &&
    (getTaxTreatment st.type == TaxTreatment.hsa)

/-- Step 7 first-pass predicate: unavailable with balance,
policy-traditional. -/
def unavailTradPred (accounts : List Account) (age : ℤ) (profile : Profile)
    (cfg : Option CountryConfig) : AccountState → Bool :=
  fun st => isUnavailableWithBalance accounts age profile.retirementAge cfg st &&
    effIsTraditional cfg st.type

/-- Step 7 second-pass predicate: unavailable with balance, not
policy-traditional. -/
def unavailOtherPred (accounts : List Account) (age : ℤ) (profile : Profile)
    (cfg : Option CountryConfig) : AccountState → Bool :=
  fun st => isUnavailableWithBalance accounts age profile.retirementAge cfg st &&
    !(effIsTraditional cfg st.type)

theorem ptowStages_need0_eq (accountStates : List AccountState) (accounts : List Account)
    (ts rmd inc : ℚ) (profile : Profile) (depl : DeplMap) (age : ℤ)
    (cfg : Option CountryConfig) (npti : Option ℚ) :
    (ptowStages accountStates accounts ts rmd inc profile depl age cfg npti).remainingNeed0 =
      max 0 (ts - inc) := rfl

theorem ptowStages_o1_eq (accountStates : List AccountState) (accounts : List Account)
    (ts rmd inc : ℚ) (profile : Profile) (depl : DeplMap) (age : ℤ)
    (cfg : Option CountryConfig) (npti : Option ℚ) :
    (ptowStages accountStates accounts ts rmd inc profile depl age cfg npti).o1 =
      rmdLoop (availTradPred accounts age profile cfg) age accountStates rmd
        (max 0 (ts - inc)) depl := rfl

theorem ptowStages_target_eq (accountStates : List AccountState) (accounts : List Account)
    (ts rmd inc : ℚ) (profile : Profile) (depl : DeplMap) (age : ℤ)
    (cfg : Option CountryConfig) (npti : Option ℚ) :
    (ptowStages accountStates accounts ts rmd inc profile depl age cfg
        npti).targetOrdinaryIncome =
      getStandardDeduction (profile.filingStatus.getD "single") +
        (if profile.filingStatus.getD "single" == "married_filing_jointly" then (94300 : ℚ)
         else 47150) := rfl

theorem ptowStages_addTrad_eq (accountStates : List AccountState) (accounts : List Account)
    (ts rmd inc : ℚ) (profile : Profile) (depl : DeplMap) (age : ℤ)
    (cfg : Option CountryConfig) (npti : Option ℚ) :
    (ptowStages accountStates accounts ts rmd inc profile depl age cfg
        npti).additionalTraditional =
      min (max 0
        ((ptowStages accountStates accounts ts rmd inc profile depl age cfg
            npti).targetOrdinaryIncome -
          (wTotal (ptowStages accountStates accounts ts rmd inc profile depl age cfg
              npti).o1.entries + npti.getD 0)))
        (ptowStages accountStates accounts ts rmd inc profile depl age cfg npti).o1.need :=
  rfl

theorem ptowStages_o2_eq (accountStates : List AccountState) (accounts : List Account)
    (ts rmd inc : ℚ) (profile : Profile) (depl : DeplMap) (age : ℤ)
    (cfg : Option CountryConfig) (npti : Option ℚ) :
    (ptowStages accountStates accounts ts rmd inc profile depl age cfg npti).o2 =
      withdrawLoop (availTradPred accounts age profile cfg) GainsMode.off age
        (ptowStages accountStates accounts ts rmd inc profile depl age cfg npti).o1.states
        (ptowStages accountStates accounts ts rmd inc profile depl age cfg
          npti).additionalTraditional
        (ptowStages accountStates accounts ts rmd inc profile depl age cfg npti).o1.depl :=
  rfl

theorem ptowStages_need2_eq (accountStates : List AccountState) (accounts : List Account)
    (ts rmd inc : ℚ) (profile : Profile) (depl : DeplMap) (age : ℤ)
    (cfg : Option CountryConfig) (npti : Option ℚ) :
    (ptowStages accountStates accounts ts rmd inc profile depl age cfg npti).need2 =
      (ptowStages accountStates accounts ts rmd inc profile depl age cfg npti).o1.need -
        wTotal (ptowStages accountStates accounts ts rmd inc profile depl age cfg
          npti).o2.entries := rfl

theorem ptowStages_o3_eq (accountStates : List AccountState) (accounts : List Account)
    (ts rmd inc : ℚ) (profile : Profile) (depl : DeplMap) (age : ℤ)
    (cfg : Option CountryConfig) (npti : Option ℚ) :
    (ptowStages accountStates accounts ts rmd inc profile depl age cfg npti).o3 =
      withdrawLoop (availRothPred accounts age profile cfg) GainsMode.off age
        (ptowStages accountStates accounts ts rmd inc profile depl age cfg npti).o2.states
        (ptowStages accountStates accounts ts rmd inc profile depl age cfg npti).need2
        (ptowStages accountStates accounts ts rmd inc profile depl age cfg npti).o2.depl :=
  rfl

theorem ptowStages_o4_eq (accountStates : List AccountState) (accounts : List Account)
    (ts rmd inc : ℚ) (profile : Profile) (depl : DeplMap) (age : ℤ)
    (cfg : Option CountryConfig) (npti : Option ℚ) :
    (ptowStages accountStates accounts ts rmd inc profile depl age cfg npti).o4 =
      withdrawLoop (availTaxablePred accounts age profile cfg) GainsMode.pre age
        (ptowStages accountStates accounts ts rmd inc profile depl age cfg npti).o3.states
        (ptowStages accountStates accounts ts rmd inc profile depl age cfg npti).o3.counter
        (ptowStages accountStates accounts ts rmd inc profile depl age cfg npti).o3.depl :=
  rfl

theorem ptowStages_o5_eq (accountStates : List AccountState) (accounts : List Account)
    (ts rmd inc : ℚ) (profile : Profile) (depl : DeplMap) (age : ℤ)
    (cfg : Option CountryConfig) (npti : Option ℚ) :
    (ptowStages accountStates accounts ts rmd inc profile depl age cfg npti).o5 =
      withdrawLoop (availHsaPred accounts age profile cfg) GainsMode.off age
        (ptowStages accountStates accounts ts rmd inc profile depl age cfg npti).o4.states
        (ptowStages accountStates accounts ts rmd inc profile depl age cfg npti).o4.counter
        (ptowStages accountStates accounts ts rmd inc profile depl age cfg npti).o4.depl :=
  rfl

theorem ptowStages_o6_eq (accountStates : List AccountState) (accounts : List Account)
    (ts rmd inc : ℚ) (profile : Profile) (depl : DeplMap) (age : ℤ)
    (cfg : Option CountryConfig) (npti : Option ℚ) :
    (ptowStages accountStates accounts ts rmd inc profile depl age cfg npti).o6 =
      (if (ptowStages accountStates accounts ts rmd inc profile depl age cfg
            npti).o5.counter > 0 then
        withdrawLoop (availTradPred accounts age profile cfg) GainsMode.off age
          (ptowStages accountStates accounts ts rmd inc profile depl age cfg npti).o5.states
          (ptowStages accountStates accounts ts rmd inc profile depl age cfg
            npti).o5.counter
          (ptowStages accountStates accounts ts rmd inc profile depl age cfg npti).o5.depl
      else
        ⟨(ptowStages accountStates accounts ts rmd inc profile depl age cfg npti).o5.states,
          (ptowStages accountStates accounts ts rmd inc profile depl age cfg
            npti).o5.counter,
          [],
          (ptowStages accountStates accounts ts rmd inc profile depl age cfg
            npti).o5.depl⟩) := rfl

theorem ptowStages_o7a_eq (accountStates : List AccountState) (accounts : List Account)
    (ts rmd inc : ℚ) (profile : Profile) (depl : DeplMap) (age : ℤ)
    (cfg : Option CountryConfig) (npti : Option ℚ) :
    (ptowStages accountStates accounts ts rmd inc profile depl age cfg npti).o7a =
      (if (ptowStages accountStates accounts ts rmd inc profile depl age cfg
            npti).o6.counter > 0 then
        withdrawLoop (unavailTradPred accounts age profile cfg) GainsMode.off age
          (ptowStages accountStates accounts ts rmd inc profile depl age cfg npti).o6.states
          (ptowStages accountStates accounts ts rmd inc profile depl age cfg
            npti).o6.counter
          (ptowStages accountStates accounts ts rmd inc profile depl age cfg npti).o6.depl
      else
        ⟨(ptowStages accountStates accounts ts rmd inc profile depl age cfg npti).o6.states,
          (ptowStages accountStates accounts ts rmd inc profile depl age cfg
            npti).o6.counter,
          [],
          (ptowStages accountStates accounts ts rmd inc profile depl age cfg
            npti).o6.depl⟩) := rfl

theorem ptowStages_o7b_eq (accountStates : List AccountState) (accounts : List Account)
    (ts rmd inc : ℚ) (profile : Profile) (depl : DeplMap) (age : ℤ)
    (cfg : Option CountryConfig) (npti : Option ℚ) :
    (ptowStages accountStates accounts ts rmd inc profile depl age cfg npti).o7b =
      (if (ptowStages accountStates accounts ts rmd inc profile depl age cfg
            npti).o6.counter > 0 then
        withdrawLoop (unavailOtherPred accounts age profile cfg) GainsMode.post age
          (ptowStages accountStates accounts ts rmd inc profile depl age cfg
            npti).o7a.states
          (ptowStages accountStates accounts ts rmd inc profile depl age cfg
            npti).o7a.counter
          (ptowStages accountStates accounts ts rmd inc profile depl age cfg npti).o7a.depl
      else
        ⟨(ptowStages accountStates accounts ts rmd inc profile depl age cfg
            npti).o7a.states,
          (ptowStages accountStates accounts ts rmd inc profile depl age cfg
            npti).o7a.counter,
          [],
          (ptowStages accountStates accounts ts rmd inc profile depl age cfg
            npti).o7a.depl⟩) := rfl

theorem ptow_states_eq (accountStates : List AccountState) (accounts : List Account)
    (ts rmd inc : ℚ) (profile : Profile) (depl : DeplMap) (age : ℤ)
    (cfg : Option CountryConfig) (npti : Option ℚ) :
    (performTaxOptimizedWithdrawal accountStates accounts ts rmd inc profile depl age cfg
        npti).2.1 =
      (ptowStages accountStates accounts ts rmd inc profile depl age cfg npti).o7b.states :=
  rfl

theorem ptow_total_eq (accountStates : List AccountState) (accounts : List Account)
    (ts rmd inc : ℚ) (profile : Profile) (depl : DeplMap) (age : ℤ)
    (cfg : Option CountryConfig) (npti : Option ℚ) :
    (performTaxOptimizedWithdrawal accountStates accounts ts rmd inc profile depl age cfg
        npti).1.total =
      wTotal (ptowEntries
        (ptowStages accountStates accounts ts rmd inc profile depl age cfg npti)) := rfl

/-! ### Generic lemmas about the year loop -/

theorem simLoop_length (accounts : List Account) (profile : Profile)
    (assumptions : Assumptions) (cfg : Option CountryConfig)
    (streams : Option (List IncomeStream)) (currentYear : ℤ) :
    ∀ (n : ℕ) (s : SimState),
      (simLoop accounts profile assumptions cfg streams currentYear n s).1.length = n
  | 0, s => rfl
  | n + 1, s => by
    simp only [simLoop, List.length_cons]
    rw [simLoop_length accounts profile assumptions cfg streams currentYear n]

theorem simLoop_final (accounts : List Account) (profile : Profile)
    (assumptions : Assumptions) (cfg : Option CountryConfig)
    (streams : Option (List IncomeStream)) (currentYear : ℤ) :
    ∀ (n : ℕ) (s : SimState),
      (simLoop accounts profile assumptions cfg streams currentYear n s).2 =
        (iterStep accounts profile assumptions cfg streams currentYear)^[n] s
  | 0, s => rfl
  | n + 1, s => by
    simp only [simLoop, Function.iterate_succ_apply]
    exact simLoop_final accounts profile assumptions cfg streams currentYear n _

theorem simLoop_getElem (accounts : List Account) (profile : Profile)
    (assumptions : Assumptions) (cfg : Option CountryConfig)
    (streams : Option (List IncomeStream)) (currentYear : ℤ) :
    ∀ (n : ℕ) (s : SimState) (k : ℕ), k < n →
      (simLoop accounts profile assumptions cfg streams currentYear n s).1[k]? =
        some (yearStep accounts profile assumptions cfg streams currentYear
          ((iterStep accounts profile assumptions cfg streams currentYear)^[k] s)).1
  | 0, s, k, hk => absurd hk (Nat.not_lt_zero k)
  | n + 1, s, 0, hk => by simp [simLoop]
  | n + 1, s, k + 1, hk => by
    simp only [simLoop, List.getElem?_cons_succ, Function.iterate_succ_apply]
    exact simLoop_getElem accounts profile assumptions cfg streams currentYear n _ k
      (Nat.lt_of_succ_lt_succ hk)

/-- Invariant lifting: an invariant `P` preserved by the year transition
forces `Q` on every emitted record, when every step's record satisfies `Q`
from `P`. -/
theorem simLoop_records (accounts : List Account) (profile : Profile)
    (assumptions : Assumptions) (cfg : Option CountryConfig)
    (streams : Option (List IncomeStream)) (currentYear : ℤ)
    (P : SimState → Prop) (Q : YearlyWithdrawal → Prop)
    (hstep : ∀ s, P s →
      P (iterStep accounts profile assumptions cfg streams currentYear s))
    (hrec : ∀ s, P s →
      Q (yearStep accounts profile assumptions cfg streams currentYear s).1) :
    ∀ (n : ℕ) (s : SimState), P s →
      ∀ r ∈ (simLoop accounts profile assumptions cfg streams currentYear n s).1, Q r
  | 0, s => by simp [simLoop]
  | n + 1, s => by
    intro hP r hr
    simp only [simLoop, List.mem_cons] at hr
    rcases hr with h | h
    · subst h
      exact hrec s hP
    · exact simLoop_records accounts profile assumptions cfg streams currentYear P Q hstep
        hrec n _ (hstep s hP) r h

/-- Every balance leaving the whole allocation cascade is non-negative when
every balance entering it is. -/
theorem ptow_nonneg (cs : List AccountState) (A : List Account) (ts rmd inc : ℚ)
    (prof : Profile) (depl : DeplMap) (age : ℤ) (cfg : Option CountryConfig)
    (npti : Option ℚ) (hb : ∀ s ∈ cs, 0 ≤ s.balance) :
    ∀ s' ∈ (performTaxOptimizedWithdrawal cs A ts rmd inc prof depl age cfg npti).2.1,
      0 ≤ s'.balance := by
  have h1 : ∀ s ∈ (ptowStages cs A ts rmd inc prof depl age cfg npti).o1.states,
      0 ≤ s.balance := by
    rw [ptowStages_o1_eq]
    exact rmdLoop_nonneg _ _ _ _ _ _ hb
  have h2 : ∀ s ∈ (ptowStages cs A ts rmd inc prof depl age cfg npti).o2.states,
      0 ≤ s.balance := by
    rw [ptowStages_o2_eq]
    exact withdrawLoop_nonneg _ _ _ _ _ _ h1
  have h3 : ∀ s ∈ (ptowStages cs A ts rmd inc prof depl age cfg npti).o3.states,
      0 ≤ s.balance := by
    rw [ptowStages_o3_eq]
    exact withdrawLoop_nonneg _ _ _ _ _ _ h2
  have h4 : ∀ s ∈ (ptowStages cs A ts rmd inc prof depl age cfg npti).o4.states,
      0 ≤ s.balance := by
    rw [ptowStages_o4_eq]
    exact withdrawLoop_nonneg _ _ _ _ _ _ h3
  have h5 : ∀ s ∈ (ptowStages cs A ts rmd inc prof depl age cfg npti).o5.states,
      0 ≤ s.balance := by
    rw [ptowStages_o5_eq]
    exact withdrawLoop_nonneg _ _ _ _ _ _ h4
  have h6 : ∀ s ∈ (ptowStages cs A ts rmd inc prof depl age cfg npti).o6.states,
      0 ≤ s.balance := by
    rw [ptowStages_o6_eq]
    by_cases h : (ptowStages cs A ts rmd inc prof depl age cfg npti).o5.counter > 0
    · rw [if_pos h]
      exact withdrawLoop_nonneg _ _ _ _ _ _ h5
    · rw [if_neg h]
      exact h5
  have h7a : ∀ s ∈ (ptowStages cs A ts rmd inc prof depl age cfg npti).o7a.states,
      0 ≤ s.balance := by
    rw [ptowStages_o7a_eq]
    by_cases h : (ptowStages cs A ts rmd inc prof depl age cfg npti).o6.counter > 0
    · rw [if_pos h]
      exact withdrawLoop_nonneg _ _ _ _ _ _ h6
    · rw [if_neg h]
      exact h6
  have h7b : ∀ s ∈ (ptowStages cs A ts rmd inc prof depl age cfg npti).o7b.states,
      0 ≤ s.balance := by
    rw [ptowStages_o7b_eq]
    by_cases h : (ptowStages cs A ts rmd inc prof depl age cfg npti).o6.counter > 0
    · rw [if_pos h]
      exact withdrawLoop_nonneg _ _ _ _ _ _ h7a
    · rw [if_neg h]
      exact h7a
  rw [ptow_states_eq]
  exact h7b

/-- A JS-object write preserves a property of all stored values. -/
theorem objSet_forall (P : ℚ → Prop) (o : List (String × ℚ)) (k : String) (v : ℚ)
    (ho : ∀ kv ∈ o, P kv.2) (hv : P v) : ∀ kv ∈ objSet o k v, P kv.2 := by
  intro kv hkv
  unfold objSet at hkv
  by_cases h : o.any (fun p => p.1 == k)
  · rw [if_pos h] at hkv
    rcases List.mem_map.mp hkv with ⟨p, hp, rfl⟩
    by_cases hpk : p.1 == k
    · rw [if_pos hpk]
      exact hv
    · rw [if_neg hpk]
      exact ho p hp
  · rw [if_neg h] at hkv
    rcases List.mem_append.mp hkv with h1 | h1
    · exact ho _ h1
    · simp only [List.mem_singleton] at h1
      subst h1
      exact hv

/-- Folding balance writes into a JS object preserves a value property. -/
theorem foldl_objSet_balance (P : ℚ → Prop) :
    ∀ (states : List AccountState) (o : List (String × ℚ)),
      (∀ kv ∈ o, P kv.2) → (∀ s ∈ states, P s.balance) →
      ∀ kv ∈ states.foldl (fun o a => objSet o a.id a.balance) o, P kv.2
  | [], o => fun ho _ => ho
  | a :: rest, o => by
    intro ho hs
    simp only [List.foldl_cons]
    exact foldl_objSet_balance P rest (objSet o a.id a.balance)
      (objSet_forall P o a.id a.balance ho (hs a (by simp)))
      (fun s h => hs s (by simp [h]))

/-- A JS-object read of a map whose values all satisfy `P` (with `P 0` for
the missing-key default). -/
theorem objGet_nonneg (o : List (String × ℚ)) (k : String)
    (ho : ∀ kv ∈ o, 0 ≤ kv.2) : 0 ≤ objGet o k := by
  unfold objGet
  cases hf : o.find? (fun p => p.1 == k) with
  | none => simp
  | some p =>
    simp only [Option.map_some', Option.getD_some]
    exact ho p (List.mem_of_find?_eq_some hf)

/-- The cascade of a simulated year, unfolded to its
`performTaxOptimizedWithdrawal` call. -/
theorem yearCascade_eq (accounts : List Account) (profile : Profile)
    (assumptions : Assumptions) (cfg : Option CountryConfig)
    (streams : Option (List IncomeStream)) (currentYear : ℤ) (s : SimState) :
    yearCascade accounts profile assumptions cfg streams currentYear s =
      performTaxOptimizedWithdrawal s.accountStates accounts s.targetSpending
        (yearCtx profile assumptions cfg streams currentYear s).rmdAmount
        (yearCtx profile assumptions cfg streams currentYear s).totalRetirementIncome
        profile s.accountDepletionAges
        (yearCtx profile assumptions cfg streams currentYear s).age cfg
        (some (yearCtx profile assumptions cfg streams currentYear
          s).nonPortfolioTaxableIncome) := rfl

/-- The next year's account states are the cascade's output states with the
retirement-phase growth applied. -/
theorem yearStep_next_states (accounts : List Account) (profile : Profile)
    (assumptions : Assumptions) (cfg : Option CountryConfig)
    (streams : Option (List IncomeStream)) (currentYear : ℤ) (s : SimState) :
    (yearStep accounts profile assumptions cfg streams currentYear s).2.accountStates =
      ((yearCascade accounts profile assumptions cfg streams currentYear s).2.1).map
        (fun a => { a with balance := a.balance * (1 + assumptions.retirementReturnRate) }) :=
  rfl

/-- The emitted record's remaining-balance map is built from the grown
post-withdrawal states. -/
theorem yearStep_remainingBalances (accounts : List Account) (profile : Profile)
    (assumptions : Assumptions) (cfg : Option CountryConfig)
    (streams : Option (List IncomeStream)) (currentYear : ℤ) (s : SimState) :
    (yearStep accounts profile assumptions cfg streams currentYear s).1.remainingBalances =
      (((yearCascade accounts profile assumptions cfg streams currentYear s).2.1).map
        (fun a =>
          { a with balance := a.balance * (1 + assumptions.retirementReturnRate) })).foldl
        (fun o a => objSet o a.id a.balance) [] := rfl

/-- The records of `calculateWithdrawals` are the year loop's records. -/
theorem calculateWithdrawals_records (accounts : List Account) (profile : Profile)
    (assumptions : Assumptions) (accum : AccumulationResult)
    (cfg : Option CountryConfig) (streams : Option (List IncomeStream))
    (currentYear : ℤ) :
    (calculateWithdrawals accounts profile assumptions accum cfg streams
        currentYear).yearlyWithdrawals =
      (simLoop accounts profile assumptions cfg streams currentYear (numSimYears profile)
        (simInit accounts assumptions accum)).1 := rfl

/-- Claim C1: for every simulation call whose accumulation final balances
are all non-negative and whose retirement return rate is ≥ −1, every
per-account entry of the `remainingBalances` map of every emitted
`YearlyWithdrawal` record is non-negative — withdrawals are clamped to the
available balance at the moment of withdrawal, so no balance ever goes
negative. -/
theorem claim_C1_remaining_balances_nonneg
    (accounts : List Account) (profile : Profile) (assumptions : Assumptions)
    (accum : AccumulationResult) (cfg : Option CountryConfig)
    (streams : Option (List IncomeStream)) (currentYear : ℤ)
    (hbal : ∀ kv ∈ accum.finalBalances, 0 ≤ kv.2)
    (hr : -1 ≤ assumptions.retirementReturnRate) :
    ∀ r ∈ (calculateWithdrawals accounts profile assumptions accum cfg streams
        currentYear).yearlyWithdrawals,
      ∀ kv ∈ r.remainingBalances, 0 ≤ kv.2 := by
  have h1r : (0 : ℚ) ≤ 1 + assumptions.retirementReturnRate := by linarith
  have hinit : ∀ s ∈ (simInit accounts assumptions accum).accountStates, 0 ≤ s.balance := by
    intro s hs
    simp only [simInit, initialAccountStates, List.mem_map] at hs
    rcases hs with ⟨a, _, rfl⟩
    exact objGet_nonneg _ _ hbal
  have hcascade : ∀ s : SimState, (∀ st ∈ s.accountStates, 0 ≤ st.balance) →
      ∀ a ∈ (yearCascade accounts profile assumptions cfg streams currentYear s).2.1,
        0 ≤ a.balance := by
    intro s hP a ha
    rw [yearCascade_eq] at ha
    exact ptow_nonneg _ _ _ _ _ _ _ _ _ _ hP a ha
  have hstep : ∀ s : SimState, (∀ st ∈ s.accountStates, 0 ≤ st.balance) →
      ∀ st ∈ (iterStep accounts profile assumptions cfg streams currentYear
        s).accountStates, 0 ≤ st.balance := by
    intro s hP st hst
    have hgrow := yearStep_next_states accounts profile assumptions cfg streams currentYear s
    rw [show (iterStep accounts profile assumptions cfg streams currentYear
        s).accountStates =
      (yearStep accounts profile assumptions cfg streams currentYear s).2.accountStates
      from rfl, hgrow] at hst
    rcases List.mem_map.mp hst with ⟨a, ha, rfl⟩
    exact mul_nonneg (hcascade s hP a ha) h1r
  have hrec : ∀ s : SimState, (∀ st ∈ s.accountStates, 0 ≤ st.balance) →
      ∀ kv ∈ (yearStep accounts profile assumptions cfg streams currentYear
        s).1.remainingBalances, 0 ≤ kv.2 := by
    intro s hP
    rw [yearStep_remainingBalances]
    refine foldl_objSet_balance _ _ [] (by simp) ?_
    intro st hst
    rcases List.mem_map.mp hst with ⟨a, ha, rfl⟩
    exact mul_nonneg (hcascade s hP a ha) h1r
  intro r hr' kv hkv
  rw [calculateWithdrawals_records] at hr'
  exact simLoop_records accounts profile assumptions cfg streams currentYear
    (fun s => ∀ st ∈ s.accountStates, 0 ≤ st.balance)
    (fun rec => ∀ kv ∈ rec.remainingBalances, 0 ≤ kv.2)
    hstep hrec (numSimYears profile) _ hinit r hr' kv hkv

/-- Witness for claim C1 at a concrete input. -/
theorem claim_C1_witness :
    (∀ kv ∈ fxAccum500.finalBalances, 0 ≤ kv.2) ∧
    ((-1 : ℚ) ≤ fxAsmp0.retirementReturnRate) ∧
    ∀ r ∈ (calculateWithdrawals [fxAcctTrad] fxProfMFJ fxAsmp0 fxAccum500 (some USConfig)
        none 2025).yearlyWithdrawals,
      ∀ kv ∈ r.remainingBalances, 0 ≤ kv.2 :=
  ⟨by decide, by decide,
    claim_C1_remaining_balances_nonneg [fxAcctTrad] fxProfMFJ fxAsmp0 fxAccum500
      (some USConfig) none 2025 (by decide) (by decide)⟩

/-- The target spending entering year `k` is the initial target times the
inflation factor `k` times. -/
theorem simState_targetSpending (accounts : List Account) (profile : Profile)
    (assumptions : Assumptions) (cfg : Option CountryConfig)
    (streams : Option (List IncomeStream)) (currentYear : ℤ) :
    ∀ (k : ℕ) (s : SimState),
      ((iterStep accounts profile assumptions cfg streams currentYear)^[k]
        s).targetSpending =
        s.targetSpending * (1 + assumptions.inflationRate) ^ k
  | 0, s => by simp
  | k + 1, s => by
    rw [Function.iterate_succ_apply']
    rw [show (iterStep accounts profile assumptions cfg streams currentYear
        ((iterStep accounts profile assumptions cfg streams currentYear)^[k]
          s)).targetSpending =
      ((iterStep accounts profile assumptions cfg streams currentYear)^[k]
        s).targetSpending * (1 + assumptions.inflationRate) from rfl]
    rw [simState_targetSpending accounts profile assumptions cfg streams currentYear k s]
    ring

/-- The emitted record's target spending is the loop state's target
spending (recorded before the inflation update). -/
theorem yearStep_targetSpending (accounts : List Account) (profile : Profile)
    (assumptions : Assumptions) (cfg : Option CountryConfig)
    (streams : Option (List IncomeStream)) (currentYear : ℤ) (s : SimState) :
    (yearStep accounts profile assumptions cfg streams currentYear s).1.targetSpending =
      s.targetSpending := rfl

/-- Claim C9: in every simulation, consecutive emitted years' target
spendings differ by the factor (1 + inflationRate); the k-th record's
target spending is `totalAtRetirement × safeWithdrawalRate` inflated k
times, so the first record's equals `totalAtRetirement ×
safeWithdrawalRate`, which is also the returned
`sustainableAnnualWithdrawal`, and `sustainableMonthlyWithdrawal` is that
amount divided by 12. -/
theorem claim_C9_target_spending (accounts : List Account) (profile : Profile)
    (assumptions : Assumptions) (accum : AccumulationResult)
    (cfg : Option CountryConfig) (streams : Option (List IncomeStream))
    (currentYear : ℤ) :
    ((calculateWithdrawals accounts profile assumptions accum cfg streams
        currentYear).sustainableAnnualWithdrawal =
      accum.totalAtRetirement * assumptions.safeWithdrawalRate) ∧
    ((calculateWithdrawals accounts profile assumptions accum cfg streams
        currentYear).sustainableMonthlyWithdrawal =
      accum.totalAtRetirement * assumptions.safeWithdrawalRate / 12) ∧
    (∀ (k : ℕ) (r : YearlyWithdrawal),
      (calculateWithdrawals accounts profile assumptions accum cfg streams
        currentYear).yearlyWithdrawals[k]? = some r →
      r.targetSpending = accum.totalAtRetirement * assumptions.safeWithdrawalRate *
        (1 + assumptions.inflationRate) ^ k) ∧
    (∀ (k : ℕ) (r r' : YearlyWithdrawal),
      (calculateWithdrawals accounts profile assumptions accum cfg streams
        currentYear).yearlyWithdrawals[k]? = some r →
      (calculateWithdrawals accounts profile assumptions accum cfg streams
        currentYear).yearlyWithdrawals[k + 1]? = some r' →
      r'.targetSpending = r.targetSpending * (1 + assumptions.inflationRate)) := by
  have hb : ∀ (k : ℕ) (r : YearlyWithdrawal),
      (calculateWithdrawals accounts profile assumptions accum cfg streams
        currentYear).yearlyWithdrawals[k]? = some r →
      r.targetSpending = accum.totalAtRetirement * assumptions.safeWithdrawalRate *
        (1 + assumptions.inflationRate) ^ k := by
    intro k r hk
    rw [calculateWithdrawals_records] at hk
    have hlen : k < numSimYears profile := by
      by_contra h
      rw [List.getElem?_eq_none
        (by rw [simLoop_length]; omega)] at hk
      exact Option.noConfusion hk
    rw [simLoop_getElem accounts profile assumptions cfg streams currentYear
      (numSimYears profile) _ k hlen] at hk
    have hr := (Option.some.injEq _ _).mp hk.symm
    subst hr
    rw [yearStep_targetSpending,
      simState_targetSpending accounts profile assumptions cfg streams currentYear k]
    rw [show (simInit accounts assumptions accum).targetSpending =
      accum.totalAtRetirement * assumptions.safeWithdrawalRate from rfl]
  refine ⟨rfl, rfl, hb, ?_⟩
  intro k r r' hk hk'
  rw [hb k r hk, hb (k + 1) r' hk']
  ring

/-- A list indexes to its `getD` value below its length. -/
theorem getElem?_eq_some_getD {α : Type} (l : List α) (k : ℕ) (d : α)
    (h : k < l.length) : l[k]? = some (l.getD k d) := by
  rw [List.getD_eq_getElem l d h, List.getElem?_eq_getElem h]

/-- Witness for claim C9 at a concrete input: a two-year simulation whose
consecutive records' target spendings differ by the inflation factor. -/
theorem claim_C9_witness :
    ((calculateWithdrawals [fxAcctTrad] fxProfMFJ fxAsmpInfl fxAccumM (some USConfig) none
        2025).yearlyWithdrawals[0]? =
      some ((calculateWithdrawals [fxAcctTrad] fxProfMFJ fxAsmpInfl fxAccumM (some USConfig)
        none 2025).yearlyWithdrawals.getD 0 fxDummyRecord)) ∧
    ((calculateWithdrawals [fxAcctTrad] fxProfMFJ fxAsmpInfl fxAccumM (some USConfig) none
        2025).yearlyWithdrawals[0 + 1]? =
      some ((calculateWithdrawals [fxAcctTrad] fxProfMFJ fxAsmpInfl fxAccumM (some USConfig)
        none 2025).yearlyWithdrawals.getD 1 fxDummyRecord)) ∧
    (((calculateWithdrawals [fxAcctTrad] fxProfMFJ fxAsmpInfl fxAccumM (some USConfig) none
        2025).yearlyWithdrawals.getD 1 fxDummyRecord).targetSpending =
      ((calculateWithdrawals [fxAcctTrad] fxProfMFJ fxAsmpInfl fxAccumM (some USConfig) none
        2025).yearlyWithdrawals.getD 0 fxDummyRecord).targetSpending *
        (1 + fxAsmpInfl.inflationRate)) := by
  have hlen : (calculateWithdrawals [fxAcctTrad] fxProfMFJ fxAsmpInfl fxAccumM
      (some USConfig) none 2025).yearlyWithdrawals.length = 2 := by
    rw [calculateWithdrawals_records, simLoop_length]
    decide
  have h0 := getElem?_eq_some_getD
    (calculateWithdrawals [fxAcctTrad] fxProfMFJ fxAsmpInfl fxAccumM (some USConfig) none
      2025).yearlyWithdrawals 0 fxDummyRecord (by omega)
  have h1 := getElem?_eq_some_getD
    (calculateWithdrawals [fxAcctTrad] fxProfMFJ fxAsmpInfl fxAccumM (some USConfig) none
      2025).yearlyWithdrawals 1 fxDummyRecord (by omega)
  exact ⟨h0, h1,
    (claim_C9_target_spending [fxAcctTrad] fxProfMFJ fxAsmpInfl fxAccumM (some USConfig)
      none 2025).2.2.2 0 _ _ h0 h1⟩

/-- Counterexample to claim C4: under the Canadian policy the bracket-fill
income target is still the US standard deduction plus the US 12%-bracket
ceiling (14600 + 47150 = 61750); a Canadian computation would use the
Canadian basic personal amount plus the second-lowest Canadian bracket's
ceiling (15705 + 106717 = 122422), and 61750 is even below the basic
personal amount plus the FIRST Canadian bracket's ceiling. -/
theorem claim_C4_counterexample :
    (ptowStages [fxStFhsa] [fxAcctFhsa] 50000 0 0 fxProfCA fxDeplFhsa 65 (some CAConfig)
        (some 0)).targetOrdinaryIncome = 61750 ∧
    (CA_FEDERAL_BRACKETS.map TaxBracket.max).getD 1 none = some 106717 ∧
    CA_BASIC_PERSONAL + 106717 = (122422 : ℚ) ∧
    (61750 : ℚ) < CA_BASIC_PERSONAL + 53359 := by
  refine ⟨?_, rfl, by norm_num [CA_BASIC_PERSONAL], by norm_num [CA_BASIC_PERSONAL]⟩
  rw [ptowStages_target_eq]
  norm_num [getStandardDeduction, STANDARD_DEDUCTION_SINGLE, fxProfCA,
    show (("single" : String) == "married_filing_jointly") = false from by decide]

/-- Claim C4, amended: the bracket-fill target of allocation step 2 is
always the US standard deduction for the profile's filing status plus the
US 12%-bracket ceiling (94300 joint, 47150 otherwise), for EVERY country
policy; the remaining room subtracts the step-1 withdrawals and the
non-portfolio taxable income (floored at 0); step 2 withdraws the smaller
of that room and the remaining need, drawing exactly the smaller of its
counter and the available traditional balance, each entry capped at the
account's balance. -/
theorem claim_C4_bracket_fill_amended (cs : List AccountState) (A : List Account)
    (ts rmd inc : ℚ) (profile : Profile) (d : DeplMap) (age : ℤ)
    (cfg : Option CountryConfig) (npti : Option ℚ)
    (hb : ∀ s ∈ cs, 0 ≤ s.balance) :
    (ptowStages cs A ts rmd inc profile d age cfg npti).targetOrdinaryIncome =
      getStandardDeduction (profile.filingStatus.getD "single") +
        (if profile.filingStatus.getD "single" == "married_filing_jointly" then (94300 : ℚ)
         else 47150) ∧
    (ptowStages cs A ts rmd inc profile d age cfg npti).roomIn12Bracket =
      max 0 ((ptowStages cs A ts rmd inc profile d age cfg npti).targetOrdinaryIncome -
        (wTotal (ptowStages cs A ts rmd inc profile d age cfg npti).o1.entries +
          npti.getD 0)) ∧
    (ptowStages cs A ts rmd inc profile d age cfg npti).additionalTraditional =
      min (ptowStages cs A ts rmd inc profile d age cfg npti).roomIn12Bracket
        (ptowStages cs A ts rmd inc profile d age cfg npti).o1.need ∧
    wTotal (ptowStages cs A ts rmd inc profile d age cfg npti).o2.entries =
      min (ptowStages cs A ts rmd inc profile d age cfg npti).additionalTraditional
        (partSum (availTradPred A age profile cfg)
          (ptowStages cs A ts rmd inc profile d age cfg npti).o1.states) ∧
    ∀ e ∈ (ptowStages cs A ts rmd inc profile d age cfg npti).o2.entries,
      0 ≤ e.amount ∧ e.amount ≤ e.preBal := by
  have hb1 : ∀ s ∈ (ptowStages cs A ts rmd inc profile d age cfg npti).o1.states,
      0 ≤ s.balance := by
    rw [ptowStages_o1_eq]
    exact rmdLoop_nonneg _ _ _ _ _ _ hb
  have hneed : 0 ≤ (ptowStages cs A ts rmd inc profile d age cfg npti).o1.need := by
    rw [ptowStages_o1_eq, rmdLoop_need_eq _ _ _ _ _ _ hb (le_max_left _ _)]
    exact le_max_left _ _
  have haddnn :
      0 ≤ (ptowStages cs A ts rmd inc profile d age cfg npti).additionalTraditional := by
    rw [ptowStages_addTrad_eq]
    exact le_min (le_max_left _ _) hneed
  refine ⟨ptowStages_target_eq cs A ts rmd inc profile d age cfg npti, rfl, rfl, ?_, ?_⟩
  · rw [ptowStages_o2_eq]
    exact withdrawLoop_total_min _ _ _ _ _ _ hb1 haddnn
  · rw [ptowStages_o2_eq]
    intro e he
    have h := withdrawLoop_entries_spec _ _ _ _ _ _ hb1 e he
    exact ⟨h.1, h.2.1⟩

/-- Witness for the amended claim C4 at a concrete input. -/
theorem claim_C4_witness :
    (∀ s ∈ [fxStTrad], 0 ≤ s.balance) ∧
    ((ptowStages [fxStTrad] [fxAcctTrad] 20000 0 0 fxProfMFJ fxDeplTrad 65 (some USConfig)
        (some 0)).targetOrdinaryIncome =
      getStandardDeduction (fxProfMFJ.filingStatus.getD "single") +
        (if fxProfMFJ.filingStatus.getD "single" == "married_filing_jointly" then (94300 : ℚ)
         else 47150) ∧
    (ptowStages [fxStTrad] [fxAcctTrad] 20000 0 0 fxProfMFJ fxDeplTrad 65 (some USConfig)
        (some 0)).roomIn12Bracket =
      max 0 ((ptowStages [fxStTrad] [fxAcctTrad] 20000 0 0 fxProfMFJ fxDeplTrad 65
          (some USConfig) (some 0)).targetOrdinaryIncome -
        (wTotal (ptowStages [fxStTrad] [fxAcctTrad] 20000 0 0 fxProfMFJ fxDeplTrad 65
          (some USConfig) (some 0)).o1.entries + (some (0 : ℚ)).getD 0)) ∧
    (ptowStages [fxStTrad] [fxAcctTrad] 20000 0 0 fxProfMFJ fxDeplTrad 65 (some USConfig)
        (some 0)).additionalTraditional =
      min (ptowStages [fxStTrad] [fxAcctTrad] 20000 0 0 fxProfMFJ fxDeplTrad 65
          (some USConfig) (some 0)).roomIn12Bracket
        (ptowStages [fxStTrad] [fxAcctTrad] 20000 0 0 fxProfMFJ fxDeplTrad 65
          (some USConfig) (some 0)).o1.need ∧
    wTotal (ptowStages [fxStTrad] [fxAcctTrad] 20000 0 0 fxProfMFJ fxDeplTrad 65
        (some USConfig) (some 0)).o2.entries =
      min (ptowStages [fxStTrad] [fxAcctTrad] 20000 0 0 fxProfMFJ fxDeplTrad 65
          (some USConfig) (some 0)).additionalTraditional
        (partSum (availTradPred [fxAcctTrad] 65 fxProfMFJ (some USConfig))
          (ptowStages [fxStTrad] [fxAcctTrad] 20000 0 0 fxProfMFJ fxDeplTrad 65
            (some USConfig) (some 0)).o1.states) ∧
    ∀ e ∈ (ptowStages [fxStTrad] [fxAcctTrad] 20000 0 0 fxProfMFJ fxDeplTrad 65
        (some USConfig) (some 0)).o2.entries,
      0 ≤ e.amount ∧ e.amount ≤ e.preBal) :=
  ⟨by decide, claim_C4_bracket_fill_amended [fxStTrad] [fxAcctTrad] 20000 0 0 fxProfMFJ
    fxDeplTrad 65 (some USConfig) (some 0) (by decide)⟩

/-- `fhsa` maps to pretax treatment. -/
theorem fhsa_pretax : getTaxTreatment "fhsa" = TaxTreatment.pretax := rfl

/-- The CA policy does not classify `fhsa` as a traditional account. -/
theorem fhsa_not_ca_trad : effIsTraditional (some CAConfig) "fhsa" = false := by
  simp [effIsTraditional, CAConfig,
    show (("fhsa" : String) == "rrsp") = false from by decide,
    show (("fhsa" : String) == "rrif") = false from by decide,
    show (("fhsa" : String) == "lira") = false from by decide,
    show (("fhsa" : String) == "lif") = false from by decide,
    show (("fhsa" : String) == "employer_rrsp") = false from by decide]

/-- The FHSA account resolves to the retirement age under the CA policy. -/
theorem fhsa_resolve_age : resolveWithdrawalAge 65 (some CAConfig) fxAcctFhsa = 65 := by
  norm_num [resolveWithdrawalAge, fxAcctFhsa, getDefaultWithdrawalAge, CAConfig,
    show (("fhsa" : String) == "rrsp") = false from by decide,
    show (("fhsa" : String) == "rrif") = false from by decide,
    show (("fhsa" : String) == "lira") = false from by decide,
    show (("fhsa" : String) == "lif") = false from by decide,
    show (("fhsa" : String) == "employer_rrsp") = false from by decide]

/-- Concrete run of the allocation cascade for the CA FHSA scenario: the
cascade withdraws nothing and leaves the states and depletion map
untouched. -/
theorem fxC3_ptow :
    performTaxOptimizedWithdrawal [fxStFhsa] [fxAcctFhsa]
      50000 0 0 fxProfCA fxDeplFhsa 65 (some CAConfig) (some 0) =
    (fxC3W, [fxStFhsa], fxDeplFhsa) := by
  have hP1 : availTradPred [fxAcctFhsa] 65 fxProfCA (some CAConfig) fxStFhsa = false := by
    simp [availTradPred, fxStFhsa, fhsa_not_ca_trad]
  have hP2 : availRothPred [fxAcctFhsa] 65 fxProfCA (some CAConfig) fxStFhsa = false := by
    simp [availRothPred, fxStFhsa, fhsa_pretax,
      show (TaxTreatment.pretax == TaxTreatment.roth) = false from by decide]
  have hP3 : availTaxablePred [fxAcctFhsa] 65 fxProfCA (some CAConfig) fxStFhsa = false := by
    simp [availTaxablePred, fxStFhsa, fhsa_pretax,
      show (TaxTreatment.pretax == TaxTreatment.taxable) = false from by decide]
  have hP4 : availHsaPred [fxAcctFhsa] 65 fxProfCA (some CAConfig) fxStFhsa = false := by
    simp [availHsaPred, fxStFhsa, fhsa_pretax,
      show (TaxTreatment.pretax == TaxTreatment.hsa) = false from by decide]
  have hFind : List.find? (fun a => a.id == fxStFhsa.id) [fxAcctFhsa] = some fxAcctFhsa := by
    norm_num [List.find?, fxAcctFhsa, fxStFhsa]
  have hU : isUnavailableWithBalance [fxAcctFhsa] 65 65 (some CAConfig) fxStFhsa = false := by
    norm_num [isUnavailableWithBalance, hFind, fhsa_resolve_age]
  have hP5 : unavailTradPred [fxAcctFhsa] 65 fxProfCA (some CAConfig) fxStFhsa = false := by
    simp [unavailTradPred, fxProfCA, hU]
  have hP6 : unavailOtherPred [fxAcctFhsa] 65 fxProfCA (some CAConfig) fxStFhsa = false := by
    simp [unavailOtherPred, fxProfCA, hU]
  have h1 : (ptowStages [fxStFhsa] [fxAcctFhsa] 50000 0 0 fxProfCA fxDeplFhsa 65
      (some CAConfig) (some 0)).o1 = ⟨[fxStFhsa], 0, 50000, [], fxDeplFhsa⟩ := by
    rw [ptowStages_o1_eq]
    norm_num [rmdLoop, hP1]
  have hAdd : (ptowStages [fxStFhsa] [fxAcctFhsa] 50000 0 0 fxProfCA fxDeplFhsa 65
      (some CAConfig) (some 0)).additionalTraditional = 50000 := by
    rw [ptowStages_addTrad_eq, ptowStages_target_eq, h1]
    norm_num [getStandardDeduction, STANDARD_DEDUCTION_SINGLE, fxProfCA, wTotal,
      show (("single" : String) == "married_filing_jointly") = false from by decide]
  have h2 : (ptowStages [fxStFhsa] [fxAcctFhsa] 50000 0 0 fxProfCA fxDeplFhsa 65
      (some CAConfig) (some 0)).o2 = ⟨[fxStFhsa], 50000, [], fxDeplFhsa⟩ := by
    rw [ptowStages_o2_eq, h1, hAdd]
    norm_num [withdrawLoop, hP1]
  have hN2 : (ptowStages [fxStFhsa] [fxAcctFhsa] 50000 0 0 fxProfCA fxDeplFhsa 65
      (some CAConfig) (some 0)).need2 = 50000 := by
    rw [ptowStages_need2_eq, h1, h2]
    norm_num [wTotal]
  have h3 : (ptowStages [fxStFhsa] [fxAcctFhsa] 50000 0 0 fxProfCA fxDeplFhsa 65
      (some CAConfig) (some 0)).o3 = ⟨[fxStFhsa], 50000, [], fxDeplFhsa⟩ := by
    rw [ptowStages_o3_eq, h2, hN2]
    norm_num [withdrawLoop, hP2]
  have h4 : (ptowStages [fxStFhsa] [fxAcctFhsa] 50000 0 0 fxProfCA fxDeplFhsa 65
      (some CAConfig) (some 0)).o4 = ⟨[fxStFhsa], 50000, [], fxDeplFhsa⟩ := by
    rw [ptowStages_o4_eq, h3]
    norm_num [withdrawLoop, hP3]
  have h5 : (ptowStages [fxStFhsa] [fxAcctFhsa] 50000 0 0 fxProfCA fxDeplFhsa 65
      (some CAConfig) (some 0)).o5 = ⟨[fxStFhsa], 50000, [], fxDeplFhsa⟩ := by
    rw [ptowStages_o5_eq, h4]
    norm_num [withdrawLoop, hP4]
  have h6 : (ptowStages [fxStFhsa] [fxAcctFhsa] 50000 0 0 fxProfCA fxDeplFhsa 65
      (some CAConfig) (some 0)).o6 = ⟨[fxStFhsa], 50000, [], fxDeplFhsa⟩ := by
    rw [ptowStages_o6_eq, h5]
    norm_num [withdrawLoop, hP1]
  have h7a : (ptowStages [fxStFhsa] [fxAcctFhsa] 50000 0 0 fxProfCA fxDeplFhsa 65
      (some CAConfig) (some 0)).o7a = ⟨[fxStFhsa], 50000, [], fxDeplFhsa⟩ := by
    rw [ptowStages_o7a_eq, h6]
    norm_num [withdrawLoop, hP5]
  have h7b : (ptowStages [fxStFhsa] [fxAcctFhsa] 50000 0 0 fxProfCA fxDeplFhsa 65
      (some CAConfig) (some 0)).o7b = ⟨[fxStFhsa], 50000, [], fxDeplFhsa⟩ := by
    rw [ptowStages_o7b_eq, h6, h7a]
    norm_num [withdrawLoop, hP6]
  simp only [performTaxOptimizedWithdrawal, ptowEntries, h1, h2, h3, h4, h5, h6, h7a, h7b]
  norm_num [wTotal, wGains, objSet, objAdd, fxStFhsa, fxDeplFhsa, fxC3W,
    show (("fhsa1" : String) == "fhsa1") = true from by decide]

/-- CA federal income tax vanishes at zero income. -/
theorem ca_fed_tax_zero : caCalculateFederalIncomeTax 0 = 0 := by
  norm_num [caCalculateFederalIncomeTax, CA_BASIC_PERSONAL, bracketTax, CA_FEDERAL_BRACKETS]

/-- CA provincial income tax vanishes at zero income. -/
theorem ca_prov_tax_zero : caCalculateProvincialIncomeTax 0 "ON" = 0 := by
  norm_num [caCalculateProvincialIncomeTax, CA_ON_BASIC_PERSONAL, bracketTax, CA_ON_BRACKETS]

/-- CA total tax vanishes at zero income and zero gains. -/
theorem ca_total_tax_zero : caCalculateTotalTax 0 0 "ON" = 0 := by
  norm_num [caCalculateTotalTax, CA_CAPITAL_GAINS_THRESHOLD, CA_INCLUSION_RATE_DEFAULT,
    CA_INCLUSION_RATE_HIGH, ca_fed_tax_zero, ca_prov_tax_zero]

/-- One-year run of the simulator for the CA FHSA scenario: the emitted
record shows no withdrawal against a $50k target while the account keeps
its full $100k balance. -/
theorem fxC3_run :
    (calculateWithdrawals [fxAcctFhsa] fxProfCA fxAsmpC3 fxAccumFhsa (some CAConfig) none
      2025).yearlyWithdrawals = [fxC3Rec] := by
  have hinit : simInit [fxAcctFhsa] fxAsmpC3 fxAccumFhsa =
      ⟨0, [fxStFhsa], 50000, 0, none, fxDeplFhsa⟩ := by
    norm_num [simInit, initialAccountStates, deplInit, objGet, List.find?, fxAcctFhsa,
      fxAccumFhsa, fxAsmpC3, fxStFhsa, fxDeplFhsa, fhsa_pretax,
      show (("fhsa1" : String) == "fhsa1") = true from by decide,
      show ¬(TaxTreatment.pretax = TaxTreatment.taxable) from by decide]
  have hctx : yearCtx fxProfCA fxAsmpC3 (some CAConfig) none 2025
      ⟨0, [fxStFhsa], 50000, 0, none, fxDeplFhsa⟩ =
      ⟨65, 2025, 100000, none, 1, 0, 0, 0, 0, 0, 0, 0⟩ := by
    norm_num [yearCtx, sumBalances, fxProfCA, fxAsmpC3, fxStFhsa,
      calculateIncomeStreamBenefits, fhsa_not_ca_trad, calculateRMD,
      show CAConfig.calculateRetirementBenefits = calculateCanadianRetirementBenefits
        from rfl,
      calculateCanadianRetirementBenefits]
  have hcas : yearCascade [fxAcctFhsa] fxProfCA fxAsmpC3 (some CAConfig) none 2025
      ⟨0, [fxStFhsa], 50000, 0, none, fxDeplFhsa⟩ =
      (fxC3W, [fxStFhsa], fxDeplFhsa) := by
    rw [yearCascade_eq, hctx]
    exact fxC3_ptow
  have hstep : yearStep [fxAcctFhsa] fxProfCA fxAsmpC3 (some CAConfig) none 2025
      ⟨0, [fxStFhsa], 50000, 0, none, fxDeplFhsa⟩ =
      (fxC3Rec, ⟨1, [fxStFhsa], 50000, 0, none, fxDeplFhsa⟩) := by
    simp only [yearStep, hctx, hcas]
    norm_num [calculatePenalties, fxC3W, fxC3Rec, fxStFhsa, fxDeplFhsa,
      ca_fed_tax_zero, ca_prov_tax_zero, ca_total_tax_zero, calculateStateTax,
      sumBalances, objSet, fxProfCA, fxAsmpC3,
      show CAConfig.calculateFederalTax =
        (fun income _fs => caCalculateFederalIncomeTax income) from rfl,
      show CAConfig.calculateCapitalGainsTax =
        (fun gains _ordinary region _fs => caCalculateTotalTax 0 gains region) from rfl,
      show CAConfig.calculateRegionalTax =
        (fun income region => caCalculateProvincialIncomeTax income region) from rfl,
      show (CAConfig.code == "US") = false from by decide]
  rw [calculateWithdrawals_records, show numSimYears fxProfCA = 1 from by decide, hinit]
  show ((yearStep [fxAcctFhsa] fxProfCA fxAsmpC3 (some CAConfig) none 2025
      ⟨0, [fxStFhsa], 50000, 0, none, fxDeplFhsa⟩).1 :: []) = [fxC3Rec]
  rw [hstep]

/-- From a pointwise relation, every right-hand element has a related
left-hand partner. -/
theorem forall₂_exists_left {α β : Type} {R : α → β → Prop} :
    ∀ {l1 : List α} {l2 : List β}, List.Forall₂ R l1 l2 → ∀ y ∈ l2, ∃ x ∈ l1, R x y := by
  intro l1 l2 h
  induction h with
  | nil => intro y hy; exact absurd hy (List.not_mem_nil y)
  | @cons a b l1' l2' hab htl ih =>
    intro y hy
    rcases List.mem_cons.mp hy with rfl | hy'
    · exact ⟨a, List.mem_cons_self a l1', hab⟩
    · rcases ih y hy' with ⟨x, hx, hRxy⟩
      exact ⟨x, List.mem_cons_of_mem a hx, hRxy⟩

/-- Availability only reads the state's id. -/
theorem isAvailable_congr_id (A : List Account) (age ra : ℤ) (cfg : Option CountryConfig)
    {s t : AccountState} (h : s.id = t.id) :
    isAvailable A age ra cfg s = isAvailable A age ra cfg t := by
  unfold isAvailable
  rw [h]

/-- An unavailable account with a positive balance passes the step-7
membership test. -/
theorem isUnavailable_of_not_avail (A : List Account) (age ra : ℤ)
    (cfg : Option CountryConfig) (s : AccountState)
    (h : isAvailable A age ra cfg s = false) (hbpos : 0 < s.balance) :
    isUnavailableWithBalance A age ra cfg s = true := by
  unfold isAvailable at h
  unfold isUnavailableWithBalance
  cases hf : A.find? (fun a => a.id == s.id) with
  | none => rw [hf] at h; simp at h
  | some account =>
    rw [hf] at h
    simp only [decide_eq_false_iff_not, not_le] at h
    simp [h, hbpos]

/-- Claim C3, amended: the simulator never errors (the cascade is a total
function), and a year's total withdrawal falls short of the spending need
only when every account either is exhausted (zero balance) or is an
available pretax account the policy does not classify as traditional — the
cascade's seven steps cover traditional, Roth, taxable and HSA treatments
and all unavailable accounts, but no step covers an available
pretax-but-not-policy-traditional account (e.g. a Canadian FHSA). -/
theorem claim_C3_shortfall_only_when_exhausted (cs : List AccountState) (A : List Account)
    (ts rmd inc : ℚ) (profile : Profile) (d : DeplMap) (age : ℤ)
    (cfg : Option CountryConfig) (npti : Option ℚ)
    (hb : ∀ s ∈ cs, 0 ≤ s.balance)
    (hshort : (performTaxOptimizedWithdrawal cs A ts rmd inc profile d age cfg
        npti).1.total < max 0 (ts - inc)) :
    ∀ s' ∈ (performTaxOptimizedWithdrawal cs A ts rmd inc profile d age cfg npti).2.1,
      s'.balance = 0 ∨
        (isAvailable A age profile.retirementAge cfg s' = true ∧
          getTaxTreatment s'.type = TaxTreatment.pretax ∧
          effIsTraditional cfg s'.type = false) := by
  intro s' hs'
  by_cases hz : s'.balance = 0
  · exact Or.inl hz
  have hbfin : 0 ≤ s'.balance := ptow_nonneg cs A ts rmd inc profile d age cfg npti hb s' hs'
  have hpos : 0 < s'.balance := lt_of_le_of_ne hbfin (Ne.symm hz)
  have hb1 : ∀ s ∈ (ptowStages cs A ts rmd inc profile d age cfg npti).o1.states,
      0 ≤ s.balance := by
    rw [ptowStages_o1_eq]
    exact rmdLoop_nonneg _ _ _ _ _ _ hb
  have hb2 : ∀ s ∈ (ptowStages cs A ts rmd inc profile d age cfg npti).o2.states,
      0 ≤ s.balance := by
    rw [ptowStages_o2_eq]
    exact withdrawLoop_nonneg _ _ _ _ _ _ hb1
  have hb3 : ∀ s ∈ (ptowStages cs A ts rmd inc profile d age cfg npti).o3.states,
      0 ≤ s.balance := by
    rw [ptowStages_o3_eq]
    exact withdrawLoop_nonneg _ _ _ _ _ _ hb2
  have hb4 : ∀ s ∈ (ptowStages cs A ts rmd inc profile d age cfg npti).o4.states,
      0 ≤ s.balance := by
    rw [ptowStages_o4_eq]
    exact withdrawLoop_nonneg _ _ _ _ _ _ hb3
  have hb5 : ∀ s ∈ (ptowStages cs A ts rmd inc profile d age cfg npti).o5.states,
      0 ≤ s.balance := by
    rw [ptowStages_o5_eq]
    exact withdrawLoop_nonneg _ _ _ _ _ _ hb4
  have hb6 : ∀ s ∈ (ptowStages cs A ts rmd inc profile d age cfg npti).o6.states,
      0 ≤ s.balance := by
    rw [ptowStages_o6_eq]
    by_cases h : (ptowStages cs A ts rmd inc profile d age cfg npti).o5.counter > 0
    · rw [if_pos h]
      exact withdrawLoop_nonneg _ _ _ _ _ _ hb5
    · rw [if_neg h]
      exact hb5
  have hb7a : ∀ s ∈ (ptowStages cs A ts rmd inc profile d age cfg npti).o7a.states,
      0 ≤ s.balance := by
    rw [ptowStages_o7a_eq]
    by_cases h : (ptowStages cs A ts rmd inc profile d age cfg npti).o6.counter > 0
    · rw [if_pos h]
      exact withdrawLoop_nonneg _ _ _ _ _ _ hb6
    · rw [if_neg h]
      exact hb6
  have hw1 : 0 ≤ wTotal (ptowStages cs A ts rmd inc profile d age cfg npti).o1.entries := by
    rw [ptowStages_o1_eq]
    exact rmdLoop_wTotal_nonneg _ _ _ _ _ _ hb
  have hw2 : 0 ≤ wTotal (ptowStages cs A ts rmd inc profile d age cfg npti).o2.entries := by
    rw [ptowStages_o2_eq]
    exact withdrawLoop_wTotal_nonneg _ _ _ _ _ _ hb1
  have hw3 : 0 ≤ wTotal (ptowStages cs A ts rmd inc profile d age cfg npti).o3.entries := by
    rw [ptowStages_o3_eq]
    exact withdrawLoop_wTotal_nonneg _ _ _ _ _ _ hb2
  have hw4 : 0 ≤ wTotal (ptowStages cs A ts rmd inc profile d age cfg npti).o4.entries := by
    rw [ptowStages_o4_eq]
    exact withdrawLoop_wTotal_nonneg _ _ _ _ _ _ hb3
  have hw5 : 0 ≤ wTotal (ptowStages cs A ts rmd inc profile d age cfg npti).o5.entries := by
    rw [ptowStages_o5_eq]
    exact withdrawLoop_wTotal_nonneg _ _ _ _ _ _ hb4
  have hw6 : 0 ≤ wTotal (ptowStages cs A ts rmd inc profile d age cfg npti).o6.entries := by
    rw [ptowStages_o6_eq]
    by_cases h : (ptowStages cs A ts rmd inc profile d age cfg npti).o5.counter > 0
    · rw [if_pos h]
      exact withdrawLoop_wTotal_nonneg _ _ _ _ _ _ hb5
    · rw [if_neg h]
      simp [wTotal]
  have hw7a : 0 ≤ wTotal (ptowStages cs A ts rmd inc profile d age cfg npti).o7a.entries := by
    rw [ptowStages_o7a_eq]
    by_cases h : (ptowStages cs A ts rmd inc profile d age cfg npti).o6.counter > 0
    · rw [if_pos h]
      exact withdrawLoop_wTotal_nonneg _ _ _ _ _ _ hb6
    · rw [if_neg h]
      simp [wTotal]
  have hw7b : 0 ≤ wTotal (ptowStages cs A ts rmd inc profile d age cfg npti).o7b.entries := by
    rw [ptowStages_o7b_eq]
    by_cases h : (ptowStages cs A ts rmd inc profile d age cfg npti).o6.counter > 0
    · rw [if_pos h]
      exact withdrawLoop_wTotal_nonneg _ _ _ _ _ _ hb7a
    · rw [if_neg h]
      simp [wTotal]
  have hn1 : (ptowStages cs A ts rmd inc profile d age cfg npti).o1.need =
      max 0 (max 0 (ts - inc) -
        wTotal (ptowStages cs A ts rmd inc profile d age cfg npti).o1.entries) := by
    rw [ptowStages_o1_eq]
    exact rmdLoop_need_eq _ _ _ _ _ _ hb (le_max_left _ _)
  have hneed2eq := ptowStages_need2_eq cs A ts rmd inc profile d age cfg npti
  have hc3eq : (ptowStages cs A ts rmd inc profile d age cfg npti).o3.counter =
      (ptowStages cs A ts rmd inc profile d age cfg npti).need2 -
        wTotal (ptowStages cs A ts rmd inc profile d age cfg npti).o3.entries := by
    rw [ptowStages_o3_eq]
    exact withdrawLoop_counter_eq _ _ _ _ _ _
  have hc4eq : (ptowStages cs A ts rmd inc profile d age cfg npti).o4.counter =
      (ptowStages cs A ts rmd inc profile d age cfg npti).o3.counter -
        wTotal (ptowStages cs A ts rmd inc profile d age cfg npti).o4.entries := by
    rw [ptowStages_o4_eq]
    exact withdrawLoop_counter_eq _ _ _ _ _ _
  have hc5eq : (ptowStages cs A ts rmd inc profile d age cfg npti).o5.counter =
      (ptowStages cs A ts rmd inc profile d age cfg npti).o4.counter -
        wTotal (ptowStages cs A ts rmd inc profile d age cfg npti).o5.entries := by
    rw [ptowStages_o5_eq]
    exact withdrawLoop_counter_eq _ _ _ _ _ _
  have hc6eq : (ptowStages cs A ts rmd inc profile d age cfg npti).o6.counter =
      (ptowStages cs A ts rmd inc profile d age cfg npti).o5.counter -
        wTotal (ptowStages cs A ts rmd inc profile d age cfg npti).o6.entries := by
    rw [ptowStages_o6_eq]
    by_cases h : (ptowStages cs A ts rmd inc profile d age cfg npti).o5.counter > 0
    · rw [if_pos h]
      exact withdrawLoop_counter_eq _ _ _ _ _ _
    · rw [if_neg h]
      simp [wTotal]
  have hc7aeq : (ptowStages cs A ts rmd inc profile d age cfg npti).o7a.counter =
      (ptowStages cs A ts rmd inc profile d age cfg npti).o6.counter -
        wTotal (ptowStages cs A ts rmd inc profile d age cfg npti).o7a.entries := by
    rw [ptowStages_o7a_eq]
    by_cases h : (ptowStages cs A ts rmd inc profile d age cfg npti).o6.counter > 0
    · rw [if_pos h]
      exact withdrawLoop_counter_eq _ _ _ _ _ _
    · rw [if_neg h]
      simp [wTotal]
  have hc7beq : (ptowStages cs A ts rmd inc profile d age cfg npti).o7b.counter =
      (ptowStages cs A ts rmd inc profile d age cfg npti).o7a.counter -
        wTotal (ptowStages cs A ts rmd inc profile d age cfg npti).o7b.entries := by
    rw [ptowStages_o7b_eq]
    by_cases h : (ptowStages cs A ts rmd inc profile d age cfg npti).o6.counter > 0
    · rw [if_pos h]
      exact withdrawLoop_counter_eq _ _ _ _ _ _
    · rw [if_neg h]
      simp [wTotal]
  have htotal : wTotal (ptowEntries (ptowStages cs A ts rmd inc profile d age cfg npti)) =
      wTotal (ptowStages cs A ts rmd inc profile d age cfg npti).o1.entries +
      wTotal (ptowStages cs A ts rmd inc profile d age cfg npti).o2.entries +
      wTotal (ptowStages cs A ts rmd inc profile d age cfg npti).o3.entries +
      wTotal (ptowStages cs A ts rmd inc profile d age cfg npti).o4.entries +
      wTotal (ptowStages cs A ts rmd inc profile d age cfg npti).o5.entries +
      wTotal (ptowStages cs A ts rmd inc profile d age cfg npti).o6.entries +
      wTotal (ptowStages cs A ts rmd inc profile d age cfg npti).o7a.entries +
      wTotal (ptowStages cs A ts rmd inc profile d age cfg npti).o7b.entries := by
    simp only [ptowEntries, wTotal_append]
  have hxn : max 0 (ts - inc) -
      wTotal (ptowStages cs A ts rmd inc profile d age cfg npti).o1.entries ≤
      (ptowStages cs A ts rmd inc profile d age cfg npti).o1.need := by
    rw [hn1]
    exact le_max_right _ _
  have h7bpos : 0 < (ptowStages cs A ts rmd inc profile d age cfg npti).o7b.counter := by
    have hts := ptow_total_eq cs A ts rmd inc profile d age cfg npti
    rw [hts, htotal] at hshort
    linarith [hneed2eq, hc3eq, hc4eq, hc5eq, hc6eq, hc7aeq, hc7beq, hxn]
  have h7apos : 0 < (ptowStages cs A ts rmd inc profile d age cfg npti).o7a.counter := by
    linarith [hc7beq, hw7b]
  have h6pos : 0 < (ptowStages cs A ts rmd inc profile d age cfg npti).o6.counter := by
    linarith [hc7aeq, hw7a]
  have h5pos : 0 < (ptowStages cs A ts rmd inc profile d age cfg npti).o5.counter := by
    linarith [hc6eq, hw6]
  have h4pos : 0 < (ptowStages cs A ts rmd inc profile d age cfg npti).o4.counter := by
    linarith [hc5eq, hw5]
  have h3pos : 0 < (ptowStages cs A ts rmd inc profile d age cfg npti).o3.counter := by
    linarith [hc4eq, hw4]
  have hF3 : List.Forall₂
      (StageRel (availRothPred A age profile cfg)
        (ptowStages cs A ts rmd inc profile d age cfg npti).o3.counter)
      (ptowStages cs A ts rmd inc profile d age cfg npti).o2.states
      (ptowStages cs A ts rmd inc profile d age cfg npti).o3.states := by
    rw [ptowStages_o3_eq]
    exact withdrawLoop_stageRel _ _ _ _ _ _ hb2
  have hF4 : List.Forall₂
      (StageRel (availTaxablePred A age profile cfg)
        (ptowStages cs A ts rmd inc profile d age cfg npti).o4.counter)
      (ptowStages cs A ts rmd inc profile d age cfg npti).o3.states
      (ptowStages cs A ts rmd inc profile d age cfg npti).o4.states := by
    rw [ptowStages_o4_eq]
    exact withdrawLoop_stageRel _ _ _ _ _ _ hb3
  have hF5 : List.Forall₂
      (StageRel (availHsaPred A age profile cfg)
        (ptowStages cs A ts rmd inc profile d age cfg npti).o5.counter)
      (ptowStages cs A ts rmd inc profile d age cfg npti).o4.states
      (ptowStages cs A ts rmd inc profile d age cfg npti).o5.states := by
    rw [ptowStages_o5_eq]
    exact withdrawLoop_stageRel _ _ _ _ _ _ hb4
  have hF6 : List.Forall₂
      (StageRel (availTradPred A age profile cfg)
        (ptowStages cs A ts rmd inc profile d age cfg npti).o6.counter)
      (ptowStages cs A ts rmd inc profile d age cfg npti).o5.states
      (ptowStages cs A ts rmd inc profile d age cfg npti).o6.states := by
    rw [ptowStages_o6_eq, if_pos h5pos]
    exact withdrawLoop_stageRel _ _ _ _ _ _ hb5
  have hF7a : List.Forall₂
      (StageRel (unavailTradPred A age profile cfg)
        (ptowStages cs A ts rmd inc profile d age cfg npti).o7a.counter)
      (ptowStages cs A ts rmd inc profile d age cfg npti).o6.states
      (ptowStages cs A ts rmd inc profile d age cfg npti).o7a.states := by
    rw [ptowStages_o7a_eq, if_pos h6pos]
    exact withdrawLoop_stageRel _ _ _ _ _ _ hb6
  have hF7b : List.Forall₂
      (StageRel (unavailOtherPred A age profile cfg)
        (ptowStages cs A ts rmd inc profile d age cfg npti).o7b.counter)
      (ptowStages cs A ts rmd inc profile d age cfg npti).o7a.states
      (ptowStages cs A ts rmd inc profile d age cfg npti).o7b.states := by
    rw [ptowStages_o7b_eq, if_pos h6pos]
    exact withdrawLoop_stageRel _ _ _ _ _ _ hb7a
  rw [ptow_states_eq] at hs'
  obtain ⟨s7a, hs7a, hR7b⟩ := forall₂_exists_left hF7b s' hs'
  obtain ⟨s6, hs6, hR7a⟩ := forall₂_exists_left hF7a s7a hs7a
  obtain ⟨s5, hs5, hR6⟩ := forall₂_exists_left hF6 s6 hs6
  obtain ⟨s4, hs4, hR5⟩ := forall₂_exists_left hF5 s5 hs5
  obtain ⟨s3, hs3, hR4⟩ := forall₂_exists_left hF4 s4 hs4
  obtain ⟨s2, hs2, hR3⟩ := forall₂_exists_left hF3 s3 hs3
  have hid7a : s'.id = s7a.id := hR7b.1
  have hid6 : s'.id = s6.id := hid7a.trans hR7a.1
  have hid5 : s'.id = s5.id := hid6.trans hR6.1
  have hid4 : s'.id = s4.id := hid5.trans hR5.1
  have hid3 : s'.id = s3.id := hid4.trans hR4.1
  have hid2 : s'.id = s2.id := hid3.trans hR3.1
  have hty7a : s'.type = s7a.type := hR7b.2.1
  have hty6 : s'.type = s6.type := hty7a.trans hR7a.2.1
  have hty5 : s'.type = s5.type := hty6.trans hR6.2.1
  have hty4 : s'.type = s4.type := hty5.trans hR5.2.1
  have hty3 : s'.type = s3.type := hty4.trans hR4.2.1
  have hty2 : s'.type = s2.type := hty3.trans hR3.2.1
  have hle7a : s'.balance ≤ s7a.balance := hR7b.2.2.1
  have hle6 : s7a.balance ≤ s6.balance := hR7a.2.2.1
  have hle5 : s6.balance ≤ s5.balance := hR6.2.2.1
  have hle4 : s5.balance ≤ s4.balance := hR5.2.2.1
  have hle3 : s4.balance ≤ s3.balance := hR4.2.2.1
  cases hAv : isAvailable A age profile.retirementAge cfg s' with
  | true =>
    cases hTr : effIsTraditional cfg s'.type with
    | true =>
      exfalso
      have hp5 : availTradPred A age profile cfg s5 = true := by
        unfold availTradPred
        rw [isAvailable_congr_id A age profile.retirementAge cfg hid5.symm, hAv, ← hty5,
          hTr]
        simp
      have hdr := hR6.2.2.2.2 h6pos hp5
      linarith
    | false =>
      cases hTT : getTaxTreatment s'.type with
      | pretax => exact Or.inr ⟨rfl, rfl, rfl⟩
      | roth =>
        exfalso
        have hp2 : availRothPred A age profile cfg s2 = true := by
          unfold availRothPred
          rw [isAvailable_congr_id A age profile.retirementAge cfg hid2.symm, hAv, ← hty2,
            hTT]
          simp
        have hdr := hR3.2.2.2.2 h3pos hp2
        linarith
      | taxable =>
        exfalso
        have hp3 : availTaxablePred A age profile cfg s3 = true := by
          unfold availTaxablePred
          rw [isAvailable_congr_id A age profile.retirementAge cfg hid3.symm, hAv, ← hty3,
            hTT]
          simp
        have hdr := hR4.2.2.2.2 h4pos hp3
        linarith
      | hsa =>
        exfalso
        have hp4 : availHsaPred A age profile cfg s4 = true := by
          unfold availHsaPred
          rw [isAvailable_congr_id A age profile.retirementAge cfg hid4.symm, hAv, ← hty4,
            hTT]
          simp
        have hdr := hR5.2.2.2.2 h5pos hp4
        linarith
  | false =>
    exfalso
    cases hTr : effIsTraditional cfg s'.type with
    | true =>
      have hbs6 : 0 < s6.balance := by linarith
      have hAv6 : isAvailable A age profile.retirementAge cfg s6 = false := by
        rw [isAvailable_congr_id A age profile.retirementAge cfg hid6.symm, hAv]
      have hu6 := isUnavailable_of_not_avail A age profile.retirementAge cfg s6 hAv6 hbs6
      have hp6 : unavailTradPred A age profile cfg s6 = true := by
        unfold unavailTradPred
        rw [hu6, ← hty6, hTr]
        simp
      have hdr := hR7a.2.2.2.2 h7apos hp6
      linarith
    | false =>
      have hbs7a : 0 < s7a.balance := by linarith
      have hAv7a : isAvailable A age profile.retirementAge cfg s7a = false := by
        rw [isAvailable_congr_id A age profile.retirementAge cfg hid7a.symm, hAv]
      have hu7a := isUnavailable_of_not_avail A age profile.retirementAge cfg s7a hAv7a
        hbs7a
      have hp7a : unavailOtherPred A age profile cfg s7a = true := by
        unfold unavailOtherPred
        rw [hu7a, ← hty7a, hTr]
        simp
      have hdr := hR7b.2.2.2.2 h7bpos hp7a
      linarith

/-- Counterexample to claim C3 (the "only when every account is exhausted"
part): in a CA simulation holding only an FHSA, the year's total withdrawal
is 0 against a spending need of 50000, yet the account leaves the
allocation cascade with its full $100k balance — an available pretax
account the CA policy does not classify as traditional is skipped by every
cascade step. -/
theorem claim_C3_counterexample :
    (∃ r, (calculateWithdrawals [fxAcctFhsa] fxProfCA fxAsmpC3 fxAccumFhsa (some CAConfig)
        none 2025).yearlyWithdrawals = [r] ∧
      r.totalWithdrawal = 0 ∧ r.targetSpending = 50000 ∧
      r.governmentBenefitIncome = 0 ∧ r.incomeStreamIncome = 0 ∧
      r.totalWithdrawal < max 0 (r.targetSpending -
        (r.governmentBenefitIncome + r.incomeStreamIncome)) ∧
      objGet r.remainingBalances "fhsa1" = 100000) ∧
    (performTaxOptimizedWithdrawal [fxStFhsa] [fxAcctFhsa] 50000 0 0 fxProfCA fxDeplFhsa
        65 (some CAConfig) (some 0)).2.1 = [fxStFhsa] ∧
    fxStFhsa.balance = 100000 := by
  refine ⟨⟨fxC3Rec, fxC3_run, rfl, rfl, rfl, rfl, by norm_num [fxC3Rec], ?_⟩, ?_, rfl⟩
  · norm_num [fxC3Rec, objGet, List.find?]
  · rw [fxC3_ptow]

/-- Witness for the amended claim C3 at the concrete CA FHSA scenario. -/
theorem claim_C3_witness :
    (∀ s ∈ [fxStFhsa], 0 ≤ s.balance) ∧
    ((performTaxOptimizedWithdrawal [fxStFhsa] [fxAcctFhsa] 50000 0 0 fxProfCA fxDeplFhsa
        65 (some CAConfig) (some 0)).1.total < max 0 (50000 - 0)) ∧
    (∀ s' ∈ (performTaxOptimizedWithdrawal [fxStFhsa] [fxAcctFhsa] 50000 0 0 fxProfCA
        fxDeplFhsa 65 (some CAConfig) (some 0)).2.1,
      s'.balance = 0 ∨
        (isAvailable [fxAcctFhsa] 65 fxProfCA.retirementAge (some CAConfig) s' = true ∧
          getTaxTreatment s'.type = TaxTreatment.pretax ∧
          effIsTraditional (some CAConfig) s'.type = false)) := by
  have hb : ∀ s ∈ [fxStFhsa], 0 ≤ s.balance := by decide
  have hshort : (performTaxOptimizedWithdrawal [fxStFhsa] [fxAcctFhsa] 50000 0 0 fxProfCA
      fxDeplFhsa 65 (some CAConfig) (some 0)).1.total < max 0 (50000 - 0) := by
    rw [fxC3_ptow]
    norm_num [fxC3W]
  exact ⟨hb, hshort, claim_C3_shortfall_only_when_exhausted [fxStFhsa] [fxAcctFhsa] 50000
    0 0 fxProfCA fxDeplFhsa 65 (some CAConfig) (some 0) hb hshort⟩

/-- `traditional_401k` is policy-traditional under the US policy. -/
theorem trad401k_us_trad : effIsTraditional (some USConfig) "traditional_401k" = true := by
  simp [effIsTraditional, USConfig,
    show (("traditional_401k" : String) == "traditional_401k") = true from by decide]

/-- The locked account's withdrawal age resolves to its configured 80. -/
theorem locked_resolve : resolveWithdrawalAge 73 (some USConfig) fxAcctLocked = 80 := rfl

/-- Concrete run of the allocation cascade for the locked-traditional RMD
scenario: the mandatory minimum goes unmet (the account is not available),
and only the early-access fallback withdraws the $10 need. -/
theorem fxC2_ptow :
    performTaxOptimizedWithdrawal [fxStTradM] [fxAcctLocked]
      10 (2000000/53) 0 fxProf73 fxDeplTrad 73 (some USConfig) (some 0) =
    (fxC2W, [⟨"trad", "traditional_401k", 999990, 0⟩], fxDeplTrad) := by
  have hFind : List.find? (fun a => a.id ==
      (⟨"trad", "traditional_401k", 1000000, 0⟩ : AccountState).id) [fxAcctLocked] =
      some fxAcctLocked := by
    norm_num [List.find?, fxAcctLocked]
  have hAvL : isAvailable [fxAcctLocked] 73 73 (some USConfig)
      ⟨"trad", "traditional_401k", 1000000, 0⟩ = false := by
    norm_num [isAvailable, hFind, locked_resolve]
  have hULT : isUnavailableWithBalance [fxAcctLocked] 73 73 (some USConfig)
      ⟨"trad", "traditional_401k", 1000000, 0⟩ = true := by
    norm_num [isUnavailableWithBalance, hFind, locked_resolve]
  have hP1 : availTradPred [fxAcctLocked] 73 fxProf73 (some USConfig)
      ⟨"trad", "traditional_401k", 1000000, 0⟩ = false := by
    simp [availTradPred, fxProf73, hAvL]
  have hP2 : availRothPred [fxAcctLocked] 73 fxProf73 (some USConfig)
      ⟨"trad", "traditional_401k", 1000000, 0⟩ = false := by
    simp [availRothPred, fxProf73, hAvL]
  have hP3 : availTaxablePred [fxAcctLocked] 73 fxProf73 (some USConfig)
      ⟨"trad", "traditional_401k", 1000000, 0⟩ = false := by
    simp [availTaxablePred, fxProf73, hAvL]
  have hP4 : availHsaPred [fxAcctLocked] 73 fxProf73 (some USConfig)
      ⟨"trad", "traditional_401k", 1000000, 0⟩ = false := by
    simp [availHsaPred, fxProf73, hAvL]
  have hP5 : unavailTradPred [fxAcctLocked] 73 fxProf73 (some USConfig)
      ⟨"trad", "traditional_401k", 1000000, 0⟩ = true := by
    simp [unavailTradPred, fxProf73, hULT, trad401k_us_trad]
  have hP6 : unavailOtherPred [fxAcctLocked] 73 fxProf73 (some USConfig)
      ⟨"trad", "traditional_401k", 999990, 0⟩ = false := by
    simp [unavailOtherPred, fxProf73, trad401k_us_trad]
  have h1 : (ptowStages [fxStTradM] [fxAcctLocked] 10 (2000000/53) 0 fxProf73 fxDeplTrad 73
      (some USConfig) (some 0)).o1 =
      ⟨[⟨"trad", "traditional_401k", 1000000, 0⟩], 2000000/53, 10, [], fxDeplTrad⟩ := by
    rw [ptowStages_o1_eq]
    norm_num [rmdLoop, hP1, fxStTradM]
  have hAdd : (ptowStages [fxStTradM] [fxAcctLocked] 10 (2000000/53) 0 fxProf73 fxDeplTrad
      73 (some USConfig) (some 0)).additionalTraditional = 10 := by
    rw [ptowStages_addTrad_eq, ptowStages_target_eq, h1]
    norm_num [getStandardDeduction, STANDARD_DEDUCTION_SINGLE, fxProf73, wTotal,
      show (("single" : String) == "married_filing_jointly") = false from by decide]
  have h2 : (ptowStages [fxStTradM] [fxAcctLocked] 10 (2000000/53) 0 fxProf73 fxDeplTrad 73
      (some USConfig) (some 0)).o2 =
      ⟨[⟨"trad", "traditional_401k", 1000000, 0⟩], 10, [], fxDeplTrad⟩ := by
    rw [ptowStages_o2_eq, h1, hAdd]
    norm_num [withdrawLoop, hP1]
  have hN2 : (ptowStages [fxStTradM] [fxAcctLocked] 10 (2000000/53) 0 fxProf73 fxDeplTrad
      73 (some USConfig) (some 0)).need2 = 10 := by
    rw [ptowStages_need2_eq, h1, h2]
    norm_num [wTotal]
  have h3 : (ptowStages [fxStTradM] [fxAcctLocked] 10 (2000000/53) 0 fxProf73 fxDeplTrad 73
      (some USConfig) (some 0)).o3 =
      ⟨[⟨"trad", "traditional_401k", 1000000, 0⟩], 10, [], fxDeplTrad⟩ := by
    rw [ptowStages_o3_eq, h2, hN2]
    norm_num [withdrawLoop, hP2]
  have h4 : (ptowStages [fxStTradM] [fxAcctLocked] 10 (2000000/53) 0 fxProf73 fxDeplTrad 73
      (some USConfig) (some 0)).o4 =
      ⟨[⟨"trad", "traditional_401k", 1000000, 0⟩], 10, [], fxDeplTrad⟩ := by
    rw [ptowStages_o4_eq, h3]
    norm_num [withdrawLoop, hP3]
  have h5 : (ptowStages [fxStTradM] [fxAcctLocked] 10 (2000000/53) 0 fxProf73 fxDeplTrad 73
      (some USConfig) (some 0)).o5 =
      ⟨[⟨"trad", "traditional_401k", 1000000, 0⟩], 10, [], fxDeplTrad⟩ := by
    rw [ptowStages_o5_eq, h4]
    norm_num [withdrawLoop, hP4]
  have h6 : (ptowStages [fxStTradM] [fxAcctLocked] 10 (2000000/53) 0 fxProf73 fxDeplTrad 73
      (some USConfig) (some 0)).o6 =
      ⟨[⟨"trad", "traditional_401k", 1000000, 0⟩], 10, [], fxDeplTrad⟩ := by
    rw [ptowStages_o6_eq, h5]
    norm_num [withdrawLoop, hP1]
  have h7a : (ptowStages [fxStTradM] [fxAcctLocked] 10 (2000000/53) 0 fxProf73 fxDeplTrad
      73 (some USConfig) (some 0)).o7a =
      ⟨[⟨"trad", "traditional_401k", 999990, 0⟩], 0,
        [⟨"trad", "traditional_401k", 1000000, 0, 10, 0⟩], fxDeplTrad⟩ := by
    rw [ptowStages_o7a_eq, h6]
    norm_num [withdrawLoop, hP5, deplSet]
  have h7b : (ptowStages [fxStTradM] [fxAcctLocked] 10 (2000000/53) 0 fxProf73 fxDeplTrad
      73 (some USConfig) (some 0)).o7b =
      ⟨[⟨"trad", "traditional_401k", 999990, 0⟩], 0,
        [], fxDeplTrad⟩ := by
    rw [ptowStages_o7b_eq, h6, h7a]
    norm_num [withdrawLoop, hP6]
  simp only [performTaxOptimizedWithdrawal, ptowEntries, h1, h2, h3, h4, h5, h6, h7a, h7b]
  norm_num [wTotal, wGains, objSet, objAdd, objGet, fxStTradM, fxDeplTrad, fxC2W,
    fxAcctLocked, List.find?, List.filterMap_cons, List.filterMap_nil,
    show (("trad" : String) == "trad") = true from by decide,
    show (getTaxTreatment "traditional_401k" == TaxTreatment.roth) = false from by decide,
    show (getTaxTreatment "traditional_401k" == TaxTreatment.taxable) = false from by
      decide,
    show (getTaxTreatment "traditional_401k" == TaxTreatment.hsa) = false from by decide]

/-- US federal income tax vanishes at $10 ordinary income (below the
standard deduction). -/
theorem us_fed_tax_10 : calculateTotalFederalTax 10 0 (some "single") = 0 := by
  norm_num [calculateTotalFederalTax, calculateFederalIncomeTax, bracketTax,
    calculateCapitalGainsTax, TAX_BRACKETS_SINGLE, CAPITAL_GAINS_BRACKETS_SINGLE,
    STANDARD_DEDUCTION_SINGLE, STANDARD_DEDUCTION_MFJ,
    show ((some "single" : Option String) == some "married_filing_jointly") = false from by
      decide]

/-- US stacking capital-gains tax vanishes at zero gains. -/
theorem us_capgains_tax_0_10 : calculateCapitalGainsTax 0 10 (some "single") = 0 := by
  norm_num [calculateCapitalGainsTax, CAPITAL_GAINS_BRACKETS_SINGLE,
    STANDARD_DEDUCTION_SINGLE, STANDARD_DEDUCTION_MFJ,
    show ((some "single" : Option String) == some "married_filing_jointly") = false from by
      decide]

/-- One-year run of the locked-traditional RMD scenario: the record shows a
mandatory minimum of 2000000/53 but a total withdrawal of only $10. -/
theorem fxC2_run :
    (calculateWithdrawals [fxAcctLocked] fxProf73 fxAsmpTiny fxAccumM (some USConfig) none
      2025).yearlyWithdrawals = [fxC2Rec] := by
  have hinit : simInit [fxAcctLocked] fxAsmpTiny fxAccumM =
      ⟨0, [fxStTradM], 10, 0, none, fxDeplTrad⟩ := by
    norm_num [simInit, initialAccountStates, deplInit, objGet, List.find?, fxAcctLocked,
      fxAccumM, fxAsmpTiny, fxStTradM, fxDeplTrad,
      show getTaxTreatment "traditional_401k" = TaxTreatment.pretax from rfl,
      show (("trad" : String) == "trad") = true from by decide,
      show ¬(TaxTreatment.pretax = TaxTreatment.taxable) from by decide]
  have hctx : yearCtx fxProf73 fxAsmpTiny (some USConfig) none 2025
      ⟨0, [fxStTradM], 10, 0, none, fxDeplTrad⟩ =
      ⟨73, 2025, 1000000, none, 1, 0, 0, 0, 0, 0, 2000000/53, 0⟩ := by
    norm_num [yearCtx, sumBalances, fxProf73, fxAsmpTiny, fxStTradM,
      calculateIncomeStreamBenefits, trad401k_us_trad, calculateRMD,
      show USConfig.calculateRetirementBenefits = calculateSocialSecurityBenefits
        from rfl,
      show USConfig.getMinimumWithdrawal = usCalculateRMD from rfl,
      calculateSocialSecurityBenefits, usCalculateRMD, getRMDDivisor, RMD_START_AGE,
      RMD_TABLE, List.find?]
  have hcas : yearCascade [fxAcctLocked] fxProf73 fxAsmpTiny (some USConfig) none 2025
      ⟨0, [fxStTradM], 10, 0, none, fxDeplTrad⟩ =
      (fxC2W, [⟨"trad", "traditional_401k", 999990, 0⟩], fxDeplTrad) := by
    rw [yearCascade_eq, hctx]
    exact fxC2_ptow
  have hstep : yearStep [fxAcctLocked] fxProf73 fxAsmpTiny (some USConfig) none 2025
      ⟨0, [fxStTradM], 10, 0, none, fxDeplTrad⟩ =
      (fxC2Rec, ⟨1, [⟨"trad", "traditional_401k", 999990, 0⟩], 10, 0, none,
        fxDeplTrad⟩) := by
    simp only [yearStep, hctx, hcas]
    norm_num [calculatePenalties, fxC2W, fxC2Rec, fxDeplTrad,
      us_fed_tax_10, us_capgains_tax_0_10, calculateStateTax, getStandardDeduction,
      STANDARD_DEDUCTION_SINGLE, sumBalances, objSet, fxProf73, fxAsmpTiny,
      usGetPenaltyInfo, List.filterMap_cons, List.filterMap_nil,
      show USConfig.calculateFederalTax =
        (fun income fs => calculateTotalFederalTax income 0 fs) from rfl,
      show USConfig.calculateCapitalGainsTax =
        (fun gains ordinary _region fs => calculateCapitalGainsTax gains ordinary fs)
        from rfl,
      show USConfig.getPenaltyInfo = usGetPenaltyInfo from rfl,
      show (USConfig.code == "US") = true from by decide,
      show (("single" : String) == "married_filing_jointly") = false from by decide,
      show (("traditional_401k" : String) == "traditional_401k") = true from by decide]
  rw [calculateWithdrawals_records, show numSimYears fxProf73 = 1 from by decide, hinit]
  show ((yearStep [fxAcctLocked] fxProf73 fxAsmpTiny (some USConfig) none 2025
      ⟨0, [fxStTradM], 10, 0, none, fxDeplTrad⟩).1 :: []) = [fxC2Rec]
  rw [hstep]

/-- Counterexample to claim C2: a traditional account whose configured
withdrawal start age (80) exceeds the simulated age (73) is excluded from
allocation step 1, so the year's mandatory minimum (2000000/53 ≈ 37736) is
positive while the total withdrawal is only the $10 spending need. -/
theorem claim_C2_counterexample :
    ∃ r, (calculateWithdrawals [fxAcctLocked] fxProf73 fxAsmpTiny fxAccumM (some USConfig)
        none 2025).yearlyWithdrawals = [r] ∧
      r.rmdAmount = 2000000/53 ∧ r.totalWithdrawal = 10 ∧
      0 < r.rmdAmount ∧ r.totalWithdrawal < r.rmdAmount := by
  refine ⟨fxC2Rec, fxC2_run, rfl, rfl, by norm_num [fxC2Rec], by norm_num [fxC2Rec]⟩

/-- The whole cascade preserves the ids and types of the states,
pointwise. -/
theorem ptow_idType (cs : List AccountState) (A : List Account) (ts rmd inc : ℚ)
    (profile : Profile) (d : DeplMap) (age : ℤ) (cfg : Option CountryConfig)
    (npti : Option ℚ) :
    ((performTaxOptimizedWithdrawal cs A ts rmd inc profile d age cfg npti).2.1).map
      (fun s => (s.id, s.type)) = cs.map (fun s => (s.id, s.type)) := by
  rw [ptow_states_eq]
  have h1 : (ptowStages cs A ts rmd inc profile d age cfg npti).o1.states.map
      (fun s => (s.id, s.type)) = cs.map (fun s => (s.id, s.type)) := by
    rw [ptowStages_o1_eq]
    exact rmdLoop_idType _ _ _ _ _ _
  have h2 : (ptowStages cs A ts rmd inc profile d age cfg npti).o2.states.map
      (fun s => (s.id, s.type)) =
      (ptowStages cs A ts rmd inc profile d age cfg npti).o1.states.map
        (fun s => (s.id, s.type)) := by
    rw [ptowStages_o2_eq]
    exact withdrawLoop_idType _ _ _ _ _ _
  have h3 : (ptowStages cs A ts rmd inc profile d age cfg npti).o3.states.map
      (fun s => (s.id, s.type)) =
      (ptowStages cs A ts rmd inc profile d age cfg npti).o2.states.map
        (fun s => (s.id, s.type)) := by
    rw [ptowStages_o3_eq]
    exact withdrawLoop_idType _ _ _ _ _ _
  have h4 : (ptowStages cs A ts rmd inc profile d age cfg npti).o4.states.map
      (fun s => (s.id, s.type)) =
      (ptowStages cs A ts rmd inc profile d age cfg npti).o3.states.map
        (fun s => (s.id, s.type)) := by
    rw [ptowStages_o4_eq]
    exact withdrawLoop_idType _ _ _ _ _ _
  have h5 : (ptowStages cs A ts rmd inc profile d age cfg npti).o5.states.map
      (fun s => (s.id, s.type)) =
      (ptowStages cs A ts rmd inc profile d age cfg npti).o4.states.map
        (fun s => (s.id, s.type)) := by
    rw [ptowStages_o5_eq]
    exact withdrawLoop_idType _ _ _ _ _ _
  have h6 : (ptowStages cs A ts rmd inc profile d age cfg npti).o6.states.map
      (fun s => (s.id, s.type)) =
      (ptowStages cs A ts rmd inc profile d age cfg npti).o5.states.map
        (fun s => (s.id, s.type)) := by
    rw [ptowStages_o6_eq]
    by_cases h : (ptowStages cs A ts rmd inc profile d age cfg npti).o5.counter > 0
    · rw [if_pos h]
      exact withdrawLoop_idType _ _ _ _ _ _
    · rw [if_neg h]
  have h7a : (ptowStages cs A ts rmd inc profile d age cfg npti).o7a.states.map
      (fun s => (s.id, s.type)) =
      (ptowStages cs A ts rmd inc profile d age cfg npti).o6.states.map
        (fun s => (s.id, s.type)) := by
    rw [ptowStages_o7a_eq]
    by_cases h : (ptowStages cs A ts rmd inc profile d age cfg npti).o6.counter > 0
    · rw [if_pos h]
      exact withdrawLoop_idType _ _ _ _ _ _
    · rw [if_neg h]
  have h7b : (ptowStages cs A ts rmd inc profile d age cfg npti).o7b.states.map
      (fun s => (s.id, s.type)) =
      (ptowStages cs A ts rmd inc profile d age cfg npti).o7a.states.map
        (fun s => (s.id, s.type)) := by
    rw [ptowStages_o7b_eq]
    by_cases h : (ptowStages cs A ts rmd inc profile d age cfg npti).o6.counter > 0
    · rw [if_pos h]
      exact withdrawLoop_idType _ _ _ _ _ _
    · rw [if_neg h]
  rw [h7b, h7a, h6, h5, h4, h3, h2, h1]

/-- The cascade's total withdrawal is at least what step 1 withdrew. -/
theorem ptow_total_ge_o1 (cs : List AccountState) (A : List Account) (ts rmd inc : ℚ)
    (profile : Profile) (d : DeplMap) (age : ℤ) (cfg : Option CountryConfig)
    (npti : Option ℚ) (hb : ∀ s ∈ cs, 0 ≤ s.balance) :
    wTotal (ptowStages cs A ts rmd inc profile d age cfg npti).o1.entries ≤
      (performTaxOptimizedWithdrawal cs A ts rmd inc profile d age cfg npti).1.total := by
  have hb1 : ∀ s ∈ (ptowStages cs A ts rmd inc profile d age cfg npti).o1.states,
      0 ≤ s.balance := by
    rw [ptowStages_o1_eq]
    exact rmdLoop_nonneg _ _ _ _ _ _ hb
  have hb2 : ∀ s ∈ (ptowStages cs A ts rmd inc profile d age cfg npti).o2.states,
      0 ≤ s.balance := by
    rw [ptowStages_o2_eq]
    exact withdrawLoop_nonneg _ _ _ _ _ _ hb1
  have hb3 : ∀ s ∈ (ptowStages cs A ts rmd inc profile d age cfg npti).o3.states,
      0 ≤ s.balance := by
    rw [ptowStages_o3_eq]
    exact withdrawLoop_nonneg _ _ _ _ _ _ hb2
  have hb4 : ∀ s ∈ (ptowStages cs A ts rmd inc profile d age cfg npti).o4.states,
      0 ≤ s.balance := by
    rw [ptowStages_o4_eq]
    exact withdrawLoop_nonneg _ _ _ _ _ _ hb3
  have hb5 : ∀ s ∈ (ptowStages cs A ts rmd inc profile d age cfg npti).o5.states,
      0 ≤ s.balance := by
    rw [ptowStages_o5_eq]
    exact withdrawLoop_nonneg _ _ _ _ _ _ hb4
  have hb6 : ∀ s ∈ (ptowStages cs A ts rmd inc profile d age cfg npti).o6.states,
      0 ≤ s.balance := by
    rw [ptowStages_o6_eq]
    by_cases h : (ptowStages cs A ts rmd inc profile d age cfg npti).o5.counter > 0
    · rw [if_pos h]
      exact withdrawLoop_nonneg _ _ _ _ _ _ hb5
    · rw [if_neg h]
      exact hb5
  have hb7a : ∀ s ∈ (ptowStages cs A ts rmd inc profile d age cfg npti).o7a.states,
      0 ≤ s.balance := by
    rw [ptowStages_o7a_eq]
    by_cases h : (ptowStages cs A ts rmd inc profile d age cfg npti).o6.counter > 0
    · rw [if_pos h]
      exact withdrawLoop_nonneg _ _ _ _ _ _ hb6
    · rw [if_neg h]
      exact hb6
  have hw2 : 0 ≤ wTotal (ptowStages cs A ts rmd inc profile d age cfg npti).o2.entries := by
    rw [ptowStages_o2_eq]
    exact withdrawLoop_wTotal_nonneg _ _ _ _ _ _ hb1
  have hw3 : 0 ≤ wTotal (ptowStages cs A ts rmd inc profile d age cfg npti).o3.entries := by
    rw [ptowStages_o3_eq]
    exact withdrawLoop_wTotal_nonneg _ _ _ _ _ _ hb2
  have hw4 : 0 ≤ wTotal (ptowStages cs A ts rmd inc profile d age cfg npti).o4.entries := by
    rw [ptowStages_o4_eq]
    exact withdrawLoop_wTotal_nonneg _ _ _ _ _ _ hb3
  have hw5 : 0 ≤ wTotal (ptowStages cs A ts rmd inc profile d age cfg npti).o5.entries := by
    rw [ptowStages_o5_eq]
    exact withdrawLoop_wTotal_nonneg _ _ _ _ _ _ hb4
  have hw6 : 0 ≤ wTotal (ptowStages cs A ts rmd inc profile d age cfg npti).o6.entries := by
    rw [ptowStages_o6_eq]
    by_cases h : (ptowStages cs A ts rmd inc profile d age cfg npti).o5.counter > 0
    · rw [if_pos h]
      exact withdrawLoop_wTotal_nonneg _ _ _ _ _ _ hb5
    · rw [if_neg h]
      simp [wTotal]
  have hw7a : 0 ≤ wTotal (ptowStages cs A ts rmd inc profile d age cfg npti).o7a.entries := by
    rw [ptowStages_o7a_eq]
    by_cases h : (ptowStages cs A ts rmd inc profile d age cfg npti).o6.counter > 0
    · rw [if_pos h]
      exact withdrawLoop_wTotal_nonneg _ _ _ _ _ _ hb6
    · rw [if_neg h]
      simp [wTotal]
  have hw7b : 0 ≤ wTotal (ptowStages cs A ts rmd inc profile d age cfg npti).o7b.entries := by
    rw [ptowStages_o7b_eq]
    by_cases h : (ptowStages cs A ts rmd inc profile d age cfg npti).o6.counter > 0
    · rw [if_pos h]
      exact withdrawLoop_wTotal_nonneg _ _ _ _ _ _ hb7a
    · rw [if_neg h]
      simp [wTotal]
  have htotal : wTotal (ptowEntries (ptowStages cs A ts rmd inc profile d age cfg npti)) =
      wTotal (ptowStages cs A ts rmd inc profile d age cfg npti).o1.entries +
      wTotal (ptowStages cs A ts rmd inc profile d age cfg npti).o2.entries +
      wTotal (ptowStages cs A ts rmd inc profile d age cfg npti).o3.entries +
      wTotal (ptowStages cs A ts rmd inc profile d age cfg npti).o4.entries +
      wTotal (ptowStages cs A ts rmd inc profile d age cfg npti).o5.entries +
      wTotal (ptowStages cs A ts rmd inc profile d age cfg npti).o6.entries +
      wTotal (ptowStages cs A ts rmd inc profile d age cfg npti).o7a.entries +
      wTotal (ptowStages cs A ts rmd inc profile d age cfg npti).o7b.entries := by
    simp only [ptowEntries, wTotal_append]
  rw [ptow_total_eq, htotal]
  linarith

/-- The summed mandatory minimums over the traditional accounts are at most
the total balance the step-1 predicate covers, when each per-account minimum
is bounded by the balance and every traditional account passes the
predicate. -/
theorem rmd_le_partSum (p : AccountState → Bool) (cfg : Option CountryConfig) (ageq : ℚ) :
    ∀ (states : List AccountState),
      (∀ s ∈ states, 0 ≤ s.balance) →
      (∀ s ∈ states, effIsTraditional cfg s.type = true → p s = true) →
      (∀ (bal : ℚ) (t : String), 0 ≤ bal → calculateRMD ageq bal t cfg ≤ bal) →
      ((states.filter (fun a => effIsTraditional cfg a.type)).map
        (fun a => calculateRMD ageq a.balance a.type cfg)).sum ≤ partSum p states
  | [] => by simp [partSum]
  | a :: rest => by
    intro hb hpt hub
    have hba : 0 ≤ a.balance := hb a (by simp)
    have ih := rmd_le_partSum p cfg ageq rest (fun s hs => hb s (by simp [hs]))
      (fun s hs => hpt s (by simp [hs])) hub
    have hps : partSum p (a :: rest) = (if p a then a.balance else 0) + partSum p rest := by
      simp [partSum]
    by_cases ht : effIsTraditional cfg a.type = true
    · have hpa : p a = true := hpt a (by simp) ht
      have hite : (if p a then a.balance else 0) = a.balance := by simp [hpa]
      rw [hps, hite]
      have hfil : (a :: rest).filter (fun x => effIsTraditional cfg x.type) =
          a :: rest.filter (fun x => effIsTraditional cfg x.type) := by
        simp [List.filter_cons, ht]
      rw [hfil, List.map_cons, List.sum_cons]
      have := hub a.balance a.type hba
      linarith
    · have hfil : (a :: rest).filter (fun x => effIsTraditional cfg x.type) =
          rest.filter (fun x => effIsTraditional cfg x.type) := by
        simp [List.filter_cons, ht]
      rw [hps, hfil]
      by_cases hpa : p a
      · have hite : (if p a then a.balance else 0) = a.balance := by simp [hpa]
        rw [hite]
        linarith
      · rw [if_neg hpa]
        linarith

/-- Under distinct account ids, a state aligned with the account list finds
exactly its own account record, of the same type. -/
theorem find?_account_of_aligned (accounts : List Account) (states : List AccountState)
    (halign : states.map (fun s => (s.id, s.type)) =
      accounts.map (fun a => (a.id, a.type)))
    (hnd : (accounts.map (fun a => a.id)).Nodup) :
    ∀ s ∈ states, ∃ a ∈ accounts,
      accounts.find? (fun x => x.id == s.id) = some a ∧ a.type = s.type := by
  intro s hs
  have hmem : (s.id, s.type) ∈ accounts.map (fun a => (a.id, a.type)) := by
    rw [← halign]
    exact List.mem_map_of_mem _ hs
  rcases List.mem_map.mp hmem with ⟨a, ha, hpair⟩
  have haid : a.id = s.id := congrArg Prod.fst hpair
  have haty : a.type = s.type := congrArg Prod.snd hpair
  have hsome : (accounts.find? (fun x => x.id == s.id)).isSome := by
    rw [List.find?_isSome]
    exact ⟨a, ha, by simp [haid]⟩
  rcases Option.isSome_iff_exists.mp hsome with ⟨a', hfa'⟩
  have ha'mem := List.mem_of_find?_eq_some hfa'
  have hpa' := List.find?_some hfa'
  have ha'id : a'.id = s.id := by simpa using hpa'
  have heq : a' = a :=
    List.inj_on_of_nodup_map hnd ha'mem ha (by rw [ha'id, haid])
  subst heq
  exact ⟨a', ha'mem, hfa', haty⟩

/-- When every policy-traditional account's resolved withdrawal age is at
or below the retirement age, every traditional state is available at every
simulated age. -/
theorem availTrad_of_aligned (accounts : List Account) (profile : Profile)
    (cfg : Option CountryConfig) (age : ℤ) (states : List AccountState)
    (halign : states.map (fun s => (s.id, s.type)) =
      accounts.map (fun a => (a.id, a.type)))
    (hnd : (accounts.map (fun a => a.id)).Nodup)
    (hav : ∀ a ∈ accounts, effIsTraditional cfg a.type = true →
      resolveWithdrawalAge profile.retirementAge cfg a ≤ (profile.retirementAge : ℚ))
    (hage : (profile.retirementAge : ℚ) ≤ (age : ℚ)) :
    ∀ s ∈ states, effIsTraditional cfg s.type = true →
      availTradPred accounts age profile cfg s = true := by
  intro s hs ht
  obtain ⟨a, ha, hfind, htype⟩ := find?_account_of_aligned accounts states halign hnd s hs
  have havail : isAvailable accounts age profile.retirementAge cfg s = true := by
    unfold isAvailable
    rw [hfind]
    have h1 : resolveWithdrawalAge profile.retirementAge cfg a ≤
        (profile.retirementAge : ℚ) := hav a ha (by rw [htype]; exact ht)
    simp only [ge_iff_le, decide_eq_true_eq]
    exact le_trans h1 hage
  unfold availTradPred
  rw [havail, ht]
  simp

/-- Claim C2, amended: when every policy-traditional account's resolved
withdrawal start age is at or below the retirement age (so step 1 can reach
it), account ids are distinct, starting balances are non-negative and the
per-account mandatory minimum is between 0 and the account's balance, every
emitted year's total withdrawal is at least its mandatory-minimum amount. -/
theorem claim_C2_rmd_covered_amended (accounts : List Account) (profile : Profile)
    (assumptions : Assumptions) (accum : AccumulationResult) (cfg : Option CountryConfig)
    (streams : Option (List IncomeStream)) (currentYear : ℤ)
    (hnd : (accounts.map (fun a => a.id)).Nodup)
    (hbal : ∀ kv ∈ accum.finalBalances, 0 ≤ kv.2)
    (hr : -1 ≤ assumptions.retirementReturnRate)
    (hav : ∀ a ∈ accounts, effIsTraditional cfg a.type = true →
      resolveWithdrawalAge profile.retirementAge cfg a ≤ (profile.retirementAge : ℚ))
    (hmin : ∀ (ageq bal : ℚ) (t : String), 0 ≤ bal →
      0 ≤ calculateRMD ageq bal t cfg ∧ calculateRMD ageq bal t cfg ≤ bal) :
    ∀ r ∈ (calculateWithdrawals accounts profile assumptions accum cfg streams
        currentYear).yearlyWithdrawals, r.rmdAmount ≤ r.totalWithdrawal := by
  have h1r : (0 : ℚ) ≤ 1 + assumptions.retirementReturnRate := by linarith
  have hinit : ((simInit accounts assumptions accum).accountStates.map
      (fun st => (st.id, st.type)) = accounts.map (fun a => (a.id, a.type))) ∧
      (∀ st ∈ (simInit accounts assumptions accum).accountStates, 0 ≤ st.balance) := by
    constructor
    · simp only [simInit, initialAccountStates, List.map_map]
      rfl
    · intro st hst
      simp only [simInit, initialAccountStates, List.mem_map] at hst
      rcases hst with ⟨a, _, rfl⟩
      exact objGet_nonneg _ _ hbal
  have hstep : ∀ s : SimState,
      ((s.accountStates.map (fun st => (st.id, st.type)) =
        accounts.map (fun a => (a.id, a.type))) ∧
       (∀ st ∈ s.accountStates, 0 ≤ st.balance)) →
      (((iterStep accounts profile assumptions cfg streams currentYear
          s).accountStates.map (fun st => (st.id, st.type)) =
        accounts.map (fun a => (a.id, a.type))) ∧
       (∀ st ∈ (iterStep accounts profile assumptions cfg streams currentYear
          s).accountStates, 0 ≤ st.balance)) := by
    intro s hP
    have hnext : (iterStep accounts profile assumptions cfg streams currentYear
        s).accountStates =
        ((yearCascade accounts profile assumptions cfg streams currentYear s).2.1).map
          (fun a => { a with balance := a.balance *
            (1 + assumptions.retirementReturnRate) }) :=
      yearStep_next_states accounts profile assumptions cfg streams currentYear s
    constructor
    · rw [hnext, List.map_map]
      show ((yearCascade accounts profile assumptions cfg streams currentYear
          s).2.1).map (fun st => (st.id, st.type)) = accounts.map (fun a => (a.id, a.type))
      rw [yearCascade_eq, ptow_idType]
      exact hP.1
    · intro st hst
      rw [hnext] at hst
      rcases List.mem_map.mp hst with ⟨a, ha, rfl⟩
      have hca : 0 ≤ a.balance := by
        rw [yearCascade_eq] at ha
        exact ptow_nonneg _ _ _ _ _ _ _ _ _ _ hP.2 a ha
      exact mul_nonneg hca h1r
  have hrec : ∀ s : SimState,
      ((s.accountStates.map (fun st => (st.id, st.type)) =
        accounts.map (fun a => (a.id, a.type))) ∧
       (∀ st ∈ s.accountStates, 0 ≤ st.balance)) →
      (yearStep accounts profile assumptions cfg streams currentYear s).1.rmdAmount ≤
        (yearStep accounts profile assumptions cfg streams currentYear
          s).1.totalWithdrawal := by
    intro s hP
    have hnn := hP.2
    have hra : (yearStep accounts profile assumptions cfg streams currentYear
        s).1.rmdAmount =
        (yearCtx profile assumptions cfg streams currentYear s).rmdAmount := rfl
    have hrt : (yearStep accounts profile assumptions cfg streams currentYear
        s).1.totalWithdrawal =
        (yearCascade accounts profile assumptions cfg streams currentYear s).1.total := rfl
    rw [hra, hrt, yearCascade_eq]
    have hrmd_shape : (yearCtx profile assumptions cfg streams currentYear s).rmdAmount =
        ((s.accountStates.filter (fun a => effIsTraditional cfg a.type)).map
          (fun a => calculateRMD (((profile.retirementAge + (s.i : ℤ)) : ℤ) : ℚ)
            a.balance a.type cfg)).sum := rfl
    have hrmd_nn : 0 ≤ (yearCtx profile assumptions cfg streams currentYear
        s).rmdAmount := by
      rw [hrmd_shape]
      apply List.sum_nonneg
      intro x hx
      rcases List.mem_map.mp hx with ⟨a, haf, rfl⟩
      exact (hmin _ _ _ (hnn a (List.mem_of_mem_filter haf))).1
    have hage : (profile.retirementAge : ℚ) ≤
        (((profile.retirementAge + (s.i : ℤ)) : ℤ) : ℚ) := by
      push_cast
      have hz : (0 : ℚ) ≤ (s.i : ℚ) := by positivity
      linarith
    have hagee : (yearCtx profile assumptions cfg streams currentYear s).age =
        profile.retirementAge + (s.i : ℤ) := rfl
    have hcover : (yearCtx profile assumptions cfg streams currentYear s).rmdAmount ≤
        partSum (availTradPred accounts
          (yearCtx profile assumptions cfg streams currentYear s).age profile cfg)
          s.accountStates := by
      rw [hrmd_shape, hagee]
      exact rmd_le_partSum _ cfg _ s.accountStates hnn
        (availTrad_of_aligned accounts profile cfg _ s.accountStates hP.1 hnd hav hage)
        (fun bal t hbb => (hmin _ bal t hbb).2)
    have h1 : wTotal (ptowStages s.accountStates accounts s.targetSpending
        (yearCtx profile assumptions cfg streams currentYear s).rmdAmount
        (yearCtx profile assumptions cfg streams currentYear s).totalRetirementIncome
        profile s.accountDepletionAges
        (yearCtx profile assumptions cfg streams currentYear s).age cfg
        (some (yearCtx profile assumptions cfg streams currentYear
          s).nonPortfolioTaxableIncome)).o1.entries =
        min ((yearCtx profile assumptions cfg streams currentYear s).rmdAmount)
          (partSum (availTradPred accounts
            (yearCtx profile assumptions cfg streams currentYear s).age profile cfg)
            s.accountStates) := by
      rw [ptowStages_o1_eq]
      exact rmdLoop_total_min _ _ _ _ _ _ hnn hrmd_nn
    have hge := ptow_total_ge_o1 s.accountStates accounts s.targetSpending
      (yearCtx profile assumptions cfg streams currentYear s).rmdAmount
      (yearCtx profile assumptions cfg streams currentYear s).totalRetirementIncome
      profile s.accountDepletionAges
      (yearCtx profile assumptions cfg streams currentYear s).age cfg
      (some (yearCtx profile assumptions cfg streams currentYear
        s).nonPortfolioTaxableIncome) hnn
    rw [h1, min_eq_left hcover] at hge
    exact hge
  intro r hr'
  rw [calculateWithdrawals_records] at hr'
  exact simLoop_records accounts profile assumptions cfg streams currentYear
    (fun s => (s.accountStates.map (fun st => (st.id, st.type)) =
      accounts.map (fun a => (a.id, a.type))) ∧ (∀ st ∈ s.accountStates, 0 ≤ st.balance))
    (fun rec => rec.rmdAmount ≤ rec.totalWithdrawal)
    hstep hrec (numSimYears profile) _ hinit r hr'

/-- Every divisor of the IRS Uniform Lifetime Table is at least 1. -/
theorem rmd_table_divisor_ge_one : ∀ e ∈ RMD_TABLE, (1 : ℚ) ≤ e.divisor := by
  intro e he
  fin_cases he <;> norm_num

/-- The US mandatory minimum is between 0 and the balance. -/
theorem us_minimum_bounds (ageq bal : ℚ) (t : String) (hb : 0 ≤ bal) :
    0 ≤ calculateRMD ageq bal t (some USConfig) ∧
    calculateRMD ageq bal t (some USConfig) ≤ bal := by
  have hcal : calculateRMD ageq bal t (some USConfig) = usCalculateRMD ageq bal t := rfl
  rw [hcal]
  unfold usCalculateRMD
  by_cases h1 : ageq < RMD_START_AGE
  · rw [if_pos h1]
    exact ⟨le_refl 0, hb⟩
  · rw [if_neg h1]
    by_cases h2 : getRMDDivisor ageq ≤ 0
    · rw [if_pos h2]
      exact ⟨le_refl 0, hb⟩
    · rw [if_neg h2]
      have hdpos : 0 < getRMDDivisor ageq := lt_of_not_le h2
      have hd1 : 1 ≤ getRMDDivisor ageq := by
        have hdichot : getRMDDivisor ageq = 0 ∨ 1 ≤ getRMDDivisor ageq := by
          unfold getRMDDivisor
          by_cases h1' : ageq < RMD_START_AGE
          · rw [if_pos h1']
            exact Or.inl rfl
          · rw [if_neg h1']
            cases hf : RMD_TABLE.find? (fun e => e.age == ageq) with
            | some e =>
              exact Or.inr (rmd_table_divisor_ge_one e (List.mem_of_find?_eq_some hf))
            | none =>
              by_cases h3 : ageq > 120
              · rw [if_pos h3]
                exact Or.inr (by norm_num)
              · rw [if_neg h3]
                exact Or.inl rfl
        rcases hdichot with h | h
        · rw [h] at hdpos
          exact absurd hdpos (lt_irrefl 0)
        · exact h
      constructor
      · exact div_nonneg hb (le_of_lt hdpos)
      · exact div_le_self hb hd1

/-- Witness for the amended claim C2 at a concrete input: an ordinary
traditional account at age 73 under the US policy. -/
theorem claim_C2_witness :
    (∀ a ∈ [fxAcctTrad], effIsTraditional (some USConfig) a.type = true →
      resolveWithdrawalAge fxProf73.retirementAge (some USConfig) a ≤
        (fxProf73.retirementAge : ℚ)) ∧
    (∀ r ∈ (calculateWithdrawals [fxAcctTrad] fxProf73 fxAsmp0 fxAccumM (some USConfig)
        none 2025).yearlyWithdrawals, r.rmdAmount ≤ r.totalWithdrawal) := by
  have hav : ∀ a ∈ [fxAcctTrad], effIsTraditional (some USConfig) a.type = true →
      resolveWithdrawalAge fxProf73.retirementAge (some USConfig) a ≤
        (fxProf73.retirementAge : ℚ) := by
    intro a ha _
    rw [List.mem_singleton] at ha
    subst ha
    show resolveWithdrawalAge 73 (some USConfig) fxAcctTrad ≤ ((73 : ℤ) : ℚ)
    norm_num [resolveWithdrawalAge, fxAcctTrad, getDefaultWithdrawalAge,
      usGetPenaltyInfo, usCalculateRMD, getRMDDivisor, RMD_START_AGE, RMD_TABLE,
      List.find?,
      show USConfig.getPenaltyInfo = usGetPenaltyInfo from rfl,
      show USConfig.getMinimumWithdrawal = usCalculateRMD from rfl,
      show (USConfig.code == "US") = true from by decide,
      show USConfig.isTraditionalAccount "traditional_401k" = true from by decide]
  exact ⟨hav, claim_C2_rmd_covered_amended [fxAcctTrad] fxProf73 fxAsmp0 fxAccumM
    (some USConfig) none 2025 (by decide) (by decide) (by decide) hav
    (fun ageq bal t hbb => us_minimum_bounds ageq bal t hbb)⟩

/-- The loop index advances by one per simulated year. -/
theorem iterStep_i (accounts : List Account) (profile : Profile)
    (assumptions : Assumptions) (cfg : Option CountryConfig)
    (streams : Option (List IncomeStream)) (currentYear : ℤ) :
    ∀ (k : ℕ) (s : SimState),
      ((iterStep accounts profile assumptions cfg streams currentYear)^[k] s).i =
        s.i + k
  | 0, s => by simp
  | k + 1, s => by
    rw [Function.iterate_succ_apply]
    rw [iterStep_i accounts profile assumptions cfg streams currentYear k]
    show (iterStep accounts profile assumptions cfg streams currentYear s).i + k =
      s.i + (k + 1)
    rw [show (iterStep accounts profile assumptions cfg streams currentYear s).i =
      s.i + 1 from rfl]
    omega

/-- Once flagged, the portfolio depletion age never changes. -/
theorem simLoop_pda_some (accounts : List Account) (profile : Profile)
    (assumptions : Assumptions) (cfg : Option CountryConfig)
    (streams : Option (List IncomeStream)) (currentYear : ℤ) :
    ∀ (n : ℕ) (s : SimState) (a : ℤ), s.portfolioDepletionAge = some a →
      (simLoop accounts profile assumptions cfg streams currentYear n
        s).2.portfolioDepletionAge = some a
  | 0, s, a, h => h
  | n + 1, s, a, h => by
    simp only [simLoop]
    apply simLoop_pda_some accounts profile assumptions cfg streams currentYear n _ a
    have hshape : (yearStep accounts profile assumptions cfg streams currentYear
        s).2.portfolioDepletionAge =
        (if sumBalances s.accountStates ≤ 0 ∧ s.portfolioDepletionAge = none
         then some (profile.retirementAge + (s.i : ℤ))
         else s.portfolioDepletionAge) := rfl
    rw [hshape, if_neg, h]
    rintro ⟨_, hc⟩
    rw [h] at hc
    exact Option.noConfusion hc

/-- The flagged depletion age is the age of the first simulated year whose
start-of-year total balance is non-positive. -/
theorem simLoop_pda_spec (accounts : List Account) (profile : Profile)
    (assumptions : Assumptions) (cfg : Option CountryConfig)
    (streams : Option (List IncomeStream)) (currentYear : ℤ) :
    ∀ (n : ℕ) (s : SimState) (a : ℤ),
      s.portfolioDepletionAge = none →
      (simLoop accounts profile assumptions cfg streams currentYear n
        s).2.portfolioDepletionAge = some a →
      ∃ j, j < n ∧
        a = profile.retirementAge +
          ((((iterStep accounts profile assumptions cfg streams currentYear)^[j]
            s).i : ℤ)) ∧
        sumBalances (((iterStep accounts profile assumptions cfg streams
          currentYear)^[j] s).accountStates) ≤ 0 ∧
        ∀ j' < j, 0 < sumBalances (((iterStep accounts profile assumptions cfg streams
          currentYear)^[j'] s).accountStates)
  | 0, s, a, hnone, hsome => by
    have h0 : (simLoop accounts profile assumptions cfg streams currentYear 0
        s).2.portfolioDepletionAge = s.portfolioDepletionAge := rfl
    rw [h0, hnone] at hsome
    exact Option.noConfusion hsome
  | n + 1, s, a, hnone, hsome => by
    have hrec : (simLoop accounts profile assumptions cfg streams currentYear (n + 1)
        s).2 = (simLoop accounts profile assumptions cfg streams currentYear n
        (yearStep accounts profile assumptions cfg streams currentYear s).2).2 := by
      simp only [simLoop]
    have hshape : (yearStep accounts profile assumptions cfg streams currentYear
        s).2.portfolioDepletionAge =
        (if sumBalances s.accountStates ≤ 0 ∧ s.portfolioDepletionAge = none
         then some (profile.retirementAge + (s.i : ℤ))
         else s.portfolioDepletionAge) := rfl
    by_cases hc : sumBalances s.accountStates ≤ 0
    · have hset : (yearStep accounts profile assumptions cfg streams currentYear
          s).2.portfolioDepletionAge = some (profile.retirementAge + (s.i : ℤ)) := by
        rw [hshape, if_pos ⟨hc, hnone⟩]
      have habs := simLoop_pda_some accounts profile assumptions cfg streams currentYear
        n _ _ hset
      rw [hrec, habs] at hsome
      have ha : a = profile.retirementAge + (s.i : ℤ) :=
        ((Option.some.injEq _ _).mp hsome).symm
      exact ⟨0, Nat.succ_pos n, by simpa using ha, by simpa using hc,
        fun j' hj' => absurd hj' (Nat.not_lt_zero j')⟩
    · have hkeep : (yearStep accounts profile assumptions cfg streams currentYear
          s).2.portfolioDepletionAge = none := by
        rw [hshape, if_neg (fun h => hc h.1), hnone]
      rw [hrec] at hsome
      obtain ⟨j, hj, ha, hdep, hpos⟩ := simLoop_pda_spec accounts profile assumptions cfg
        streams currentYear n _ a hkeep hsome
      refine ⟨j + 1, Nat.succ_lt_succ hj, ?_, ?_, ?_⟩
      · rw [Function.iterate_succ_apply]
        exact ha
      · rw [Function.iterate_succ_apply]
        exact hdep
      · intro j' hj'
        cases j' with
        | zero => simpa using lt_of_not_le hc
        | succ j'' =>
          rw [Function.iterate_succ_apply]
          exact hpos j'' (Nat.lt_of_succ_lt_succ hj')

/-- Claim C5, amended: a non-null portfolioDepletionAge is the age of the
first simulated year whose START-of-year total balance is ≤ 0 — which,
because each record's totalRemainingBalance is the NEXT year's starting
total, is one year AFTER the first emitted record showing
totalRemainingBalance ≤ 0 (when one exists within the horizon), not the
age of that record itself. -/
theorem claim_C5_depletion_age_amended (accounts : List Account) (profile : Profile)
    (assumptions : Assumptions) (accum : AccumulationResult) (cfg : Option CountryConfig)
    (streams : Option (List IncomeStream)) (currentYear : ℤ) (a : ℤ)
    (hpda : (calculateWithdrawals accounts profile assumptions accum cfg streams
      currentYear).portfolioDepletionAge = some a) :
    (∃ k, k < numSimYears profile ∧ a = profile.retirementAge + (k : ℤ) ∧
      sumBalances (simStateAt accounts profile assumptions accum cfg streams currentYear
        k).accountStates ≤ 0 ∧
      ∀ j < k, 0 < sumBalances (simStateAt accounts profile assumptions accum cfg streams
        currentYear j).accountStates) ∧
    (∀ (k : ℕ) (r : YearlyWithdrawal),
      (calculateWithdrawals accounts profile assumptions accum cfg streams
        currentYear).yearlyWithdrawals[k]? = some r →
      r.totalRemainingBalance = sumBalances (simStateAt accounts profile assumptions accum
        cfg streams currentYear (k + 1)).accountStates) := by
  constructor
  · have h0 : (calculateWithdrawals accounts profile assumptions accum cfg streams
        currentYear).portfolioDepletionAge =
        (simLoop accounts profile assumptions cfg streams currentYear
          (numSimYears profile)
          (simInit accounts assumptions accum)).2.portfolioDepletionAge := rfl
    rw [h0] at hpda
    obtain ⟨j, hj, ha, hdep, hpos⟩ := simLoop_pda_spec accounts profile assumptions cfg
      streams currentYear (numSimYears profile) (simInit accounts assumptions accum) a
      rfl hpda
    refine ⟨j, hj, ?_, hdep, hpos⟩
    rw [ha, iterStep_i]
    rw [show (simInit accounts assumptions accum).i = 0 from rfl]
    omega
  · intro k r hk
    rw [calculateWithdrawals_records] at hk
    have hlen : k < numSimYears profile := by
      by_contra h
      rw [List.getElem?_eq_none (by rw [simLoop_length]; omega)] at hk
      exact Option.noConfusion hk
    rw [simLoop_getElem accounts profile assumptions cfg streams currentYear
      (numSimYears profile) _ k hlen] at hk
    have hr := (Option.some.injEq _ _).mp hk.symm
    subst hr
    have hshape : (yearStep accounts profile assumptions cfg streams currentYear
        ((iterStep accounts profile assumptions cfg streams currentYear)^[k]
          (simInit accounts assumptions accum))).1.totalRemainingBalance =
        sumBalances ((iterStep accounts profile assumptions cfg streams currentYear)
          (((iterStep accounts profile assumptions cfg streams currentYear)^[k]
            (simInit accounts assumptions accum)))).accountStates := rfl
    rw [hshape]
    rw [show simStateAt accounts profile assumptions accum cfg streams currentYear
      (k + 1) = (iterStep accounts profile assumptions cfg streams currentYear)
        (((iterStep accounts profile assumptions cfg streams currentYear)^[k]
          (simInit accounts assumptions accum))) from Function.iterate_succ_apply' _ _ _]

/-- The plain traditional account's withdrawal age resolves to 60 under the
US policy (ceil(59.5) capped by the minimum-withdrawal age 73). -/
theorem trad_resolve_65 : resolveWithdrawalAge 65 (some USConfig) fxAcctTrad = 60 := by
  have hc : ⌈(119 / 2 : ℚ)⌉ = (60 : ℤ) := by
    norm_num [Int.ceil_eq_iff]
  norm_num [resolveWithdrawalAge, hc, fxAcctTrad, getDefaultWithdrawalAge,
    usGetPenaltyInfo, usCalculateRMD, getRMDDivisor, RMD_START_AGE, RMD_TABLE,
    List.find?,
    show USConfig.getPenaltyInfo = usGetPenaltyInfo from rfl,
    show USConfig.getMinimumWithdrawal = usCalculateRMD from rfl,
    show (USConfig.code == "US") = true from by decide,
    show USConfig.isTraditionalAccount "traditional_401k" = true from by decide]

/-- US federal income tax vanishes at zero ordinary income. -/
theorem us_fed_tax_0 : calculateTotalFederalTax 0 0 (some "single") = 0 := by
  norm_num [calculateTotalFederalTax, calculateFederalIncomeTax, bracketTax,
    calculateCapitalGainsTax, TAX_BRACKETS_SINGLE, CAPITAL_GAINS_BRACKETS_SINGLE,
    STANDARD_DEDUCTION_SINGLE, STANDARD_DEDUCTION_MFJ,
    show ((some "single" : Option String) == some "married_filing_jointly") = false from by
      decide]

/-- US stacking capital-gains tax vanishes at zero gains and zero income. -/
theorem us_capgains_tax_0_0 : calculateCapitalGainsTax 0 0 (some "single") = 0 := by
  norm_num [calculateCapitalGainsTax, CAPITAL_GAINS_BRACKETS_SINGLE,
    STANDARD_DEDUCTION_SINGLE, STANDARD_DEDUCTION_MFJ,
    show ((some "single" : Option String) == some "married_filing_jointly") = false from by
      decide]

/-- Year-0 cascade of the depletion-flag scenario: the $10 balance is
drained against the $100 need. -/
theorem fxC5_ptow0 :
    performTaxOptimizedWithdrawal [⟨"trad", "traditional_401k", 10, 0⟩] [fxAcctTrad]
      100 0 0 fxProfC5b [("trad", none)] 65 (some USConfig) (some 0) =
    ({ total := 10, traditionalWithdrawal := 10, rothWithdrawal := 0,
       taxableWithdrawal := 0, taxableGains := 0, hsaWithdrawal := 0,
       byAccount := [("trad", 10)],
       accountWithdrawals := [⟨"trad", "Traditional", "traditional_401k", 10⟩] },
     [⟨"trad", "traditional_401k", 0, 0⟩], [("trad", some 65)]) := by
  have hFind10 : List.find? (fun a => a.id ==
      (⟨"trad", "traditional_401k", 10, 0⟩ : AccountState).id) [fxAcctTrad] =
      some fxAcctTrad := by
    norm_num [List.find?, fxAcctTrad]
  have hFind0 : List.find? (fun a => a.id ==
      (⟨"trad", "traditional_401k", 0, 0⟩ : AccountState).id) [fxAcctTrad] =
      some fxAcctTrad := by
    norm_num [List.find?, fxAcctTrad]
  have hAv10 : isAvailable [fxAcctTrad] 65 65 (some USConfig)
      ⟨"trad", "traditional_401k", 10, 0⟩ = true := by
    norm_num [isAvailable, hFind10, trad_resolve_65]
  have hAv0 : isAvailable [fxAcctTrad] 65 65 (some USConfig)
      ⟨"trad", "traditional_401k", 0, 0⟩ = true := by
    norm_num [isAvailable, hFind0, trad_resolve_65]
  have hU10 : isUnavailableWithBalance [fxAcctTrad] 65 65 (some USConfig)
      ⟨"trad", "traditional_401k", 10, 0⟩ = false := by
    norm_num [isUnavailableWithBalance, hFind10, trad_resolve_65]
  have hU0 : isUnavailableWithBalance [fxAcctTrad] 65 65 (some USConfig)
      ⟨"trad", "traditional_401k", 0, 0⟩ = false := by
    norm_num [isUnavailableWithBalance, hFind0, trad_resolve_65]
  have hP1a : availTradPred [fxAcctTrad] 65 fxProfC5b (some USConfig)
      ⟨"trad", "traditional_401k", 10, 0⟩ = true := by
    simp [availTradPred, fxProfC5b, hAv10, trad401k_us_trad]
  have hP1b : availTradPred [fxAcctTrad] 65 fxProfC5b (some USConfig)
      ⟨"trad", "traditional_401k", 0, 0⟩ = true := by
    simp [availTradPred, fxProfC5b, hAv0, trad401k_us_trad]
  have hP2 : availRothPred [fxAcctTrad] 65 fxProfC5b (some USConfig)
      ⟨"trad", "traditional_401k", 0, 0⟩ = false := by
    simp [availRothPred,
      show (getTaxTreatment "traditional_401k" == TaxTreatment.roth) = false from by
        decide]
  have hP3 : availTaxablePred [fxAcctTrad] 65 fxProfC5b (some USConfig)
      ⟨"trad", "traditional_401k", 0, 0⟩ = false := by
    simp [availTaxablePred,
      show (getTaxTreatment "traditional_401k" == TaxTreatment.taxable) = false from by
        decide]
  have hP4 : availHsaPred [fxAcctTrad] 65 fxProfC5b (some USConfig)
      ⟨"trad", "traditional_401k", 0, 0⟩ = false := by
    simp [availHsaPred,
      show (getTaxTreatment "traditional_401k" == TaxTreatment.hsa) = false from by
        decide]
  have hP5 : unavailTradPred [fxAcctTrad] 65 fxProfC5b (some USConfig)
      ⟨"trad", "traditional_401k", 0, 0⟩ = false := by
    simp [unavailTradPred, fxProfC5b, hU0]
  have hP6 : unavailOtherPred [fxAcctTrad] 65 fxProfC5b (some USConfig)
      ⟨"trad", "traditional_401k", 0, 0⟩ = false := by
    simp [unavailOtherPred, fxProfC5b, hU0]
  have h1 : (ptowStages [⟨"trad", "traditional_401k", 10, 0⟩] [fxAcctTrad] 100 0 0
      fxProfC5b [("trad", none)] 65 (some USConfig) (some 0)).o1 =
      ⟨[⟨"trad", "traditional_401k", 10, 0⟩], 0, 100, [], [("trad", none)]⟩ := by
    rw [ptowStages_o1_eq]
    norm_num [rmdLoop, hP1a]
  have hAdd : (ptowStages [⟨"trad", "traditional_401k", 10, 0⟩] [fxAcctTrad] 100 0 0
      fxProfC5b [("trad", none)] 65 (some USConfig) (some 0)).additionalTraditional =
      100 := by
    rw [ptowStages_addTrad_eq, ptowStages_target_eq, h1]
    norm_num [getStandardDeduction, STANDARD_DEDUCTION_SINGLE, fxProfC5b, wTotal,
      show (("single" : String) == "married_filing_jointly") = false from by decide]
  have h2 : (ptowStages [⟨"trad", "traditional_401k", 10, 0⟩] [fxAcctTrad] 100 0 0
      fxProfC5b [("trad", none)] 65 (some USConfig) (some 0)).o2 =
      ⟨[⟨"trad", "traditional_401k", 0, 0⟩], 90,
        [⟨"trad", "traditional_401k", 10, 0, 10, 0⟩], [("trad", some 65)]⟩ := by
    rw [ptowStages_o2_eq, h1, hAdd]
    norm_num [withdrawLoop, hP1a, deplSet,
      show (("trad" : String) == "trad") = true from by decide,
      show ((none : Option ℤ) == none) = true from by decide]
  have hN2 : (ptowStages [⟨"trad", "traditional_401k", 10, 0⟩] [fxAcctTrad] 100 0 0
      fxProfC5b [("trad", none)] 65 (some USConfig) (some 0)).need2 = 90 := by
    rw [ptowStages_need2_eq, h1, h2]
    norm_num [wTotal]
  have h3 : (ptowStages [⟨"trad", "traditional_401k", 10, 0⟩] [fxAcctTrad] 100 0 0
      fxProfC5b [("trad", none)] 65 (some USConfig) (some 0)).o3 =
      ⟨[⟨"trad", "traditional_401k", 0, 0⟩], 90, [], [("trad", some 65)]⟩ := by
    rw [ptowStages_o3_eq, h2, hN2]
    norm_num [withdrawLoop, hP2]
  have h4 : (ptowStages [⟨"trad", "traditional_401k", 10, 0⟩] [fxAcctTrad] 100 0 0
      fxProfC5b [("trad", none)] 65 (some USConfig) (some 0)).o4 =
      ⟨[⟨"trad", "traditional_401k", 0, 0⟩], 90, [], [("trad", some 65)]⟩ := by
    rw [ptowStages_o4_eq, h3]
    norm_num [withdrawLoop, hP3]
  have h5 : (ptowStages [⟨"trad", "traditional_401k", 10, 0⟩] [fxAcctTrad] 100 0 0
      fxProfC5b [("trad", none)] 65 (some USConfig) (some 0)).o5 =
      ⟨[⟨"trad", "traditional_401k", 0, 0⟩], 90, [], [("trad", some 65)]⟩ := by
    rw [ptowStages_o5_eq, h4]
    norm_num [withdrawLoop, hP4]
  have h6 : (ptowStages [⟨"trad", "traditional_401k", 10, 0⟩] [fxAcctTrad] 100 0 0
      fxProfC5b [("trad", none)] 65 (some USConfig) (some 0)).o6 =
      ⟨[⟨"trad", "traditional_401k", 0, 0⟩], 90,
        [⟨"trad", "traditional_401k", 0, 0, 0, 0⟩], [("trad", some 65)]⟩ := by
    rw [ptowStages_o6_eq, h5]
    norm_num [withdrawLoop, hP1b, deplSet,
      show (("trad" : String) == "trad") = true from by decide,
      show ((some (65 : ℤ) : Option ℤ) == none) = false from by decide,
      show ¬(some (65 : ℤ) = (none : Option ℤ)) from by decide]
  have h7a : (ptowStages [⟨"trad", "traditional_401k", 10, 0⟩] [fxAcctTrad] 100 0 0
      fxProfC5b [("trad", none)] 65 (some USConfig) (some 0)).o7a =
      ⟨[⟨"trad", "traditional_401k", 0, 0⟩], 90,
        [], [("trad", some 65)]⟩ := by
    rw [ptowStages_o7a_eq, h6]
    norm_num [withdrawLoop, hP5]
  have h7b : (ptowStages [⟨"trad", "traditional_401k", 10, 0⟩] [fxAcctTrad] 100 0 0
      fxProfC5b [("trad", none)] 65 (some USConfig) (some 0)).o7b =
      ⟨[⟨"trad", "traditional_401k", 0, 0⟩], 90,
        [], [("trad", some 65)]⟩ := by
    rw [ptowStages_o7b_eq, h6, h7a]
    norm_num [withdrawLoop, hP6]
  simp only [performTaxOptimizedWithdrawal, ptowEntries, h1, h2, h3, h4, h5, h6, h7a, h7b]
  norm_num [wTotal, wGains, objSet, objAdd, objGet, fxAcctTrad, List.find?,
    List.filterMap_cons, List.filterMap_nil,
    show (("trad" : String) == "trad") = true from by decide,
    show (getTaxTreatment "traditional_401k" == TaxTreatment.roth) = false from by decide,
    show (getTaxTreatment "traditional_401k" == TaxTreatment.taxable) = false from by
      decide,
    show (getTaxTreatment "traditional_401k" == TaxTreatment.hsa) = false from by decide]

/-- Year-1 cascade of the depletion-flag scenario: nothing left to
withdraw. -/
theorem fxC5_ptow1 :
    performTaxOptimizedWithdrawal [⟨"trad", "traditional_401k", 0, 0⟩] [fxAcctTrad]
      100 0 0 fxProfC5b [("trad", some 65)] 66 (some USConfig) (some 0) =
    ({ total := 0, traditionalWithdrawal := 0, rothWithdrawal := 0,
       taxableWithdrawal := 0, taxableGains := 0, hsaWithdrawal := 0,
       byAccount := [("trad", 0)], accountWithdrawals := [] },
     [⟨"trad", "traditional_401k", 0, 0⟩], [("trad", some 65)]) := by
  have hFind0 : List.find? (fun a => a.id ==
      (⟨"trad", "traditional_401k", 0, 0⟩ : AccountState).id) [fxAcctTrad] =
      some fxAcctTrad := by
    norm_num [List.find?, fxAcctTrad]
  have hAv0 : isAvailable [fxAcctTrad] 66 65 (some USConfig)
      ⟨"trad", "traditional_401k", 0, 0⟩ = true := by
    norm_num [isAvailable, hFind0, trad_resolve_65]
  have hU0 : isUnavailableWithBalance [fxAcctTrad] 66 65 (some USConfig)
      ⟨"trad", "traditional_401k", 0, 0⟩ = false := by
    norm_num [isUnavailableWithBalance, hFind0, trad_resolve_65]
  have hP1 : availTradPred [fxAcctTrad] 66 fxProfC5b (some USConfig)
      ⟨"trad", "traditional_401k", 0, 0⟩ = true := by
    simp [availTradPred, fxProfC5b, hAv0, trad401k_us_trad]
  have hP2 : availRothPred [fxAcctTrad] 66 fxProfC5b (some USConfig)
      ⟨"trad", "traditional_401k", 0, 0⟩ = false := by
    simp [availRothPred,
      show (getTaxTreatment "traditional_401k" == TaxTreatment.roth) = false from by
        decide]
  have hP3 : availTaxablePred [fxAcctTrad] 66 fxProfC5b (some USConfig)
      ⟨"trad", "traditional_401k", 0, 0⟩ = false := by
    simp [availTaxablePred,
      show (getTaxTreatment "traditional_401k" == TaxTreatment.taxable) = false from by
        decide]
  have hP4 : availHsaPred [fxAcctTrad] 66 fxProfC5b (some USConfig)
      ⟨"trad", "traditional_401k", 0, 0⟩ = false := by
    simp [availHsaPred,
      show (getTaxTreatment "traditional_401k" == TaxTreatment.hsa) = false from by
        decide]
  have hP5 : unavailTradPred [fxAcctTrad] 66 fxProfC5b (some USConfig)
      ⟨"trad", "traditional_401k", 0, 0⟩ = false := by
    simp [unavailTradPred, fxProfC5b, hU0]
  have hP6 : unavailOtherPred [fxAcctTrad] 66 fxProfC5b (some USConfig)
      ⟨"trad", "traditional_401k", 0, 0⟩ = false := by
    simp [unavailOtherPred, fxProfC5b, hU0]
  have h1 : (ptowStages [⟨"trad", "traditional_401k", 0, 0⟩] [fxAcctTrad] 100 0 0
      fxProfC5b [("trad", some 65)] 66 (some USConfig) (some 0)).o1 =
      ⟨[⟨"trad", "traditional_401k", 0, 0⟩], 0, 100, [], [("trad", some 65)]⟩ := by
    rw [ptowStages_o1_eq]
    norm_num [rmdLoop, hP1]
  have hAdd : (ptowStages [⟨"trad", "traditional_401k", 0, 0⟩] [fxAcctTrad] 100 0 0
      fxProfC5b [("trad", some 65)] 66 (some USConfig) (some 0)).additionalTraditional =
      100 := by
    rw [ptowStages_addTrad_eq, ptowStages_target_eq, h1]
    norm_num [getStandardDeduction, STANDARD_DEDUCTION_SINGLE, fxProfC5b, wTotal,
      show (("single" : String) == "married_filing_jointly") = false from by decide]
  have h2 : (ptowStages [⟨"trad", "traditional_401k", 0, 0⟩] [fxAcctTrad] 100 0 0
      fxProfC5b [("trad", some 65)] 66 (some USConfig) (some 0)).o2 =
      ⟨[⟨"trad", "traditional_401k", 0, 0⟩], 100,
        [⟨"trad", "traditional_401k", 0, 0, 0, 0⟩], [("trad", some 65)]⟩ := by
    rw [ptowStages_o2_eq, h1, hAdd]
    norm_num [withdrawLoop, hP1, deplSet,
      show (("trad" : String) == "trad") = true from by decide,
      show ((some (65 : ℤ) : Option ℤ) == none) = false from by decide,
      show ¬(some (65 : ℤ) = (none : Option ℤ)) from by decide]
  have hN2 : (ptowStages [⟨"trad", "traditional_401k", 0, 0⟩] [fxAcctTrad] 100 0 0
      fxProfC5b [("trad", some 65)] 66 (some USConfig) (some 0)).need2 = 100 := by
    rw [ptowStages_need2_eq, h1, h2]
    norm_num [wTotal]
  have h3 : (ptowStages [⟨"trad", "traditional_401k", 0, 0⟩] [fxAcctTrad] 100 0 0
      fxProfC5b [("trad", some 65)] 66 (some USConfig) (some 0)).o3 =
      ⟨[⟨"trad", "traditional_401k", 0, 0⟩], 100, [], [("trad", some 65)]⟩ := by
    rw [ptowStages_o3_eq, h2, hN2]
    norm_num [withdrawLoop, hP2]
  have h4 : (ptowStages [⟨"trad", "traditional_401k", 0, 0⟩] [fxAcctTrad] 100 0 0
      fxProfC5b [("trad", some 65)] 66 (some USConfig) (some 0)).o4 =
      ⟨[⟨"trad", "traditional_401k", 0, 0⟩], 100, [], [("trad", some 65)]⟩ := by
    rw [ptowStages_o4_eq, h3]
    norm_num [withdrawLoop, hP3]
  have h5 : (ptowStages [⟨"trad", "traditional_401k", 0, 0⟩] [fxAcctTrad] 100 0 0
      fxProfC5b [("trad", some 65)] 66 (some USConfig) (some 0)).o5 =
      ⟨[⟨"trad", "traditional_401k", 0, 0⟩], 100, [], [("trad", some 65)]⟩ := by
    rw [ptowStages_o5_eq, h4]
    norm_num [withdrawLoop, hP4]
  have h6 : (ptowStages [⟨"trad", "traditional_401k", 0, 0⟩] [fxAcctTrad] 100 0 0
      fxProfC5b [("trad", some 65)] 66 (some USConfig) (some 0)).o6 =
      ⟨[⟨"trad", "traditional_401k", 0, 0⟩], 100,
        [⟨"trad", "traditional_401k", 0, 0, 0, 0⟩], [("trad", some 65)]⟩ := by
    rw [ptowStages_o6_eq, h5]
    norm_num [withdrawLoop, hP1, deplSet,
      show (("trad" : String) == "trad") = true from by decide,
      show ((some (65 : ℤ) : Option ℤ) == none) = false from by decide,
      show ¬(some (65 : ℤ) = (none : Option ℤ)) from by decide]
  have h7a : (ptowStages [⟨"trad", "traditional_401k", 0, 0⟩] [fxAcctTrad] 100 0 0
      fxProfC5b [("trad", some 65)] 66 (some USConfig) (some 0)).o7a =
      ⟨[⟨"trad", "traditional_401k", 0, 0⟩], 100, [], [("trad", some 65)]⟩ := by
    rw [ptowStages_o7a_eq, h6]
    norm_num [withdrawLoop, hP5]
  have h7b : (ptowStages [⟨"trad", "traditional_401k", 0, 0⟩] [fxAcctTrad] 100 0 0
      fxProfC5b [("trad", some 65)] 66 (some USConfig) (some 0)).o7b =
      ⟨[⟨"trad", "traditional_401k", 0, 0⟩], 100, [], [("trad", some 65)]⟩ := by
    rw [ptowStages_o7b_eq, h6, h7a]
    norm_num [withdrawLoop, hP6]
  simp only [performTaxOptimizedWithdrawal, ptowEntries, h1, h2, h3, h4, h5, h6, h7a, h7b]
  norm_num [wTotal, wGains, objSet, objAdd, objGet, fxAcctTrad, List.find?,
    List.filterMap_cons, List.filterMap_nil,
    show (("trad" : String) == "trad") = true from by decide]

/-- Two-year run of the depletion-flag scenario: the portfolio is emptied
in the first simulated year (its record already shows a zero total), yet
the depletion age is flagged only at the next year's start. -/
theorem fxC5_run :
    (calculateWithdrawals [fxAcctTrad] fxProfC5b fxAsmpC5 fxAccumSmall (some USConfig)
      none 2025).yearlyWithdrawals = [fxC5Rec0, fxC5Rec1] ∧
    (calculateWithdrawals [fxAcctTrad] fxProfC5b fxAsmpC5 fxAccumSmall (some USConfig)
      none 2025).portfolioDepletionAge = some 66 := by
  have hinit : simInit [fxAcctTrad] fxAsmpC5 fxAccumSmall =
      ⟨0, [⟨"trad", "traditional_401k", 10, 0⟩], 100, 0, none, [("trad", none)]⟩ := by
    norm_num [simInit, initialAccountStates, deplInit, objGet, List.find?, fxAcctTrad,
      fxAccumSmall, fxAsmpC5,
      show getTaxTreatment "traditional_401k" = TaxTreatment.pretax from rfl,
      show (("trad" : String) == "trad") = true from by decide,
      show ¬(TaxTreatment.pretax = TaxTreatment.taxable) from by decide]
  have hctx0 : yearCtx fxProfC5b fxAsmpC5 (some USConfig) none 2025
      ⟨0, [⟨"trad", "traditional_401k", 10, 0⟩], 100, 0, none, [("trad", none)]⟩ =
      ⟨65, 2025, 10, none, 1, 0, 0, 0, 0, 0, 0, 0⟩ := by
    norm_num [yearCtx, sumBalances, fxProfC5b, fxAsmpC5,
      calculateIncomeStreamBenefits, trad401k_us_trad, calculateRMD,
      show USConfig.calculateRetirementBenefits = calculateSocialSecurityBenefits
        from rfl,
      show USConfig.getMinimumWithdrawal = usCalculateRMD from rfl,
      calculateSocialSecurityBenefits, usCalculateRMD, RMD_START_AGE]
  have hcas0 : yearCascade [fxAcctTrad] fxProfC5b fxAsmpC5 (some USConfig) none 2025
      ⟨0, [⟨"trad", "traditional_401k", 10, 0⟩], 100, 0, none, [("trad", none)]⟩ =
      ({ total := 10, traditionalWithdrawal := 10, rothWithdrawal := 0,
         taxableWithdrawal := 0, taxableGains := 0, hsaWithdrawal := 0,
         byAccount := [("trad", 10)],
         accountWithdrawals := [⟨"trad", "Traditional", "traditional_401k", 10⟩] },
       [⟨"trad", "traditional_401k", 0, 0⟩], [("trad", some 65)]) := by
    rw [yearCascade_eq, hctx0]
    exact fxC5_ptow0
  have hstep0 : yearStep [fxAcctTrad] fxProfC5b fxAsmpC5 (some USConfig) none 2025
      ⟨0, [⟨"trad", "traditional_401k", 10, 0⟩], 100, 0, none, [("trad", none)]⟩ =
      (fxC5Rec0, ⟨1, [⟨"trad", "traditional_401k", 0, 0⟩], 100, 0, none,
        [("trad", some 65)]⟩) := by
    simp only [yearStep, hctx0, hcas0]
    norm_num [calculatePenalties, fxC5Rec0,
      us_fed_tax_10, us_capgains_tax_0_10, calculateStateTax, getStandardDeduction,
      STANDARD_DEDUCTION_SINGLE, sumBalances, objSet, fxProfC5b, fxAsmpC5,
      usGetPenaltyInfo, List.filterMap_cons, List.filterMap_nil,
      show USConfig.calculateFederalTax =
        (fun income fs => calculateTotalFederalTax income 0 fs) from rfl,
      show USConfig.calculateCapitalGainsTax =
        (fun gains ordinary _region fs => calculateCapitalGainsTax gains ordinary fs)
        from rfl,
      show USConfig.getPenaltyInfo = usGetPenaltyInfo from rfl,
      show (USConfig.code == "US") = true from by decide,
      show (("single" : String) == "married_filing_jointly") = false from by decide,
      show (("traditional_401k" : String) == "traditional_401k") = true from by decide]
  have hctx1 : yearCtx fxProfC5b fxAsmpC5 (some USConfig) none 2025
      ⟨1, [⟨"trad", "traditional_401k", 0, 0⟩], 100, 0, none, [("trad", some 65)]⟩ =
      ⟨66, 2026, 0, some 66, 1, 0, 0, 0, 0, 0, 0, 0⟩ := by
    norm_num [yearCtx, sumBalances, fxProfC5b, fxAsmpC5,
      calculateIncomeStreamBenefits, trad401k_us_trad, calculateRMD,
      show USConfig.calculateRetirementBenefits = calculateSocialSecurityBenefits
        from rfl,
      show USConfig.getMinimumWithdrawal = usCalculateRMD from rfl,
      calculateSocialSecurityBenefits, usCalculateRMD, RMD_START_AGE]
  have hcas1 : yearCascade [fxAcctTrad] fxProfC5b fxAsmpC5 (some USConfig) none 2025
      ⟨1, [⟨"trad", "traditional_401k", 0, 0⟩], 100, 0, none, [("trad", some 65)]⟩ =
      ({ total := 0, traditionalWithdrawal := 0, rothWithdrawal := 0,
         taxableWithdrawal := 0, taxableGains := 0, hsaWithdrawal := 0,
         byAccount := [("trad", 0)], accountWithdrawals := [] },
       [⟨"trad", "traditional_401k", 0, 0⟩], [("trad", some 65)]) := by
    rw [yearCascade_eq, hctx1]
    exact fxC5_ptow1
  have hstep1 : yearStep [fxAcctTrad] fxProfC5b fxAsmpC5 (some USConfig) none 2025
      ⟨1, [⟨"trad", "traditional_401k", 0, 0⟩], 100, 0, none, [("trad", some 65)]⟩ =
      (fxC5Rec1, ⟨2, [⟨"trad", "traditional_401k", 0, 0⟩], 100, 0, some 66,
        [("trad", some 65)]⟩) := by
    simp only [yearStep, hctx1, hcas1]
    norm_num [calculatePenalties, fxC5Rec1,
      us_fed_tax_0, us_capgains_tax_0_0, calculateStateTax, getStandardDeduction,
      STANDARD_DEDUCTION_SINGLE, sumBalances, objSet, fxProfC5b, fxAsmpC5,
      List.filterMap_nil,
      show USConfig.calculateFederalTax =
        (fun income fs => calculateTotalFederalTax income 0 fs) from rfl,
      show USConfig.calculateCapitalGainsTax =
        (fun gains ordinary _region fs => calculateCapitalGainsTax gains ordinary fs)
        from rfl,
      show (USConfig.code == "US") = true from by decide,
      show (("single" : String) == "married_filing_jointly") = false from by decide]
  have hstep0r : (yearStep [fxAcctTrad] fxProfC5b fxAsmpC5 (some USConfig) none 2025
      ⟨0, [⟨"trad", "traditional_401k", 10, 0⟩], 100, 0, none,
        [("trad", none)]⟩).1 = fxC5Rec0 := congrArg Prod.fst hstep0
  have hstep0s : (yearStep [fxAcctTrad] fxProfC5b fxAsmpC5 (some USConfig) none 2025
      ⟨0, [⟨"trad", "traditional_401k", 10, 0⟩], 100, 0, none,
        [("trad", none)]⟩).2 =
      ⟨1, [⟨"trad", "traditional_401k", 0, 0⟩], 100, 0, none, [("trad", some 65)]⟩ :=
    congrArg Prod.snd hstep0
  have hstep1r : (yearStep [fxAcctTrad] fxProfC5b fxAsmpC5 (some USConfig) none 2025
      ⟨1, [⟨"trad", "traditional_401k", 0, 0⟩], 100, 0, none,
        [("trad", some 65)]⟩).1 = fxC5Rec1 := congrArg Prod.fst hstep1
  have hstep1s : (yearStep [fxAcctTrad] fxProfC5b fxAsmpC5 (some USConfig) none 2025
      ⟨1, [⟨"trad", "traditional_401k", 0, 0⟩], 100, 0, none,
        [("trad", some 65)]⟩).2 =
      ⟨2, [⟨"trad", "traditional_401k", 0, 0⟩], 100, 0, some 66,
        [("trad", some 65)]⟩ := congrArg Prod.snd hstep1
  constructor
  · rw [calculateWithdrawals_records, show numSimYears fxProfC5b = 2 from by decide,
      hinit]
    show ((yearStep [fxAcctTrad] fxProfC5b fxAsmpC5 (some USConfig) none 2025
        ⟨0, [⟨"trad", "traditional_401k", 10, 0⟩], 100, 0, none, [("trad", none)]⟩).1 ::
      (yearStep [fxAcctTrad] fxProfC5b fxAsmpC5 (some USConfig) none 2025
        ((yearStep [fxAcctTrad] fxProfC5b fxAsmpC5 (some USConfig) none 2025
          ⟨0, [⟨"trad", "traditional_401k", 10, 0⟩], 100, 0, none,
            [("trad", none)]⟩).2)).1 :: []) = [fxC5Rec0, fxC5Rec1]
    rw [hstep0s, hstep0r, hstep1r]
  · have hpp : (calculateWithdrawals [fxAcctTrad] fxProfC5b fxAsmpC5 fxAccumSmall
        (some USConfig) none 2025).portfolioDepletionAge =
        (simLoop [fxAcctTrad] fxProfC5b fxAsmpC5 (some USConfig) none 2025
          (numSimYears fxProfC5b)
          (simInit [fxAcctTrad] fxAsmpC5 fxAccumSmall)).2.portfolioDepletionAge := rfl
    rw [hpp, show numSimYears fxProfC5b = 2 from by decide, hinit]
    show ((yearStep [fxAcctTrad] fxProfC5b fxAsmpC5 (some USConfig) none 2025
        ((yearStep [fxAcctTrad] fxProfC5b fxAsmpC5 (some USConfig) none 2025
          ⟨0, [⟨"trad", "traditional_401k", 10, 0⟩], 100, 0, none,
            [("trad", none)]⟩).2)).2).portfolioDepletionAge = some 66
    rw [hstep0s, hstep1s]

/-- Counterexample to claim C5: the flagged depletion age is 66, but the
record emitted for age 65 — an EARLIER year — already shows a total
remaining balance of 0, contradicting "no emitted year earlier than the
flagged age shows a total remaining balance ≤ 0". -/
theorem claim_C5_counterexample :
    (calculateWithdrawals [fxAcctTrad] fxProfC5b fxAsmpC5 fxAccumSmall (some USConfig)
      none 2025).portfolioDepletionAge = some 66 ∧
    (∃ r, (calculateWithdrawals [fxAcctTrad] fxProfC5b fxAsmpC5 fxAccumSmall
        (some USConfig) none 2025).yearlyWithdrawals[0]? = some r ∧
      r.age = 65 ∧ r.totalRemainingBalance ≤ 0 ∧ r.age < 66) := by
  refine ⟨fxC5_run.2, fxC5Rec0, ?_, rfl, by norm_num [fxC5Rec0], by norm_num [fxC5Rec0]⟩
  rw [fxC5_run.1]
  rfl

/-- Witness for the amended claim C5 at the depletion-flag scenario. -/
theorem claim_C5_witness :
    ((calculateWithdrawals [fxAcctTrad] fxProfC5b fxAsmpC5 fxAccumSmall (some USConfig)
      none 2025).portfolioDepletionAge = some 66) ∧
    ((∃ k, k < numSimYears fxProfC5b ∧ (66 : ℤ) = fxProfC5b.retirementAge + (k : ℤ) ∧
      sumBalances (simStateAt [fxAcctTrad] fxProfC5b fxAsmpC5 fxAccumSmall
        (some USConfig) none 2025 k).accountStates ≤ 0 ∧
      ∀ j < k, 0 < sumBalances (simStateAt [fxAcctTrad] fxProfC5b fxAsmpC5 fxAccumSmall
        (some USConfig) none 2025 j).accountStates) ∧
    (∀ (k : ℕ) (r : YearlyWithdrawal),
      (calculateWithdrawals [fxAcctTrad] fxProfC5b fxAsmpC5 fxAccumSmall (some USConfig)
        none 2025).yearlyWithdrawals[k]? = some r →
      r.totalRemainingBalance = sumBalances (simStateAt [fxAcctTrad] fxProfC5b fxAsmpC5
        fxAccumSmall (some USConfig) none 2025 (k + 1)).accountStates)) :=
  ⟨fxC5_run.2, claim_C5_depletion_age_amended [fxAcctTrad] fxProfC5b fxAsmpC5 fxAccumSmall
    (some USConfig) none 2025 66 fxC5_run.2⟩

/-- The US early-withdrawal penalty in applicable/at-age form. -/
theorem penalty_formula_us (amt : ℚ) (t : String) (ageq : ℚ) :
    USConfig.calculateEarlyWithdrawalPenalty amt t ageq =
      (if ((USConfig.getPenaltyInfo t).appliesToAccountType = true) ∧
          ageq < (USConfig.getPenaltyInfo t).penaltyAge then
        amt * (USConfig.getPenaltyInfo t).penaltyRate
      else 0) := by
  show usCalculateEarlyWithdrawalPenalty amt t ageq = _
  unfold usCalculateEarlyWithdrawalPenalty
  by_cases h1 : (usGetPenaltyInfo t).appliesToAccountType = true
  · by_cases h2 : ageq < (usGetPenaltyInfo t).penaltyAge
    · have hs : ¬(ageq ≥ (usGetPenaltyInfo t).penaltyAge ∨
          ¬(usGetPenaltyInfo t).appliesToAccountType = true) := by
        rintro (h | h)
        · exact absurd h2 (not_lt.mpr h)
        · exact h h1
      rw [if_neg hs, if_pos ⟨h1, h2⟩]
      rfl
    · rw [if_pos (Or.inl (not_lt.mp h2)), if_neg (fun hh => h2 hh.2)]
  · rw [if_pos (Or.inr h1), if_neg (fun hh => h1 hh.1)]


/-- The CA early-withdrawal penalty in applicable/at-age form (always 0). -/
theorem penalty_formula_ca (amt : ℚ) (t : String) (ageq : ℚ) :
    CAConfig.calculateEarlyWithdrawalPenalty amt t ageq =
      (if ((CAConfig.getPenaltyInfo t).appliesToAccountType = true) ∧
          ageq < (CAConfig.getPenaltyInfo t).penaltyAge then
        amt * (CAConfig.getPenaltyInfo t).penaltyRate
      else 0) := by
  show (0 : ℚ) = _
  rw [if_neg]
  rintro ⟨h, _⟩
  exact Bool.noConfusion h

/-- The summed recorded penalties equal the per-withdrawal
applicable-and-under-age formula, for a policy whose penalty function has
that shape with a non-negative rate. -/
theorem calculatePenalties_sum (cfg : CountryConfig) (age : ℤ)
    (hpen : ∀ (amt : ℚ) (t : String) (ageq : ℚ),
      cfg.calculateEarlyWithdrawalPenalty amt t ageq =
        (if ((cfg.getPenaltyInfo t).appliesToAccountType = true) ∧
            ageq < (cfg.getPenaltyInfo t).penaltyAge then
          amt * (cfg.getPenaltyInfo t).penaltyRate
        else 0))
    (hrate : ∀ t, 0 ≤ (cfg.getPenaltyInfo t).penaltyRate) :
    ∀ (ws : List AccountWithdrawal), (∀ w ∈ ws, 0 ≤ w.amount) →
      ((calculatePenalties ws age cfg).map (fun p => p.amount)).sum =
        (ws.map (fun w =>
          if ((cfg.getPenaltyInfo w.accountType).appliesToAccountType = true) ∧
              (age : ℚ) < (cfg.getPenaltyInfo w.accountType).penaltyAge then
            w.amount * (cfg.getPenaltyInfo w.accountType).penaltyRate
          else 0)).sum
  | [] => by
    intro _
    simp [calculatePenalties]
  | w :: rest => by
    intro hw
    have ih := calculatePenalties_sum cfg age hpen hrate rest
      (fun x hx => hw x (by simp [hx]))
    have hwa : 0 ≤ w.amount := hw w (by simp)
    have hamt := hpen w.amount w.accountType (age : ℚ)
    simp only [calculatePenalties, List.filterMap_cons] at ih ⊢
    by_cases hc : ((cfg.getPenaltyInfo w.accountType).appliesToAccountType = true) ∧
        (age : ℚ) < (cfg.getPenaltyInfo w.accountType).penaltyAge
    · rw [if_pos hc] at hamt
      simp only [if_pos hc, hamt]
      by_cases hpos : w.amount * (cfg.getPenaltyInfo w.accountType).penaltyRate > 0
      · simp only [if_pos hpos, List.map_cons, List.sum_cons, ih]
        rw [if_pos hc]
      · have hzero : w.amount * (cfg.getPenaltyInfo w.accountType).penaltyRate = 0 :=
          le_antisymm (not_lt.mp hpos) (mul_nonneg hwa (hrate _))
        simp only [if_neg hpos, List.map_cons, List.sum_cons, ih]
        rw [if_pos hc, hzero]
        ring
    · simp only [if_neg hc, List.map_cons, List.sum_cons, ih]
      ring

/-- Claim C6: for both shipped policies, the summed recorded penalties of a
year equal, per recorded withdrawal, `amount × penaltyRate` exactly when
the policy marks the type applicable and the simulated age is strictly
below the penalty age (0 otherwise); in every emitted record the
per-withdrawal penalties are summed into `totalPenalties` and `totalTax`
equals `federalTax + stateTax + totalPenalties`; and a record's penalty
list is exactly `calculatePenalties` applied to the cascade's recorded
withdrawals at the simulated age. -/
theorem claim_C6_penalties :
    (∀ (ws : List AccountWithdrawal) (age : ℤ), (∀ w ∈ ws, 0 ≤ w.amount) →
      ∀ cfg ∈ [USConfig, CAConfig],
      ((calculatePenalties ws age cfg).map (fun p => p.amount)).sum =
        (ws.map (fun w =>
          if ((cfg.getPenaltyInfo w.accountType).appliesToAccountType = true) ∧
              (age : ℚ) < (cfg.getPenaltyInfo w.accountType).penaltyAge then
            w.amount * (cfg.getPenaltyInfo w.accountType).penaltyRate
          else 0)).sum) ∧
    (∀ (accounts : List Account) (profile : Profile) (assumptions : Assumptions)
        (accum : AccumulationResult) (cfg : Option CountryConfig)
        (streams : Option (List IncomeStream)) (currentYear : ℤ),
      ∀ r ∈ (calculateWithdrawals accounts profile assumptions accum cfg streams
          currentYear).yearlyWithdrawals,
        r.totalPenalties = (r.earlyWithdrawalPenalties.map (fun p => p.amount)).sum ∧
        r.totalTax = r.federalTax + r.stateTax + r.totalPenalties) ∧
    (∀ (accounts : List Account) (profile : Profile) (assumptions : Assumptions)
        (accum : AccumulationResult) (c : CountryConfig)
        (streams : Option (List IncomeStream)) (currentYear : ℤ) (k : ℕ)
        (r : YearlyWithdrawal),
      (calculateWithdrawals accounts profile assumptions accum (some c) streams
        currentYear).yearlyWithdrawals[k]? = some r →
      r.earlyWithdrawalPenalties = calculatePenalties
        ((yearCascade accounts profile assumptions (some c) streams currentYear
          (simStateAt accounts profile assumptions accum (some c) streams currentYear
            k)).1.accountWithdrawals)
        ((yearCtx profile assumptions (some c) streams currentYear
          (simStateAt accounts profile assumptions accum (some c) streams currentYear
            k)).age) c) := by
  refine ⟨?_, ?_, ?_⟩
  · intro ws age hw cfg hcfg
    rcases List.mem_cons.mp hcfg with rfl | hcfg'
    · exact calculatePenalties_sum USConfig age penalty_formula_us
        (fun t => by norm_num [usGetPenaltyInfo,
          show USConfig.getPenaltyInfo = usGetPenaltyInfo from rfl]) ws hw
    · rcases List.mem_singleton.mp hcfg' with rfl
      exact calculatePenalties_sum CAConfig age penalty_formula_ca
        (fun t => le_refl 0) ws hw
  · intro accounts profile assumptions accum cfg streams currentYear r hr
    rw [calculateWithdrawals_records] at hr
    exact simLoop_records accounts profile assumptions cfg streams currentYear
      (fun _ => True)
      (fun rec => rec.totalPenalties =
          (rec.earlyWithdrawalPenalties.map (fun p => p.amount)).sum ∧
        rec.totalTax = rec.federalTax + rec.stateTax + rec.totalPenalties)
      (fun _ _ => trivial) (fun s _ => ⟨rfl, rfl⟩) (numSimYears profile) _ trivial r hr
  · intro accounts profile assumptions accum c streams currentYear k r hk
    rw [calculateWithdrawals_records] at hk
    have hlen : k < numSimYears profile := by
      by_contra h
      rw [List.getElem?_eq_none (by rw [simLoop_length]; omega)] at hk
      exact Option.noConfusion hk
    rw [simLoop_getElem accounts profile assumptions (some c) streams currentYear
      (numSimYears profile) _ k hlen] at hk
    have hr := (Option.some.injEq _ _).mp hk.symm
    subst hr
    rfl

/-- Witness for claim C6 at a concrete input: a $10k traditional-IRA
withdrawal at age 45 under the US policy carries a 10% penalty. -/
theorem claim_C6_witness :
    (∀ w ∈ [fxWithdrawalIra], 0 ≤ w.amount) ∧
    ((calculatePenalties [fxWithdrawalIra] 45 USConfig).map (fun p => p.amount)).sum =
      ([fxWithdrawalIra].map (fun w =>
        if ((USConfig.getPenaltyInfo w.accountType).appliesToAccountType = true) ∧
            ((45 : ℤ) : ℚ) < (USConfig.getPenaltyInfo w.accountType).penaltyAge then
          w.amount * (USConfig.getPenaltyInfo w.accountType).penaltyRate
        else 0)).sum := by
  have hw : ∀ w ∈ [fxWithdrawalIra], 0 ≤ w.amount := by decide
  exact ⟨hw, claim_C6_penalties.1 [fxWithdrawalIra] 45 hw USConfig (by simp)⟩

/-- Every age of the IRS Uniform Lifetime Table is at most 120. -/
theorem rmd_table_age_le : ∀ e ∈ RMD_TABLE, e.age ≤ 120 := by
  intro e he
  fin_cases he <;> norm_num

/-- Every factor of the RRIF minimum table is non-negative. -/
theorem rrif_table_pct_nonneg : ∀ e ∈ RRIF_MINIMUM_TABLE, 0 ≤ e.pct := by
  intro e he
  fin_cases he <;> norm_num

/-- Every age of the RRIF minimum table is at most 95. -/
theorem rrif_table_age_le : ∀ e ∈ RRIF_MINIMUM_TABLE, e.age ≤ 95 := by
  intro e he
  fin_cases he <;> norm_num

/-- Claim C7: both shipped policies' minimum-withdrawal functions return 0
below the jurisdiction's start age (73 US, 71 CA), a non-negative amount
for a non-negative balance, and the last table factor above the table's
last age (balance/2 above 120 for the US, balance × 20% above 95 for the
CA); the US early-withdrawal penalty is 0 at or above the penalty age, and
the CA penalty is 0 everywhere. -/
theorem claim_C7_policy_bounds :
    (∀ (ageq bal : ℚ) (t : String), ageq < 73 →
      USConfig.getMinimumWithdrawal ageq bal t = 0) ∧
    (∀ (ageq bal : ℚ) (t : String), 0 ≤ bal →
      0 ≤ USConfig.getMinimumWithdrawal ageq bal t) ∧
    (∀ (ageq bal : ℚ) (t : String), 120 < ageq →
      USConfig.getMinimumWithdrawal ageq bal t = bal / 2) ∧
    (∀ (ageq bal : ℚ) (t : String), ageq < 71 →
      CAConfig.getMinimumWithdrawal ageq bal t = 0) ∧
    (∀ (ageq bal : ℚ) (t : String), 0 ≤ bal →
      0 ≤ CAConfig.getMinimumWithdrawal ageq bal t) ∧
    (∀ (ageq bal : ℚ) (t : String), 95 < ageq →
      CAConfig.getMinimumWithdrawal ageq bal t = bal * 0.20) ∧
    (∀ (amt : ℚ) (t : String) (ageq : ℚ),
      (USConfig.getPenaltyInfo t).penaltyAge ≤ ageq →
      USConfig.calculateEarlyWithdrawalPenalty amt t ageq = 0) ∧
    (∀ (amt : ℚ) (t : String) (ageq : ℚ),
      CAConfig.calculateEarlyWithdrawalPenalty amt t ageq = 0) := by
  refine ⟨?_, ?_, ?_, ?_, ?_, ?_, ?_, ?_⟩
  · intro ageq bal t h
    show usCalculateRMD ageq bal t = 0
    unfold usCalculateRMD
    rw [if_pos (show ageq < RMD_START_AGE from h)]
  · intro ageq bal t hb
    exact (us_minimum_bounds ageq bal t hb).1
  · intro ageq bal t h
    show usCalculateRMD ageq bal t = bal / 2
    unfold usCalculateRMD
    have h73 : ¬(ageq < RMD_START_AGE) := by
      rw [show RMD_START_AGE = (73 : ℚ) from rfl]
      linarith
    rw [if_neg h73]
    have hfind : RMD_TABLE.find? (fun e => e.age == ageq) = none := by
      rw [List.find?_eq_none]
      intro e he
      have hle := rmd_table_age_le e he
      simp only [beq_iff_eq]
      intro hh
      rw [hh] at hle
      linarith
    have hdiv : getRMDDivisor ageq = 2 := by
      unfold getRMDDivisor
      rw [if_neg h73, hfind, if_pos h]
      norm_num
    rw [hdiv]
    norm_num
  · intro ageq bal t h
    show calculateRRIFMinimum ageq bal t = 0
    unfold calculateRRIFMinimum
    rw [if_pos (show ageq < RRIF_START_AGE from h)]
  · intro ageq bal t hb
    show (0 : ℚ) ≤ calculateRRIFMinimum ageq bal t
    unfold calculateRRIFMinimum
    by_cases h1 : ageq < RRIF_START_AGE
    · rw [if_pos h1]
    · rw [if_neg h1]
      cases hf : RRIF_MINIMUM_TABLE.find? (fun e => e.age == ageq) with
      | some e =>
        exact mul_nonneg hb (rrif_table_pct_nonneg e (List.mem_of_find?_eq_some hf))
      | none =>
        by_cases h2 : ageq > 95
        · rw [if_pos h2]
          exact mul_nonneg hb (by norm_num)
        · rw [if_neg h2]
  · intro ageq bal t h
    show calculateRRIFMinimum ageq bal t = bal * 0.20
    unfold calculateRRIFMinimum
    have h71 : ¬(ageq < RRIF_START_AGE) := by
      rw [show RRIF_START_AGE = (71 : ℚ) from rfl]
      linarith
    rw [if_neg h71]
    have hfind : RRIF_MINIMUM_TABLE.find? (fun e => e.age == ageq) = none := by
      rw [List.find?_eq_none]
      intro e he
      have hle := rrif_table_age_le e he
      simp only [beq_iff_eq]
      intro hh
      rw [hh] at hle
      linarith
    rw [hfind, if_pos h]
  · intro amt t ageq h
    show usCalculateEarlyWithdrawalPenalty amt t ageq = 0
    unfold usCalculateEarlyWithdrawalPenalty
    rw [if_pos (Or.inl (show ageq ≥ (usGetPenaltyInfo t).penaltyAge from h))]
  · intro amt t ageq
    rfl

/-- Witness for claim C7 at concrete inputs (one per bounded branch). -/
theorem claim_C7_witness :
    ((60 : ℚ) < 73 ∧ USConfig.getMinimumWithdrawal 60 100000 "traditional_ira" = 0) ∧
    ((0 : ℚ) ≤ 100000 ∧ 0 ≤ USConfig.getMinimumWithdrawal 75 100000 "traditional_ira") ∧
    ((120 : ℚ) < 130 ∧ USConfig.getMinimumWithdrawal 130 100000 "traditional_ira" =
      100000 / 2) ∧
    ((60 : ℚ) < 71 ∧ CAConfig.getMinimumWithdrawal 60 100000 "rrsp" = 0) ∧
    ((0 : ℚ) ≤ 100000 ∧ 0 ≤ CAConfig.getMinimumWithdrawal 80 100000 "rrsp") ∧
    ((95 : ℚ) < 100 ∧ CAConfig.getMinimumWithdrawal 100 100000 "rrif" =
      100000 * 0.20) ∧
    ((USConfig.getPenaltyInfo "traditional_ira").penaltyAge ≤ 70 ∧
      USConfig.calculateEarlyWithdrawalPenalty 10000 "traditional_ira" 70 = 0) ∧
    CAConfig.calculateEarlyWithdrawalPenalty 10000 "rrsp" 40 = 0 := by
  refine ⟨⟨by norm_num, claim_C7_policy_bounds.1 60 100000 "traditional_ira"
      (by norm_num)⟩,
    ⟨by norm_num, claim_C7_policy_bounds.2.1 75 100000 "traditional_ira" (by norm_num)⟩,
    ⟨by norm_num, claim_C7_policy_bounds.2.2.1 130 100000 "traditional_ira"
      (by norm_num)⟩,
    ⟨by norm_num, claim_C7_policy_bounds.2.2.2.1 60 100000 "rrsp" (by norm_num)⟩,
    ⟨by norm_num, claim_C7_policy_bounds.2.2.2.2.1 80 100000 "rrsp" (by norm_num)⟩,
    ⟨by norm_num, claim_C7_policy_bounds.2.2.2.2.2.1 100 100000 "rrif" (by norm_num)⟩,
    ⟨?_, claim_C7_policy_bounds.2.2.2.2.2.2.1 10000 "traditional_ira" 70 ?_⟩,
    claim_C7_policy_bounds.2.2.2.2.2.2.2 10000 "rrsp" 40⟩
  · show (59.5 : ℚ) ≤ 70
    norm_num
  · show (59.5 : ℚ) ≤ 70
    norm_num

/-- Pointwise input/output law of a cascade loop: each account is either
untouched or some withdrawal `w ∈ [0, balance]` was taken, with the cost
basis shrunk proportionally for gains-realizing taxable withdrawals (reset
to 0 when the balance reaches 0) and kept otherwise. -/
theorem withdrawLoop_post_spec (p : AccountState → Bool) (g : GainsMode) (age : ℤ) :
    ∀ (states : List AccountState) (c : ℚ) (d : DeplMap),
      (∀ s ∈ states, 0 ≤ s.balance) →
      List.Forall₂ (fun pre post =>
        post = pre ∨
        ∃ w : ℚ, 0 ≤ w ∧ w ≤ pre.balance ∧
          post.id = pre.id ∧ post.type = pre.type ∧
          post.balance = pre.balance - w ∧
          post.costBasis =
            (if GainsMode.isOn g && (getTaxTreatment pre.type == TaxTreatment.taxable) then
              (if post.balance > 0 then
                pre.costBasis * (post.balance / (post.balance + w))
              else 0)
            else pre.costBasis))
        states (withdrawLoop p g age states c d).states
  | [], c, d => by simp [withdrawLoop]
  | a :: rest, c, d => by
    intro hb
    have hba : 0 ≤ a.balance := hb a (by simp)
    have hbr : ∀ s ∈ rest, 0 ≤ s.balance := fun s hs => hb s (by simp [hs])
    by_cases hp : p a
    · by_cases hc : c ≤ 0
      · simp only [withdrawLoop, hp, hc, if_true]
        refine List.forall₂_same.mpr ?_
        intro x _
        exact Or.inl rfl
      · simp only [withdrawLoop, hp, hc, if_true, if_false]
        refine List.Forall₂.cons ?_ (withdrawLoop_post_spec p g age rest _ _ hbr)
        right
        exact ⟨min c a.balance, le_min (le_of_lt (lt_of_not_le hc)) hba,
          min_le_right _ _, rfl, rfl, rfl, rfl⟩
    · simp only [withdrawLoop]
      rw [if_neg hp]
      exact List.Forall₂.cons (Or.inl rfl) (withdrawLoop_post_spec p g age rest _ _ hbr)

/-- Claim C8: cost basis starts at 50% of a taxable account's starting
balance (0 for other treatments); allocation step 4 is a gains-realizing
loop over available taxable accounts whose gain ratio reads the
PRE-withdrawal balance, so each of its withdrawals records
gains = amount × max(0, 1 − costBasis/balance) (0.5 when cost-basis
tracking is degenerate), with the amount capped at the balance; each
visited account's cost basis shrinks proportionally to the fraction of the
balance withdrawn (0 when the balance reaches 0); and the cascade's
taxable gains are the summed entry gains of steps 4 and 7b (step 7b's
non-traditional pass reads the POST-withdrawal balance, `GainsMode.post`,
matching the source's decrement-before-ratio order). -/
theorem claim_C8_cost_basis :
    (∀ (accounts : List Account) (accum : AccumulationResult),
      ∀ st ∈ initialAccountStates accounts accum,
        st.costBasis = (if getTaxTreatment st.type = TaxTreatment.taxable then
          st.balance * 0.5 else 0)) ∧
    (∀ (cs : List AccountState) (A : List Account) (ts rmd inc : ℚ)
        (profile : Profile) (d : DeplMap) (age : ℤ) (cfg : Option CountryConfig)
        (npti : Option ℚ),
      (ptowStages cs A ts rmd inc profile d age cfg npti).o4 =
        withdrawLoop (availTaxablePred A age profile cfg) GainsMode.pre age
          (ptowStages cs A ts rmd inc profile d age cfg npti).o3.states
          (ptowStages cs A ts rmd inc profile d age cfg npti).o3.counter
          (ptowStages cs A ts rmd inc profile d age cfg npti).o3.depl) ∧
    (∀ (p : AccountState → Bool) (age : ℤ) (states : List AccountState) (c : ℚ)
        (d : DeplMap), (∀ s ∈ states, 0 ≤ s.balance) →
      ∀ e ∈ (withdrawLoop p GainsMode.pre age states c d).entries,
        0 ≤ e.amount ∧ e.amount ≤ e.preBal ∧
        e.gains = (if getTaxTreatment e.type = TaxTreatment.taxable then
          e.amount * (if e.preCB > 0 then max 0 (1 - e.preCB / e.preBal) else 0.5)
        else 0)) ∧
    (∀ (p : AccountState → Bool) (g : GainsMode) (age : ℤ) (states : List AccountState)
        (c : ℚ) (d : DeplMap), (∀ s ∈ states, 0 ≤ s.balance) →
      List.Forall₂ (fun pre post =>
        post = pre ∨
        ∃ w : ℚ, 0 ≤ w ∧ w ≤ pre.balance ∧
          post.id = pre.id ∧ post.type = pre.type ∧
          post.balance = pre.balance - w ∧
          post.costBasis =
            (if GainsMode.isOn g && (getTaxTreatment pre.type == TaxTreatment.taxable) then
              (if post.balance > 0 then
                pre.costBasis * (post.balance / (post.balance + w))
              else 0)
            else pre.costBasis))
        states (withdrawLoop p g age states c d).states) ∧
    (∀ (cs : List AccountState) (A : List Account) (ts rmd inc : ℚ)
        (profile : Profile) (d : DeplMap) (age : ℤ) (cfg : Option CountryConfig)
        (npti : Option ℚ),
      (performTaxOptimizedWithdrawal cs A ts rmd inc profile d age cfg
        npti).1.taxableGains =
        wGains (ptowStages cs A ts rmd inc profile d age cfg npti).o4.entries +
        wGains (ptowStages cs A ts rmd inc profile d age cfg npti).o7b.entries) := by
  refine ⟨?_, ?_, ?_, ?_, ?_⟩
  · intro accounts accum st hst
    simp only [initialAccountStates, List.mem_map] at hst
    rcases hst with ⟨a, _, rfl⟩
    rfl
  · intro cs A ts rmd inc profile d age cfg npti
    exact ptowStages_o4_eq cs A ts rmd inc profile d age cfg npti
  · intro p age states c d hb e he
    have h := withdrawLoop_entries_spec p GainsMode.pre age states c d hb e he
    refine ⟨h.1, h.2.1, ?_⟩
    rw [h.2.2.2]
    by_cases ht : getTaxTreatment e.type = TaxTreatment.taxable
    · simp [ht]
    · simp [ht]
  · intro p g age states c d hb
    exact withdrawLoop_post_spec p g age states c d hb
  · intro cs A ts rmd inc profile d age cfg npti
    rfl

/-- Witness for claim C8 at a concrete input: a taxable account with a
50% cost-basis fraction in a pre-balance (step 4) gains loop. -/
theorem claim_C8_witness :
    (∀ s ∈ [(⟨"tax1", "taxable", 100000, 50000⟩ : AccountState)], 0 ≤ s.balance) ∧
    (∀ e ∈ (withdrawLoop (fun _ => true) GainsMode.pre 65
        [(⟨"tax1", "taxable", 100000, 50000⟩ : AccountState)] 30000
        [("tax1", none)]).entries,
      0 ≤ e.amount ∧ e.amount ≤ e.preBal ∧
      e.gains = (if getTaxTreatment e.type = TaxTreatment.taxable then
        e.amount * (if e.preCB > 0 then max 0 (1 - e.preCB / e.preBal) else 0.5)
      else 0)) ∧
    List.Forall₂ (fun pre post =>
        post = pre ∨
        ∃ w : ℚ, 0 ≤ w ∧ w ≤ pre.balance ∧
          post.id = pre.id ∧ post.type = pre.type ∧
          post.balance = pre.balance - w ∧
          post.costBasis =
            (if GainsMode.isOn GainsMode.pre &&
                (getTaxTreatment pre.type == TaxTreatment.taxable) then
              (if post.balance > 0 then
                pre.costBasis * (post.balance / (post.balance + w))
              else 0)
            else pre.costBasis))
      [(⟨"tax1", "taxable", 100000, 50000⟩ : AccountState)]
      (withdrawLoop (fun _ => true) GainsMode.pre 65
        [(⟨"tax1", "taxable", 100000, 50000⟩ : AccountState)] 30000
        [("tax1", none)]).states := by
  have hb : ∀ s ∈ [(⟨"tax1", "taxable", 100000, 50000⟩ : AccountState)], 0 ≤ s.balance :=
    by decide
  exact ⟨hb,
    claim_C8_cost_basis.2.2.1 (fun _ => true) 65 _ 30000 [("tax1", none)] hb,
    claim_C8_cost_basis.2.2.2.1 (fun _ => true) GainsMode.pre 65 _ 30000
      [("tax1", none)] hb⟩

/-- The simulation states' account ids and types always align with the
account list. -/
theorem simStateAt_align (accounts : List Account) (profile : Profile)
    (assumptions : Assumptions) (accum : AccumulationResult) (cfg : Option CountryConfig)
    (streams : Option (List IncomeStream)) (currentYear : ℤ) :
    ∀ k : ℕ, (simStateAt accounts profile assumptions accum cfg streams currentYear
        k).accountStates.map (fun st => (st.id, st.type)) =
      accounts.map (fun a => (a.id, a.type))
  | 0 => by
    show (simInit accounts assumptions accum).accountStates.map (fun st => (st.id, st.type))
      = accounts.map (fun a => (a.id, a.type))
    simp only [simInit, initialAccountStates, List.map_map]
    rfl
  | k + 1 => by
    have ih := simStateAt_align accounts profile assumptions accum cfg streams
      currentYear k
    show ((iterStep accounts profile assumptions cfg streams currentYear)^[k + 1]
        (simInit accounts assumptions accum)).accountStates.map
        (fun st => (st.id, st.type)) = accounts.map (fun a => (a.id, a.type))
    rw [Function.iterate_succ_apply']
    rw [show (iterStep accounts profile assumptions cfg streams currentYear
        ((iterStep accounts profile assumptions cfg streams currentYear)^[k]
          (simInit accounts assumptions accum))).accountStates =
        ((yearCascade accounts profile assumptions cfg streams currentYear
          ((iterStep accounts profile assumptions cfg streams currentYear)^[k]
            (simInit accounts assumptions accum))).2.1).map
          (fun a => { a with balance := a.balance *
            (1 + assumptions.retirementReturnRate) }) from rfl]
    rw [List.map_map]
    show ((yearCascade accounts profile assumptions cfg streams currentYear
        ((iterStep accounts profile assumptions cfg streams currentYear)^[k]
          (simInit accounts assumptions accum))).2.1).map (fun st => (st.id, st.type)) =
      accounts.map (fun a => (a.id, a.type))
    rw [yearCascade_eq, ptow_idType]
    exact ih

/-- Folding JS-object balance writes over states with distinct ids appends
one entry per state, in order. -/
theorem foldl_objSet_eq_map :
    ∀ (states : List AccountState) (o : List (String × ℚ)),
      (states.map (fun s => s.id)).Nodup →
      (∀ kv ∈ o, ∀ s ∈ states, kv.1 ≠ s.id) →
      states.foldl (fun acc a => objSet acc a.id a.balance) o =
        o ++ states.map (fun s => (s.id, s.balance))
  | [], o => by simp
  | a :: rest, o => by
    intro hnd hdisj
    have hany : o.any (fun p => p.1 == a.id) = false := by
      rw [List.any_eq_false]
      intro kv hkv
      simp only [beq_iff_eq]
      exact hdisj kv hkv a (by simp)
    have hset : objSet o a.id a.balance = o ++ [(a.id, a.balance)] := by
      unfold objSet
      rw [hany]
      simp
    have hnd' : (rest.map (fun s => s.id)).Nodup := by
      simp only [List.map_cons, List.nodup_cons] at hnd
      exact hnd.2
    have hnotin : a.id ∉ rest.map (fun s => s.id) := by
      simp only [List.map_cons, List.nodup_cons] at hnd
      exact hnd.1
    have hdisj' : ∀ kv ∈ o ++ [(a.id, a.balance)], ∀ s ∈ rest, kv.1 ≠ s.id := by
      intro kv hkv s hs
      rcases List.mem_append.mp hkv with h | h
      · exact hdisj kv h s (by simp [hs])
      · simp only [List.mem_singleton] at h
        subst h
        intro heq
        have heq' : a.id = s.id := heq
        apply hnotin
        rw [heq']
        exact List.mem_map_of_mem (fun s => s.id) hs
    simp only [List.foldl_cons]
    rw [hset, foldl_objSet_eq_map rest (o ++ [(a.id, a.balance)]) hnd' hdisj']
    simp

/-- Claim C10 (implicit): for accounts with distinct ids, in every emitted
`YearlyWithdrawal` record the `remainingBalances` map lists, per account,
the post-withdrawal balance with that year's retirement-phase growth
applied (the record is emitted strictly after the growth step), and
`totalRemainingBalance` equals the sum of the values of that map. -/
theorem claim_C10_remaining_balances (accounts : List Account) (profile : Profile)
    (assumptions : Assumptions) (accum : AccumulationResult) (cfg : Option CountryConfig)
    (streams : Option (List IncomeStream)) (currentYear : ℤ)
    (hnd : (accounts.map (fun a => a.id)).Nodup) :
    ∀ (k : ℕ) (r : YearlyWithdrawal),
      (calculateWithdrawals accounts profile assumptions accum cfg streams
          currentYear).yearlyWithdrawals[k]? = some r →
      r.remainingBalances =
        ((yearCascade accounts profile assumptions cfg streams currentYear
            (simStateAt accounts profile assumptions accum cfg streams currentYear
              k)).2.1).map
          (fun st => (st.id, st.balance * (1 + assumptions.retirementReturnRate))) ∧
      r.totalRemainingBalance = (r.remainingBalances.map (fun kv => kv.2)).sum := by
  intro k r hk
  rw [calculateWithdrawals_records] at hk
  have hlen : k < numSimYears profile := by
    by_contra h
    rw [List.getElem?_eq_none (by rw [simLoop_length]; omega)] at hk
    exact Option.noConfusion hk
  rw [simLoop_getElem accounts profile assumptions cfg streams currentYear
    (numSimYears profile) _ k hlen] at hk
  have hr := (Option.some.injEq _ _).mp hk.symm
  subst hr
  show (yearStep accounts profile assumptions cfg streams currentYear
      (simStateAt accounts profile assumptions accum cfg streams currentYear
        k)).1.remainingBalances = _ ∧
    (yearStep accounts profile assumptions cfg streams currentYear
      (simStateAt accounts profile assumptions accum cfg streams currentYear
        k)).1.totalRemainingBalance =
    (((yearStep accounts profile assumptions cfg streams currentYear
      (simStateAt accounts profile assumptions accum cfg streams currentYear
        k)).1.remainingBalances).map (fun kv => kv.2)).sum
  have hcasalign : ((yearCascade accounts profile assumptions cfg streams currentYear
      (simStateAt accounts profile assumptions accum cfg streams currentYear k)).2.1).map
      (fun st => (st.id, st.type)) = accounts.map (fun a => (a.id, a.type)) := by
    rw [yearCascade_eq, ptow_idType]
    exact simStateAt_align accounts profile assumptions accum cfg streams currentYear k
  have hids : ((((yearCascade accounts profile assumptions cfg streams currentYear
      (simStateAt accounts profile assumptions accum cfg streams currentYear k)).2.1).map
      (fun a => { a with balance := a.balance *
        (1 + assumptions.retirementReturnRate) })).map (fun s => s.id)) =
      accounts.map (fun a => a.id) := by
    rw [List.map_map]
    have h2 : ((yearCascade accounts profile assumptions cfg streams currentYear
        (simStateAt accounts profile assumptions accum cfg streams currentYear
          k)).2.1).map ((fun s : AccountState => s.id) ∘
        (fun a => { a with balance := a.balance *
          (1 + assumptions.retirementReturnRate) })) =
        (((yearCascade accounts profile assumptions cfg streams currentYear
          (simStateAt accounts profile assumptions accum cfg streams currentYear
            k)).2.1).map (fun st => (st.id, st.type))).map Prod.fst := by
      rw [List.map_map]
      rfl
    rw [h2, hcasalign, List.map_map]
    rfl
  have hndG : ((((yearCascade accounts profile assumptions cfg streams currentYear
      (simStateAt accounts profile assumptions accum cfg streams currentYear k)).2.1).map
      (fun a => { a with balance := a.balance *
        (1 + assumptions.retirementReturnRate) })).map (fun s => s.id)).Nodup := by
    rw [hids]
    exact hnd
  have h1 : (yearStep accounts profile assumptions cfg streams currentYear
      (simStateAt accounts profile assumptions accum cfg streams currentYear
        k)).1.remainingBalances =
      ((yearCascade accounts profile assumptions cfg streams currentYear
        (simStateAt accounts profile assumptions accum cfg streams currentYear
          k)).2.1).map
        (fun st => (st.id, st.balance * (1 + assumptions.retirementReturnRate))) := by
    rw [yearStep_remainingBalances,
      foldl_objSet_eq_map _ [] hndG (fun kv hkv => absurd hkv (List.not_mem_nil kv)),
      List.nil_append, List.map_map]
    rfl
  refine ⟨h1, ?_⟩
  rw [show (yearStep accounts profile assumptions cfg streams currentYear
      (simStateAt accounts profile assumptions accum cfg streams currentYear
        k)).1.totalRemainingBalance =
      sumBalances (((yearCascade accounts profile assumptions cfg streams currentYear
        (simStateAt accounts profile assumptions accum cfg streams currentYear
          k)).2.1).map
        (fun a => { a with balance := a.balance *
          (1 + assumptions.retirementReturnRate) })) from rfl]
  rw [h1, List.map_map]
  unfold sumBalances
  rw [List.map_map]
  rfl

/-- Witness for claim C10 at a concrete input: a single-account (hence
distinct-id) simulation to which the theorem applies. -/
theorem claim_C10_witness :
    (([fxAcctFhsa].map (fun a => a.id)).Nodup ∧
      ∀ (k : ℕ) (r : YearlyWithdrawal),
        (calculateWithdrawals [fxAcctFhsa] fxProfCA fxAsmpC3 fxAccumFhsa
            (some CAConfig) none 2025).yearlyWithdrawals[k]? = some r →
        r.remainingBalances =
          ((yearCascade [fxAcctFhsa] fxProfCA fxAsmpC3 (some CAConfig) none 2025
              (simStateAt [fxAcctFhsa] fxProfCA fxAsmpC3 fxAccumFhsa (some CAConfig)
                none 2025 k)).2.1).map
            (fun st => (st.id, st.balance * (1 + fxAsmpC3.retirementReturnRate))) ∧
        r.totalRemainingBalance = (r.remainingBalances.map (fun kv => kv.2)).sum) :=
  ⟨by decide,
    claim_C10_remaining_balances [fxAcctFhsa] fxProfCA fxAsmpC3 fxAccumFhsa
      (some CAConfig) none 2025 (by decide)⟩
